import Mathlib

/-!
# R2 Vulkan core: frame scheduling, deferred deletion, upload staging, pipeline construction

A shallow embedding of `PublicInclude/R2/VKCore.hpp`, `Source/VK/VKPipeline.cpp` and
`Source/VK/VKCoreInitialization.cpp`.

* C++ objects are Lean structures, pointers to Vulkan objects are natural-number handles.
* Every call that leaves the program (a Vulkan entry point, `onFailedVkCheck`, the render pass
  cache) is appended to an event log carried by the `World`, so that "which GPU call was issued,
  with which arguments, how often" is a statement about a list.
* The answers of the Vulkan driver are read from a script carried by the `World`.
* Fixed-width integers are natural numbers reduced modulo `2^32` or `2^64` where the source
  computes on them.
-/

namespace R2.VK

/-! ## Handles and plain data of `VKCore.hpp` -/

/-- Native handle (`VkPipeline`, `VkDevice`, `Buffer*`, ...): an address-sized number. -/
abbrev Handle := Nat

/-- The null handle `VK_NULL_HANDLE` / `nullptr`. -/
def VK_NULL_HANDLE : Handle := 0

/-- Number of values of `uint32_t`. -/
def UINT32_SIZE : Nat := 4294967296

/-- Number of values of `uint64_t`. -/
def UINT64_SIZE : Nat := 18446744073709551616

/-- The struct `Queues` of `VKCore.hpp`. -/
structure Queues where
  GraphicsFamilyIndex : Nat
  PresentFamilyIndex : Nat
  AsyncComputeFamilyIndex : Nat
  Graphics : Handle
  Present : Handle
  AsyncCompute : Handle
deriving DecidableEq, Repr

/-- The struct `Handles` of `VKCore.hpp`. -/
structure Handles where
  Instance : Handle
  PhysicalDevice : Handle
  Device : Handle
  Queues : Queues
  CommandPool : Handle
  AllocCallbacks : Handle
  Allocator : Handle
  DescriptorPool : Handle
deriving DecidableEq, Repr

/-- The struct `GraphicsSupportedFeatures` of `VKCore.hpp`. -/
structure GraphicsSupportedFeatures where
  RayTracing : Bool
  VariableRateShading : Bool
  DynamicRendering : Bool
deriving DecidableEq, Repr

/-- The values of `VkObjectType` that tag a deletion entry. -/
inductive VkObjectType where
  | VK_OBJECT_TYPE_BUFFER
  | VK_OBJECT_TYPE_IMAGE
  | VK_OBJECT_TYPE_EVENT
  | VK_OBJECT_TYPE_IMAGE_VIEW
  | VK_OBJECT_TYPE_PIPELINE
  | VK_OBJECT_TYPE_SAMPLER
  | VK_OBJECT_TYPE_DESCRIPTOR_SET
deriving DecidableEq, Repr

/-- A deletion entry: the (handle, kind) pair of the spec's data model. -/
structure DeletionEntry where
  handle : Handle
  kind : VkObjectType
deriving DecidableEq, Repr

/-- Modelled from the spec: class `DeletionQueue` (`R2/VKDeletionQueue.hpp` is not part of the
sources). "Records GPU object handles tagged by kind": an ordered collection of entries. -/
structure DeletionQueue where
  entries : List DeletionEntry
deriving DecidableEq, Repr

/-- Modelled from the spec: `DQ_QueueObjectDeletion(dq, handle, kind)`, the call used by
`Pipeline::~Pipeline`, defined in the absent `R2/VKDeletionQueue.hpp`.
"`QueueObjectDeletion(handle, kind)`: appends an entry to the queue". -/
def DQ_QueueObjectDeletion (dq : DeletionQueue) (handle : Handle) (kind : VkObjectType) :
    DeletionQueue :=
  { entries := dq.entries ++ [{ handle := handle, kind := kind }] }

/-- The struct `Core::BufferUpload`. -/
structure BufferUpload where
  Buffer : Handle
  StagingOffset : Nat
  DataSize : Nat
  DataOffset : Nat
deriving DecidableEq, Repr

/-- The struct `Core::BufferToTextureCopy`. -/
structure BufferToTextureCopy where
  Buffer : Handle
  Texture : Handle
  BufferOffset : Nat
  numMips : Int
deriving DecidableEq, Repr

/-- The struct `Core::PerFrameResources`. The mutex has no content; `DeletionQueue*` is the queue
it points to (one instance per slot), `StagingMapped` is the content of the mapped staging
region, one list element per byte, so that its length is the capacity of the region. -/
structure PerFrameResources where
  CommandBuffer : Handle
  UploadCommandBuffer : Handle
  UploadSemaphore : Handle
  Completion : Handle
  Fence : Handle
  DeletionQueue : DeletionQueue
  BufferUploads : List BufferUpload
  BufferToTextureCopies : List BufferToTextureCopy
  StagingOffset : Nat
  StagingBuffer : Handle
  StagingMapped : List Nat
deriving DecidableEq, Repr

/-- The array `PerFrameResources perFrameResources[2]`. -/
structure PerFrameArray where
  elem0 : PerFrameResources
  elem1 : PerFrameResources
deriving DecidableEq, Repr

/-- Number of elements of `perFrameResources`, the `N` of the spec. -/
def numFramesInFlight : Nat := 2

/-- Reading `perFrameResources[i]`; an index outside the array has no defined value. -/
def PerFrameArray.get? (a : PerFrameArray) (i : Nat) : Option PerFrameResources :=
  if i = 0 then some a.elem0 else if i = 1 then some a.elem1 else none

/-- Writing `perFrameResources[i]`. -/
def PerFrameArray.set (a : PerFrameArray) (i : Nat) (v : PerFrameResources) : PerFrameArray :=
  if i = 0 then { a with elem0 := v } else if i = 1 then { a with elem1 := v } else a

/-- The data members of class `Core` that the frame loop and the resource wrappers use
(`deviceInfo`, `dbgOutRecv` and the queue mutex take no part in any operation below). -/
structure Core where
  handles : Handles
  supportedFeatures : GraphicsSupportedFeatures
  messenger : Handle
  perFrameResources : PerFrameArray
  frameIndex : Nat
  inFrame : Bool
deriving DecidableEq, Repr

/-! ## Pipeline state of `VKPipeline.cpp` -/

/-- The enum `ShaderStage` (declared in the absent `R2/VKPipeline.hpp`): the two enumerators the
source names, and any other value. -/
inductive ShaderStage where
  | Vertex
  | Fragment
  | Other (value : Nat)
deriving DecidableEq, Repr

/-- The values of `VkShaderStageFlagBits` used by the source. -/
inductive VkShaderStageFlagBits where
  | VK_SHADER_STAGE_VERTEX_BIT
  | VK_SHADER_STAGE_FRAGMENT_BIT
  | VK_SHADER_STAGE_COMPUTE_BIT
deriving DecidableEq, Repr

/-- The function `convertShaderStage`. -/
def convertShaderStage (stage : ShaderStage) : VkShaderStageFlagBits :=
  match stage with
  | .Fragment => .VK_SHADER_STAGE_FRAGMENT_BIT
  | .Vertex => .VK_SHADER_STAGE_VERTEX_BIT
  | _ => .VK_SHADER_STAGE_VERTEX_BIT

/-- Class `ShaderModule`: the `Handles` it points to and the native module. -/
structure ShaderModule where
  handles : Handles
  mod : Handle
deriving DecidableEq, Repr

/-- Class `PipelineLayout`. -/
structure PipelineLayout where
  handles : Handles
  layout : Handle
deriving DecidableEq, Repr

/-- Class `Pipeline`: the native pipeline; its `core` pointer is the `Core` of the world the
wrapper lives in. -/
structure Pipeline where
  pipeline : Handle
deriving DecidableEq, Repr

/-- The struct `VertexAttribute` as `Build` reads it. -/
structure VertexAttribute where
  Index : Nat
  Format : Nat
  Offset : Nat
deriving DecidableEq, Repr

/-- The struct `VertexBinding` as `Build` reads it. -/
structure VertexBinding where
  Binding : Nat
  Size : Nat
  Attributes : List VertexAttribute
deriving DecidableEq, Repr

/-- The struct `ShaderStageCreateInfo` pushed by `AddShader`. -/
structure ShaderStageCreateInfo where
  module : ShaderModule
  stage : ShaderStage
deriving DecidableEq, Repr

/-- The value `TextureFormat::UNDEFINED` (it is cast to `VK_FORMAT_UNDEFINED`). -/
def TextureFormat.UNDEFINED : Nat := 0

/-- The data members of class `PipelineBuilder`. Enumerations are their underlying integers
(they are only passed through `static_cast`), floats are their bit pattern. -/
structure PipelineBuilder where
  shaderStages : List ShaderStageCreateInfo
  attachmentFormats : List Nat
  depthFormat : Nat
  vertexBindings : List VertexBinding
  topology : Nat
  cullMode : Nat
  layout : Handle
  alphaBlend : Bool
  alphaToCoverage : Bool
  additiveBlend : Bool
  depthTest : Bool
  depthWrite : Bool
  depthCompareOp : Nat
  numSamples : Int
  viewMask : Nat
  depthBias : Bool
  constantDepthBias : Nat
  slopeDepthBias : Nat
deriving DecidableEq, Repr

/-- The struct `VkVertexInputBindingDescription`. -/
structure VkVertexInputBindingDescription where
  binding : Nat
  stride : Nat
  inputRate : Nat
deriving DecidableEq, Repr

/-- The value `VK_VERTEX_INPUT_RATE_VERTEX`. -/
def VK_VERTEX_INPUT_RATE_VERTEX : Nat := 0

/-- The struct `VkVertexInputAttributeDescription`. -/
structure VkVertexInputAttributeDescription where
  location : Nat
  binding : Nat
  format : Nat
  offset : Nat
deriving DecidableEq, Repr

/-- The struct `VkPipelineVertexInputStateCreateInfo`. -/
structure VkPipelineVertexInputStateCreateInfo where
  vertexBindingDescriptionCount : Nat
  pVertexBindingDescriptions : List VkVertexInputBindingDescription
  vertexAttributeDescriptionCount : Nat
  pVertexAttributeDescriptions : List VkVertexInputAttributeDescription
deriving DecidableEq, Repr

/-- The values of `VkDynamicState` used by `Build`. -/
inductive VkDynamicState where
  | VK_DYNAMIC_STATE_VIEWPORT
  | VK_DYNAMIC_STATE_SCISSOR
  | VK_DYNAMIC_STATE_FRAGMENT_SHADING_RATE_KHR
deriving DecidableEq, Repr

/-- The struct `VkPipelineRasterizationStateCreateInfo`, the members `Build` sets. -/
structure VkPipelineRasterizationStateCreateInfo where
  cullMode : Nat
  polygonMode : Nat
  frontFace : Nat
  lineWidth : Nat
  depthBiasEnable : Bool
  depthBiasConstantFactor : Nat
  depthBiasSlopeFactor : Nat
deriving DecidableEq, Repr

/-- The value `VK_POLYGON_MODE_FILL`. -/
def VK_POLYGON_MODE_FILL : Nat := 0

/-- The value `VK_FRONT_FACE_COUNTER_CLOCKWISE`. -/
def VK_FRONT_FACE_COUNTER_CLOCKWISE : Nat := 0

/-- Bit pattern of the float `1.0f`. -/
def F32_ONE : Nat := 0x3F800000

/-- The struct `VkPipelineDepthStencilStateCreateInfo`, the members `Build` sets. -/
structure VkPipelineDepthStencilStateCreateInfo where
  depthTestEnable : Bool
  depthWriteEnable : Bool
  depthCompareOp : Nat
deriving DecidableEq, Repr

/-- The struct `VkPipelineMultisampleStateCreateInfo`, the members `Build` sets. -/
structure VkPipelineMultisampleStateCreateInfo where
  rasterizationSamples : Int
  alphaToCoverageEnable : Bool
deriving DecidableEq, Repr

/-- The values of `VkBlendFactor` used by `Build`; a zero-initialised member is `ZERO`. -/
inductive VkBlendFactor where
  | VK_BLEND_FACTOR_ZERO
  | VK_BLEND_FACTOR_ONE
  | VK_BLEND_FACTOR_SRC_ALPHA
  | VK_BLEND_FACTOR_ONE_MINUS_SRC_ALPHA
deriving DecidableEq, Repr

/-- The values of `VkBlendOp` used by `Build`; a zero-initialised member is `ADD`. -/
inductive VkBlendOp where
  | VK_BLEND_OP_ADD
  | VK_BLEND_OP_MAX
deriving DecidableEq, Repr

/-- The colour component bits of `VkColorComponentFlagBits`. -/
def VK_COLOR_COMPONENT_R_BIT : Nat := 1

/-- Green component bit. -/
def VK_COLOR_COMPONENT_G_BIT : Nat := 2

/-- Blue component bit. -/
def VK_COLOR_COMPONENT_B_BIT : Nat := 4

/-- Alpha component bit. -/
def VK_COLOR_COMPONENT_A_BIT : Nat := 8

/-- The struct `VkPipelineColorBlendAttachmentState`. -/
structure VkPipelineColorBlendAttachmentState where
  blendEnable : Bool
  srcColorBlendFactor : VkBlendFactor
  dstColorBlendFactor : VkBlendFactor
  colorBlendOp : VkBlendOp
  srcAlphaBlendFactor : VkBlendFactor
  dstAlphaBlendFactor : VkBlendFactor
  alphaBlendOp : VkBlendOp
  colorWriteMask : Nat
deriving DecidableEq, Repr

/-- The struct `VkPipelineColorBlendStateCreateInfo`, the members `Build` sets. -/
structure VkPipelineColorBlendStateCreateInfo where
  logicOpEnable : Bool
  attachmentCount : Nat
  pAttachments : List VkPipelineColorBlendAttachmentState
deriving DecidableEq, Repr

/-- The struct `VkRect2D`: offset and extent. -/
structure VkRect2D where
  x : Int
  y : Int
  width : Nat
  height : Nat
deriving DecidableEq, Repr

/-- The struct `VkViewport`; floats as bit patterns. -/
structure VkViewport where
  x : Nat
  y : Nat
  width : Nat
  height : Nat
  minDepth : Nat
  maxDepth : Nat
deriving DecidableEq, Repr

/-- The struct `VkPipelineViewportStateCreateInfo`. -/
structure VkPipelineViewportStateCreateInfo where
  viewportCount : Nat
  pViewports : List VkViewport
  scissorCount : Nat
  pScissors : List VkRect2D
deriving DecidableEq, Repr

/-- The struct `VkPipelineShaderStageCreateInfo`, the members the builders set. -/
structure VkPipelineShaderStageCreateInfo where
  stage : VkShaderStageFlagBits
  module : Handle
  pName : String
deriving DecidableEq, Repr

/-- The struct `VkPipelineRenderingCreateInfo`. A null `pColorAttachmentFormats` is the empty
list. -/
structure VkPipelineRenderingCreateInfo where
  viewMask : Nat
  colorAttachmentCount : Nat
  pColorAttachmentFormats : List Nat
  depthAttachmentFormat : Nat
deriving DecidableEq, Repr

/-- The flag `VK_PIPELINE_CREATE_RENDERING_FRAGMENT_SHADING_RATE_ATTACHMENT_BIT_KHR`. -/
def VK_PIPELINE_CREATE_RENDERING_FRAGMENT_SHADING_RATE_ATTACHMENT_BIT_KHR : Nat := 0x00200000

/-- A `pNext` pointer of a pipeline create info as the driver receives it: null; the address of
a rendering-info structure that is alive, with its contents; or the address of an object whose
lifetime has ended, through which nothing defined can be read. -/
inductive PNextPointer where
  | null
  | live (info : VkPipelineRenderingCreateInfo)
  | ended
deriving DecidableEq, Repr

/-- Leaving the block a chained structure is declared in: a pointer to it stays as it is, but
the object it points to is gone. -/
def PNextPointer.leaveScope (p : PNextPointer) : PNextPointer :=
  match p with
  | .null => .null
  | .live _ => .ended
  | .ended => .ended

/-- The struct `VkGraphicsPipelineCreateInfo`; `pNext` is the pointer to the chained
rendering-info structure and `pDynamicState` the list of dynamic states. -/
structure VkGraphicsPipelineCreateInfo where
  pNext : PNextPointer
  flags : Nat
  stageCount : Nat
  pStages : List VkPipelineShaderStageCreateInfo
  pVertexInputState : VkPipelineVertexInputStateCreateInfo
  pInputAssemblyState : Nat
  pViewportState : VkPipelineViewportStateCreateInfo
  pRasterizationState : VkPipelineRasterizationStateCreateInfo
  pMultisampleState : VkPipelineMultisampleStateCreateInfo
  pDepthStencilState : VkPipelineDepthStencilStateCreateInfo
  pColorBlendState : VkPipelineColorBlendStateCreateInfo
  pDynamicState : List VkDynamicState
  layout : Handle
  renderPass : Handle
deriving DecidableEq, Repr

/-- The values of `VkAttachmentLoadOp` used by `Build`. -/
inductive VkAttachmentLoadOp where
  | VK_ATTACHMENT_LOAD_OP_LOAD
  | VK_ATTACHMENT_LOAD_OP_CLEAR
deriving DecidableEq, Repr

/-- The values of `VkAttachmentStoreOp` used by `Build`. -/
inductive VkAttachmentStoreOp where
  | VK_ATTACHMENT_STORE_OP_STORE
deriving DecidableEq, Repr

/-- The struct `RenderPassAttachment`, with the members `Build` initialises. -/
structure RenderPassAttachment where
  format : Nat
  loadOp : VkAttachmentLoadOp
  storeOp : VkAttachmentStoreOp
  samples : Int
deriving DecidableEq, Repr

/-- Modelled from the spec: struct `RenderPassKey` (declared in the absent `RenderPassCache.hpp`).
"(view mask, optional color attachment descriptor, optional depth attachment descriptor)": the
pair of `useColor` and `colorAttachment` that `Build` sets together is one optional descriptor,
and likewise for depth. -/
structure RenderPassKey where
  viewMask : Nat
  colorAttachment : Option RenderPassAttachment
  depthAttachment : Option RenderPassAttachment
deriving DecidableEq, Repr

/-- Modelled from the spec: class `RenderPassCache` (`RenderPassCache.hpp` is absent): the
compiled passes, keyed by their render pass key, in the order they were compiled. -/
structure RenderPassCache where
  passes : List (RenderPassKey × Handle)
deriving DecidableEq, Repr

/-! ## The layout builder and the compute pipeline builder of `VKPipeline.cpp` -/

/-- The struct `PushConstantRange` as `PushConstants` initialises it,
`PushConstantRange{ stages, offset, size }`; `Build` hands the vector to the driver as an array
of `VkPushConstantRange`, which the `static_assert` requires to have the same size. -/
structure PushConstantRange where
  stages : ShaderStage
  offset : Nat
  size : Nat
deriving DecidableEq, Repr

/-- Class `DescriptorSetLayout` (declared in the absent `R2/VKDescriptorSet.hpp`): the handle
its `GetNativeHandle` returns. -/
structure DescriptorSetLayout where
  nativeHandle : Handle
deriving DecidableEq, Repr

/-- The data members of class `PipelineLayoutBuilder` the source reads and writes. -/
structure PipelineLayoutBuilder where
  handles : Handles
  pushConstants : List PushConstantRange
  descriptorSetLayouts : List Handle
deriving DecidableEq, Repr

/-- The struct `VkPipelineLayoutCreateInfo` as `PipelineLayoutBuilder::Build` fills it. -/
structure VkPipelineLayoutCreateInfo where
  setLayoutCount : Nat
  pSetLayouts : List Handle
  pushConstantRangeCount : Nat
  pPushConstantRanges : List PushConstantRange
deriving DecidableEq, Repr

/-- The data members of class `ComputePipelineBuilder` the source reads and writes: the
pointer `shaderModule` (`none` while `SetShader` has not been called) and the layout handle.
Its `core` pointer is the `Core` of the world. -/
structure ComputePipelineBuilder where
  shaderModule : Option ShaderModule
  pipelineLayout : Handle
deriving DecidableEq, Repr

/-- The struct `VkComputePipelineCreateInfo` as `ComputePipelineBuilder::Build` fills it. -/
structure VkComputePipelineCreateInfo where
  stage : VkPipelineShaderStageCreateInfo
  layout : Handle
deriving DecidableEq, Repr

/-! ## Device creation data of `VKCoreInitialization.cpp` -/

/-- The feature structures `createDevice` declares: `features`, `features11`, `features12`,
`features13`, `asFeatures`, `rqFeatures`, `rtpFeatures`, `vrsFeatures`. -/
inductive FeatureStruct where
  | features2
  | vulkan11
  | vulkan12
  | vulkan13
  | accelerationStructure
  | rayQuery
  | rayTracingPipeline
  | fragmentShadingRate
deriving DecidableEq, Repr

/-- The `pNext` member of each feature structure; `none` is the null pointer every structure
starts with. -/
structure PNextStore where
  features2 : Option FeatureStruct
  vulkan11 : Option FeatureStruct
  vulkan12 : Option FeatureStruct
  vulkan13 : Option FeatureStruct
  accelerationStructure : Option FeatureStruct
  rayQuery : Option FeatureStruct
  rayTracingPipeline : Option FeatureStruct
  fragmentShadingRate : Option FeatureStruct
deriving DecidableEq, Repr

/-- All `pNext` members null. -/
def PNextStore.empty : PNextStore :=
  { features2 := none, vulkan11 := none, vulkan12 := none, vulkan13 := none,
    accelerationStructure := none, rayQuery := none, rayTracingPipeline := none,
    fragmentShadingRate := none }

/-- Reading `s.pNext`. -/
def PNextStore.get (m : PNextStore) (s : FeatureStruct) : Option FeatureStruct :=
  match s with
  | .features2 => m.features2
  | .vulkan11 => m.vulkan11
  | .vulkan12 => m.vulkan12
  | .vulkan13 => m.vulkan13
  | .accelerationStructure => m.accelerationStructure
  | .rayQuery => m.rayQuery
  | .rayTracingPipeline => m.rayTracingPipeline
  | .fragmentShadingRate => m.fragmentShadingRate

/-- The assignment `s.pNext = &t`. -/
def PNextStore.link (m : PNextStore) (s t : FeatureStruct) : PNextStore :=
  match s with
  | .features2 => { m with features2 := some t }
  | .vulkan11 => { m with vulkan11 := some t }
  | .vulkan12 => { m with vulkan12 := some t }
  | .vulkan13 => { m with vulkan13 := some t }
  | .accelerationStructure => { m with accelerationStructure := some t }
  | .rayQuery => { m with rayQuery := some t }
  | .rayTracingPipeline => { m with rayTracingPipeline := some t }
  | .fragmentShadingRate => { m with fragmentShadingRate := some t }

/-- The feature members `createDevice` sets (all others stay zero). -/
structure DeviceFeatures where
  shaderStorageImageMultisample : Bool
  samplerAnisotropy : Bool
  multiDrawIndirect : Bool
  fragmentStoresAndAtomics : Bool
  multiview : Bool
  shaderDrawParameters : Bool
  descriptorIndexing : Bool
  descriptorBindingPartiallyBound : Bool
  descriptorBindingVariableDescriptorCount : Bool
  descriptorBindingSampledImageUpdateAfterBind : Bool
  descriptorBindingUniformBufferUpdateAfterBind : Bool
  descriptorBindingStorageImageUpdateAfterBind : Bool
  descriptorBindingStorageBufferUpdateAfterBind : Bool
  shaderSampledImageArrayNonUniformIndexing : Bool
  runtimeDescriptorArray : Bool
  imagelessFramebuffer : Bool
  synchronization2 : Bool
  dynamicRendering : Bool
  accelerationStructure : Bool
  rayQuery : Bool
  rayTracingPipeline : Bool
  attachmentFragmentShadingRate : Bool
  primitiveFragmentShadingRate : Bool
  pipelineFragmentShadingRate : Bool
deriving DecidableEq, Repr

/-- The struct `VkDeviceQueueCreateInfo`; a zero-initialised element has `sType = 0`. -/
structure VkDeviceQueueCreateInfo where
  sType : Nat
  queueFamilyIndex : Nat
  queueCount : Nat
  pQueuePriorities : List Nat
deriving DecidableEq, Repr

/-- The value `VK_STRUCTURE_TYPE_DEVICE_QUEUE_CREATE_INFO`. -/
def VK_STRUCTURE_TYPE_DEVICE_QUEUE_CREATE_INFO : Nat := 2

/-- The struct `VkDeviceCreateInfo` as `createDevice` fills it: the head of the `pNext` chain
with the `pNext` members and contents of the feature structures it can reach, the extension
names, and the queue create infos. -/
structure VkDeviceCreateInfo where
  pNext : Option FeatureStruct
  chain : PNextStore
  features : DeviceFeatures
  enabledExtensionCount : Nat
  ppEnabledExtensionNames : List String
  queueCreateInfoCount : Nat
  pQueueCreateInfos : List VkDeviceQueueCreateInfo
deriving DecidableEq, Repr

/-- The platform macros `_WIN32` and `__ANDROID__` the sources test. -/
inductive TargetOS where
  | win32
  | android
  | other
deriving DecidableEq, Repr

/-! ## The world: program state, driver script and event log -/

/-- Every call that leaves the program. -/
inductive Event where
  | vkDestroyShaderModule (device mod allocCallbacks : Handle)
  | vkDestroyPipelineLayout (device layout allocCallbacks : Handle)
  | destroyObject (handle : Handle) (kind : VkObjectType)
  | vkWaitForFences (fence : Handle)
  | beginCommandBuffer (cb : Handle)
  | copyBuffer (cb src dst : Handle) (srcOffset dstOffset size : Nat)
  | copyBufferToTexture (cb buffer texture : Handle) (bufferOffset : Nat) (numMips : Int)
  | queueSubmit (cb : Handle) (wait : Option Handle) (signal : List Handle)
      (fence : Option Handle)
  | GetPass (key : RenderPassKey)
  | compilePass (key : RenderPassKey)
  | newRenderPassCache
  | volkInitialize
  | vkCreateInstance (extensions layers : List String)
  | volkLoadInstanceOnly (inst : Handle)
  | vkCreateDebugUtilsMessengerEXT (inst : Handle)
  | vkEnumeratePhysicalDevices (inst : Handle)
  | vkGetPhysicalDeviceQueueFamilyProperties (physicalDevice : Handle)
  | vkEnumerateDeviceExtensionProperties (physicalDevice : Handle) (withArray : Bool)
  | vkCreateDevice (physicalDevice : Handle) (dci : VkDeviceCreateInfo)
  | volkLoadDevice (device : Handle)
  | vkGetDeviceQueue (device : Handle) (family index : Nat)
  | vkCreateGraphicsPipelines (device : Handle) (pci : VkGraphicsPipelineCreateInfo)
  | vkCreatePipelineLayout (device : Handle) (plci : VkPipelineLayoutCreateInfo)
  | vkCreateComputePipelines (device : Handle) (cpci : VkComputePipelineCreateInfo)
  | onFailedVkCheck (res : Int) (file : String) (line : Nat)
deriving DecidableEq, Repr

/-- The program state together with its environment: the `Core`, the global
`g_renderPassCache` (`none` is `nullptr`), what the physical device reports (the names of its
extensions and the `queueFlags` of its queue families), the answers the driver will give to the
next calls (result code and the handle it writes to the output parameter), and the log of the
calls made. -/
structure World where
  core : Core
  g_renderPassCache : Option RenderPassCache
  deviceExtensions : List String
  queueFamilies : List Nat
  driver : List (Int × Handle)
  log : List Event
deriving DecidableEq, Repr

/-- Append one event to the log. -/
def World.emit (w : World) (e : Event) : World :=
  { w with log := w.log ++ [e] }

/-- The driver answers a call: the next scripted answer, or success with a null handle when the
script is exhausted. -/
def World.answer (w : World) : (Int × Handle) × World :=
  match w.driver with
  | [] => ((0, VK_NULL_HANDLE), w)
  | r :: rest => (r, { w with driver := rest })

/-! ## `VKCHECK` and the driver calls -/

/-- Modelled from the spec: the function `onFailedVkCheck(res, file, line)` (declared in
`VKCore.hpp` line 88, body absent). A failed call "is reported with the originating call's
result code and source location": the report and its arguments are recorded in the log. That
"the process is expected to terminate" afterwards is left out: the state returned is the one a
caller would continue from. -/
def onFailedVkCheck (res : Int) (file : String) (line : Nat) (w : World) : World :=
  w.emit (.onFailedVkCheck res file line)

/-- The preprocessor definition
`#define VKCHECK(res) { if (res != 0) { R2::VK::onFailedVkCheck(res, __FILE__, __LINE__); } }`.
The argument `res` is the text of an expression (at every use in the sources, a call of a GPU
entry point); it is substituted at both occurrences, so it is evaluated once for the test and,
when the test succeeds, once more as the first argument of `onFailedVkCheck`. The value
returned alongside the state is what the last evaluation wrote to its output parameter. -/
def VKCHECK {α : Type} (res : World → (Int × α) × World) (file : String) (line : Nat)
    (w : World) : α × World :=
  let test := res w
  if test.1.1 != 0 then
    let arg := res test.2
    (arg.1.2, onFailedVkCheck arg.1.1 file line arg.2)
  else
    (test.1.2, test.2)

/-- A driver entry point that returns a result code and writes a handle: the call is logged and
answered from the script. -/
def World.call (e : Event) (w : World) : (Int × Handle) × World :=
  (w.emit e).answer

/-- The name the preprocessor gives `VKCoreInitialization.cpp` in `__FILE__`. -/
def FILE_VKCoreInitialization : String := "Source/VK/VKCoreInitialization.cpp"

/-- The name the preprocessor gives `VKPipeline.cpp` in `__FILE__`. -/
def FILE_VKPipeline : String := "Source/VK/VKPipeline.cpp"

/-! ## Instance and device set-up (`VKCoreInitialization.cpp`) -/

/-- The function `Core::selectPhysicalDevice`:
`VKCHECK(vkEnumeratePhysicalDevices(handles.Instance, &deviceCount, devices));`
`handles.PhysicalDevice = devices[0];` The handle the driver writes is `devices[0]`. -/
def Core.selectPhysicalDevice (w : World) : World :=
  let r := VKCHECK (World.call (.vkEnumeratePhysicalDevices w.core.handles.Instance))
    FILE_VKCoreInitialization 113 w
  { r.2 with core := { r.2.core with handles := { r.2.core.handles with PhysicalDevice := r.1 } } }

/-- The function `Core::createInstance(enableValidation, instanceExts)`; `instanceExts` is the
null-terminated array, `none` when the pointer is null. -/
def Core.createInstance (target : TargetOS) (enableValidation : Bool)
    (instanceExts : Option (List String)) (w : World) : World :=
  let w1 := (VKCHECK (World.call .volkInitialize) FILE_VKCoreInitialization 37 w).2
  let layers : List String := if enableValidation then ["VK_LAYER_KHRONOS_validation"] else []
  let extensions : List String :=
    (if enableValidation then ["VK_EXT_debug_utils"] else []) ++ ["VK_KHR_surface"] ++
    (if target = .win32 then ["VK_KHR_win32_surface"] else []) ++
    (if target = .android then ["VK_KHR_android_surface"] else []) ++
    (match instanceExts with
     | some exts => exts
     | none => [])
  let created := VKCHECK (World.call (.vkCreateInstance extensions layers))
    FILE_VKCoreInitialization 81 w1
  let w2 : World := { created.2 with core := { created.2.core with
    handles := { created.2.core.handles with Instance := created.1 } } }
  let w3 := w2.emit (.volkLoadInstanceOnly w2.core.handles.Instance)
  let w4 : World :=
    if enableValidation then
      let m := VKCHECK (World.call (.vkCreateDebugUtilsMessengerEXT w3.core.handles.Instance))
        FILE_VKCoreInitialization 96 w3
      { m.2 with core := { m.2.core with messenger := m.1 } }
    else
      { w3 with core := { w3.core with messenger := VK_NULL_HANDLE } }
  Core.selectPhysicalDevice w4

/-- The bit `VK_QUEUE_GRAPHICS_BIT`. -/
def VK_QUEUE_GRAPHICS_BIT : Nat := 1

/-- The bit `VK_QUEUE_COMPUTE_BIT`. -/
def VK_QUEUE_COMPUTE_BIT : Nat := 2

/-- The value `~0u`. -/
def UINT32_MAX : Nat := 4294967295

/-- The function `Core::findQueueFamilies`. The driver fills at most the 8 elements of
`queueFamilyProps`; the loop keeps the last matching index of each kind; a missing graphics
family throws `RenderInitException`, here the error message. -/
def Core.findQueueFamilies (w : World) : Except String World :=
  let graphicsFlags := VK_QUEUE_GRAPHICS_BIT ||| VK_QUEUE_COMPUTE_BIT
  let asyncComputeFlags := VK_QUEUE_COMPUTE_BIT
  let w1 := w.emit (.vkGetPhysicalDeviceQueueFamilyProperties w.core.handles.PhysicalDevice)
  let queueFamilyProps := w1.queueFamilies.take 8
  let numQueueFamilyProperties := queueFamilyProps.length
  let start : Queues := { w1.core.handles.Queues with
    AsyncComputeFamilyIndex := UINT32_MAX, GraphicsFamilyIndex := UINT32_MAX,
    PresentFamilyIndex := UINT32_MAX }
  let queues := (List.range numQueueFamilyProperties).foldl (fun (q : Queues) i =>
    let queueFlags := queueFamilyProps.getD i 0
    if queueFlags &&& graphicsFlags = graphicsFlags then
      { q with GraphicsFamilyIndex := i, PresentFamilyIndex := i }
    else if queueFlags &&& asyncComputeFlags = asyncComputeFlags then
      { q with AsyncComputeFamilyIndex := i }
    else q) start
  if queues.GraphicsFamilyIndex = UINT32_MAX then
    .error "Couldn't find graphics queue!"
  else
    .ok { w1 with core := { w1.core with handles := { w1.core.handles with Queues := queues } } }

/-- The driver entry point `vkEnumerateDeviceExtensionProperties(device, nullptr, &count, array)`:
logged, its result code answered from the script; it reports the extensions of the physical
device (their number, and with a non-null array their properties). -/
def vkEnumerateDeviceExtensionProperties (device : Handle) (withArray : Bool) (w : World) :
    (Int × List String) × World :=
  let a := World.call (.vkEnumerateDeviceExtensionProperties device withArray) w
  ((a.1.1, a.2.deviceExtensions), a.2)

/-- The function `Core::checkExtensionSupport(device, extension)`: the count query, the resize,
the array query, and the `strcmp` loop that returns at the first equal name. The array passed
to the second query is `extProps.data()`, a null pointer when the vector is empty. -/
def Core.checkExtensionSupport (device : Handle) (extension : String) (w : World) :
    Bool × World :=
  let counted := VKCHECK (vkEnumerateDeviceExtensionProperties device false)
    FILE_VKCoreInitialization 195 w
  let extCount := counted.1.length
  let filled := VKCHECK (vkEnumerateDeviceExtensionProperties device (extCount != 0))
    FILE_VKCoreInitialization 198 counted.2
  let extProps := filled.1.take extCount
  (extProps.foldr (fun extensionName found =>
      if extensionName = extension then true else found) false,
   filled.2)

/-- The function `Core::checkRaytracingSupport(device)`; the second check runs only when the
first returned true. -/
def Core.checkRaytracingSupport (device : Handle) (w : World) : Bool × World :=
  let rq := Core.checkExtensionSupport device "VK_KHR_ray_query" w
  if rq.1 then Core.checkExtensionSupport device "VK_KHR_acceleration_structure" rq.2
  else (false, rq.2)

/-- The section "Features" of `Core::createDevice`: the members set in the feature structures.
The fragment shading rate members are set inside the `if` on `VariableRateShading`. -/
def Core.createDevice.features (target : TargetOS) (supportedFeatures : GraphicsSupportedFeatures) :
    DeviceFeatures :=
  { shaderStorageImageMultisample := decide (target ≠ .android),
    samplerAnisotropy := true, multiDrawIndirect := true, fragmentStoresAndAtomics := true,
    multiview := true, shaderDrawParameters := true,
    descriptorIndexing := true, descriptorBindingPartiallyBound := true,
    descriptorBindingVariableDescriptorCount := true,
    descriptorBindingSampledImageUpdateAfterBind := true,
    descriptorBindingUniformBufferUpdateAfterBind := true,
    descriptorBindingStorageImageUpdateAfterBind := true,
    descriptorBindingStorageBufferUpdateAfterBind := true,
    shaderSampledImageArrayNonUniformIndexing := true,
    runtimeDescriptorArray := true, imagelessFramebuffer := true,
    synchronization2 := decide (target ≠ .android),
    dynamicRendering := decide (target ≠ .android),
    accelerationStructure := true, rayQuery := true, rayTracingPipeline := true,
    attachmentFragmentShadingRate := supportedFeatures.VariableRateShading,
    primitiveFragmentShadingRate := supportedFeatures.VariableRateShading,
    pipelineFragmentShadingRate := supportedFeatures.VariableRateShading }

/-- The section of `Core::createDevice` that links the feature structures (lines 270-305): the
`pNext` members after the assignments, following `chainEnd`. -/
def Core.createDevice.chain (supportedFeatures : GraphicsSupportedFeatures) : PNextStore :=
  let chain0 := ((PNextStore.empty.link .features2 .vulkan11).link .vulkan11 .vulkan12).link
    .vulkan12 .vulkan13
  let chainEnd0 := FeatureStruct.vulkan13
  -- Set up the features chain if the device supports raytracing
  let linkedRt : PNextStore × FeatureStruct :=
    if supportedFeatures.RayTracing then
      (((chain0.link chainEnd0 .accelerationStructure).link .accelerationStructure
          .rayQuery).link .rayQuery .rayTracingPipeline, .rayTracingPipeline)
    else (chain0, chainEnd0)
  let linkedVrs : PNextStore × FeatureStruct :=
    if supportedFeatures.VariableRateShading then
      (linkedRt.1.link linkedRt.2 .fragmentShadingRate, .fragmentShadingRate)
    else linkedRt
  linkedVrs.1

/-- The section "Extensions" of `Core::createDevice`: the enabled device extension names. -/
def Core.createDevice.extensions (target : TargetOS)
    (supportedFeatures : GraphicsSupportedFeatures) (deviceExts : Option (List String)) :
    List String :=
  ["VK_KHR_swapchain"] ++
  (if supportedFeatures.RayTracing then
    ["VK_KHR_ray_query", "VK_KHR_acceleration_structure", "VK_KHR_deferred_host_operations"]
   else []) ++
  (if supportedFeatures.VariableRateShading then ["VK_KHR_fragment_shading_rate"] else []) ++
  (if target = .android then
    ["VK_EXT_descriptor_indexing", "VK_KHR_imageless_framebuffer", "VK_KHR_image_format_list"]
   else []) ++
  (match deviceExts with
   | some exts => exts
   | none => [])

/-- The section "Queues" of `Core::createDevice`: the two elements of `queueCreateInfos`; the
second stays zero-initialised when no async compute family was found. -/
def Core.createDevice.queueCreateInfos (queues : Queues) : List VkDeviceQueueCreateInfo :=
  let zeroInfo : VkDeviceQueueCreateInfo :=
    { sType := 0, queueFamilyIndex := 0, queueCount := 0, pQueuePriorities := [] }
  let info0 : VkDeviceQueueCreateInfo :=
    { sType := VK_STRUCTURE_TYPE_DEVICE_QUEUE_CREATE_INFO,
      queueFamilyIndex := queues.GraphicsFamilyIndex, queueCount := 1,
      pQueuePriorities := [F32_ONE] }
  let info1 : VkDeviceQueueCreateInfo :=
    if queues.AsyncComputeFamilyIndex ≠ UINT32_MAX then
      { sType := VK_STRUCTURE_TYPE_DEVICE_QUEUE_CREATE_INFO,
        queueFamilyIndex := queues.AsyncComputeFamilyIndex, queueCount := 1,
        pQueuePriorities := [F32_ONE] }
    else zeroInfo
  [info0, info1]

/-- The `VkDeviceCreateInfo` that `Core::createDevice` passes to `vkCreateDevice`. -/
def Core.createDevice.dci (target : TargetOS) (supportedFeatures : GraphicsSupportedFeatures)
    (deviceExts : Option (List String)) (queues : Queues) : VkDeviceCreateInfo :=
  { pNext := some .features2,
    chain := Core.createDevice.chain supportedFeatures,
    features := Core.createDevice.features target supportedFeatures,
    enabledExtensionCount :=
      (Core.createDevice.extensions target supportedFeatures deviceExts).length % UINT32_SIZE,
    ppEnabledExtensionNames := Core.createDevice.extensions target supportedFeatures deviceExts,
    queueCreateInfoCount := if queues.AsyncComputeFamilyIndex = UINT32_MAX then 1 else 2,
    pQueueCreateInfos := Core.createDevice.queueCreateInfos queues }

/-- The first statements of `Core::createDevice` (lines 227-238): the three support checks and
the choice of the render pass cache. -/
def Core.createDevice.selectCache (w : World) : World :=
  let rt := Core.checkRaytracingSupport w.core.handles.PhysicalDevice w
  let vrs := Core.checkExtensionSupport rt.2.core.handles.PhysicalDevice
    "VK_KHR_fragment_shading_rate" rt.2
  let dr := Core.checkExtensionSupport vrs.2.core.handles.PhysicalDevice
    "VK_KHR_dynamic_rendering" vrs.2
  let supportedFeatures : GraphicsSupportedFeatures :=
    { RayTracing := rt.1, VariableRateShading := vrs.1, DynamicRendering := dr.1 }
  let w1 : World := { dr.2 with core := { dr.2.core with supportedFeatures := supportedFeatures } }
  if !supportedFeatures.DynamicRendering then
    { w1.emit .newRenderPassCache with g_renderPassCache := some { passes := [] } }
  else
    { w1 with g_renderPassCache := none }

/-- The section "Device Creation" of `Core::createDevice` (lines 370-379), given the create
info. -/
def Core.createDevice.create (dci : VkDeviceCreateInfo) (w : World) : World :=
  let queues := w.core.handles.Queues
  let created := VKCHECK (World.call (.vkCreateDevice w.core.handles.PhysicalDevice dci))
    FILE_VKCoreInitialization 370 w
  let w3 : World := { created.2 with core := { created.2.core with
    handles := { created.2.core.handles with Device := created.1 } } }
  let w4 := w3.emit (.volkLoadDevice w3.core.handles.Device)
  let gq := World.call (.vkGetDeviceQueue w4.core.handles.Device queues.GraphicsFamilyIndex 0) w4
  let w5 : World := { gq.2 with core := { gq.2.core with handles := { gq.2.core.handles with
    Queues := { gq.2.core.handles.Queues with Graphics := gq.1.2 } } } }
  if queues.AsyncComputeFamilyIndex ≠ UINT32_MAX then
    let aq := World.call
      (.vkGetDeviceQueue w5.core.handles.Device queues.AsyncComputeFamilyIndex 0) w5
    { aq.2 with core := { aq.2.core with handles := { aq.2.core.handles with
      Queues := { aq.2.core.handles.Queues with AsyncCompute := aq.1.2 } } } }
  else w5

/-- The function `Core::createDevice(deviceExts)`, its sections in source order; `deviceExts` is
the null-terminated array, `none` when the pointer is null. -/
def Core.createDevice (target : TargetOS) (deviceExts : Option (List String)) (w : World) :
    World :=
  let w2 := Core.createDevice.selectCache w
  let dci := Core.createDevice.dci target w2.core.supportedFeatures deviceExts
    w2.core.handles.Queues
  Core.createDevice.create dci w2

/-! ## The render pass cache and `PipelineBuilder::Build` -/

/-- Modelled from the spec: `RenderPassCache::GetPass(key)` (`RenderPassCache.hpp` and its
implementation are absent). "Returns a cached pass handle; on a cache miss, compiles a new pass
(and backing framebuffer) from the key's attachment descriptors and view mask, inserts it, and
returns it. Equality over keys is structural over every field." The compiled handle is the one
the driver answers with. The cache it is called on is the one `g_renderPassCache` points to. -/
def RenderPassCache.GetPass (c : RenderPassCache) (key : RenderPassKey) (w : World) :
    Handle × World :=
  let w1 := w.emit (.GetPass key)
  match c.passes.find? (fun entry => decide (entry.1 = key)) with
  | some entry => (entry.2, w1)
  | none =>
    let compiled := World.call (.compilePass key) w1
    (compiled.1.2,
     { compiled.2 with g_renderPassCache := some { passes := c.passes ++ [(key, compiled.1.2)] } })

/-- The member function `PipelineBuilder::ColorAttachmentFormat(format)`: one `push_back`, then
`return *this`. -/
def PipelineBuilder.ColorAttachmentFormat (b : PipelineBuilder) (format : Nat) :
    PipelineBuilder :=
  { b with attachmentFormats := b.attachmentFormats ++ [format] }

/-- The member function `PipelineBuilder::AddVertexBinding(binding)`: one `push_back`, then
`return *this`. -/
def PipelineBuilder.AddVertexBinding (b : PipelineBuilder) (binding : VertexBinding) :
    PipelineBuilder :=
  { b with vertexBindings := b.vertexBindings ++ [binding] }

/-- The render pass key `Build` assembles from the builder (lines 386-413). -/
def PipelineBuilder.rpKey (b : PipelineBuilder) : RenderPassKey :=
  let key0 : RenderPassKey :=
    { viewMask := b.viewMask, colorAttachment := none, depthAttachment := none }
  let depth : RenderPassAttachment :=
    { format := b.depthFormat, loadOp := .VK_ATTACHMENT_LOAD_OP_CLEAR,
      storeOp := .VK_ATTACHMENT_STORE_OP_STORE, samples := b.numSamples }
  let key1 : RenderPassKey :=
    if b.depthFormat ≠ TextureFormat.UNDEFINED then { key0 with depthAttachment := some depth }
    else key0
  let color : RenderPassAttachment :=
    { format := b.attachmentFormats.headD 0, loadOp := .VK_ATTACHMENT_LOAD_OP_LOAD,
      storeOp := .VK_ATTACHMENT_STORE_OP_STORE, samples := b.numSamples }
  if !b.attachmentFormats.isEmpty then { key1 with colorAttachment := some color }
  else key1

/-- The section "Convert vertex bindings" of `PipelineBuilder::Build`: the two nested loops, each
pushing at the back of its vector. -/
def PipelineBuilder.Build.vertexDescs (b : PipelineBuilder) :
    List VkVertexInputBindingDescription × List VkVertexInputAttributeDescription :=
  b.vertexBindings.foldl
    (fun (acc : List VkVertexInputBindingDescription × List VkVertexInputAttributeDescription)
        vb =>
      let desc : VkVertexInputBindingDescription :=
        { binding := vb.Binding, stride := vb.Size, inputRate := VK_VERTEX_INPUT_RATE_VERTEX }
      let attributeDescs := vb.Attributes.foldl
        (fun (descs : List VkVertexInputAttributeDescription) va =>
          descs ++ [{ binding := vb.Binding, location := va.Index, offset := va.Offset,
                      format := va.Format }]) acc.2
      (acc.1 ++ [desc], attributeDescs)) ([], [])

/-- The body of the loop "Attachment blend states" of `PipelineBuilder::Build`: the
zero-initialised state with its write mask, then the branch on `alphaBlend` and
`additiveBlend`. -/
def PipelineBuilder.Build.blendState (b : PipelineBuilder) : VkPipelineColorBlendAttachmentState :=
  let cbas : VkPipelineColorBlendAttachmentState :=
    { blendEnable := false,
      srcColorBlendFactor := .VK_BLEND_FACTOR_ZERO,
      dstColorBlendFactor := .VK_BLEND_FACTOR_ZERO,
      colorBlendOp := .VK_BLEND_OP_ADD,
      srcAlphaBlendFactor := .VK_BLEND_FACTOR_ZERO,
      dstAlphaBlendFactor := .VK_BLEND_FACTOR_ZERO,
      alphaBlendOp := .VK_BLEND_OP_ADD,
      colorWriteMask := VK_COLOR_COMPONENT_R_BIT ||| VK_COLOR_COMPONENT_G_BIT |||
        VK_COLOR_COMPONENT_B_BIT ||| VK_COLOR_COMPONENT_A_BIT }
  if b.alphaBlend then
    { cbas with blendEnable := true,
                srcColorBlendFactor := .VK_BLEND_FACTOR_SRC_ALPHA,
                dstColorBlendFactor := .VK_BLEND_FACTOR_ONE_MINUS_SRC_ALPHA,
                colorBlendOp := .VK_BLEND_OP_ADD,
                srcAlphaBlendFactor := .VK_BLEND_FACTOR_ONE,
                dstAlphaBlendFactor := .VK_BLEND_FACTOR_ONE_MINUS_SRC_ALPHA,
                alphaBlendOp := .VK_BLEND_OP_ADD }
  else if b.additiveBlend then
    { cbas with blendEnable := true,
                srcColorBlendFactor := .VK_BLEND_FACTOR_ONE,
                srcAlphaBlendFactor := .VK_BLEND_FACTOR_ONE,
                alphaBlendOp := .VK_BLEND_OP_MAX,
                dstColorBlendFactor := .VK_BLEND_FACTOR_ONE,
                dstAlphaBlendFactor := .VK_BLEND_FACTOR_ONE,
                colorBlendOp := .VK_BLEND_OP_ADD }
  else
    { cbas with blendEnable := false }

/-- The loop "Attachment blend states" of `PipelineBuilder::Build`: one push per index below
`attachmentFormats.size()`. -/
def PipelineBuilder.Build.attachmentBlendStates (b : PipelineBuilder) :
    List VkPipelineColorBlendAttachmentState :=
  (List.range b.attachmentFormats.length).foldl
    (fun (states : List VkPipelineColorBlendAttachmentState) _i =>
      states ++ [PipelineBuilder.Build.blendState b]) []

/-- The loop over `shaderStages` of `PipelineBuilder::Build`. -/
def PipelineBuilder.Build.vkShaderStages (b : PipelineBuilder) :
    List VkPipelineShaderStageCreateInfo :=
  b.shaderStages.foldl
    (fun (stages : List VkPipelineShaderStageCreateInfo) stage =>
      stages ++ [{ stage := convertShaderStage stage.stage, module := stage.module.mod,
                   pName := "main" }]) []

/-- The create info `pci` of `PipelineBuilder::Build` as it stands at line 371, before the
branch on the render pass cache; `(uint32_t)v.size()` is the length modulo `2^32`. -/
def PipelineBuilder.Build.pci (b : PipelineBuilder) : VkGraphicsPipelineCreateInfo :=
  let bindingDescs := (PipelineBuilder.Build.vertexDescs b).1
  let attributeDescs := (PipelineBuilder.Build.vertexDescs b).2
  -- Vertex input state
  let vertexInputStateCI : VkPipelineVertexInputStateCreateInfo :=
    { pVertexBindingDescriptions := bindingDescs,
      vertexBindingDescriptionCount := bindingDescs.length % UINT32_SIZE,
      pVertexAttributeDescriptions := attributeDescs,
      vertexAttributeDescriptionCount := attributeDescs.length % UINT32_SIZE }
  -- Dynamic state
  let dynamicStates : List VkDynamicState :=
    [.VK_DYNAMIC_STATE_FRAGMENT_SHADING_RATE_KHR, .VK_DYNAMIC_STATE_VIEWPORT,
     .VK_DYNAMIC_STATE_SCISSOR]
  -- Rasterization state
  let rasterizationStateCI : VkPipelineRasterizationStateCreateInfo :=
    { cullMode := b.cullMode, polygonMode := VK_POLYGON_MODE_FILL,
      frontFace := VK_FRONT_FACE_COUNTER_CLOCKWISE, lineWidth := F32_ONE,
      depthBiasEnable := b.depthBias, depthBiasConstantFactor := b.constantDepthBias,
      depthBiasSlopeFactor := b.slopeDepthBias }
  -- Depth stencil state
  let depthStencilStateCI : VkPipelineDepthStencilStateCreateInfo :=
    { depthTestEnable := b.depthTest, depthWriteEnable := b.depthWrite,
      depthCompareOp := b.depthCompareOp }
  -- Multisample state
  let multisampleStateCI : VkPipelineMultisampleStateCreateInfo :=
    { rasterizationSamples := b.numSamples,
      alphaToCoverageEnable := if b.alphaToCoverage then true else false }
  -- Blend info
  let colorBlendStateCI : VkPipelineColorBlendStateCreateInfo :=
    { attachmentCount := b.attachmentFormats.length % UINT32_SIZE,
      pAttachments := PipelineBuilder.Build.attachmentBlendStates b, logicOpEnable := false }
  -- Viewport state
  let scissorRect : VkRect2D := { x := 0, y := 0, width := 1280, height := 720 }
  let viewport : VkViewport :=
    { x := 0, y := 0, width := 0x44A00000, height := 0x44340000, minDepth := 0, maxDepth := 0 }
  let viewportStateCI : VkPipelineViewportStateCreateInfo :=
    { pScissors := [scissorRect], scissorCount := 1, pViewports := [viewport],
      viewportCount := 1 }
  let vkShaderStages := PipelineBuilder.Build.vkShaderStages b
  { pNext := .null,
    renderPass := VK_NULL_HANDLE,
    pStages := vkShaderStages,
    stageCount := vkShaderStages.length % UINT32_SIZE,
    pVertexInputState := vertexInputStateCI,
    pInputAssemblyState := b.topology,
    pRasterizationState := rasterizationStateCI,
    pDepthStencilState := depthStencilStateCI,
    pColorBlendState := colorBlendStateCI,
    pDynamicState := dynamicStates,
    pMultisampleState := multisampleStateCI,
    pViewportState := viewportStateCI,
    layout := b.layout,
    flags := VK_PIPELINE_CREATE_RENDERING_FRAGMENT_SHADING_RATE_ATTACHMENT_BIT_KHR }

/-- The structure `renderingCI` of `PipelineBuilder::Build` as the `if` block fills it (lines
376-381). -/
def PipelineBuilder.Build.renderingCI (b : PipelineBuilder) : VkPipelineRenderingCreateInfo :=
  { colorAttachmentCount := b.attachmentFormats.length % UINT32_SIZE,
    pColorAttachmentFormats := if b.attachmentFormats.length > 0 then b.attachmentFormats else [],
    depthAttachmentFormat := b.depthFormat,
    viewMask := b.viewMask }

/-- The function `PipelineBuilder::Build`: the create info, the branch on `g_renderPassCache`
(lines 373-416), the checked creation call and the new wrapper. `renderingCI` is declared
inside the `if` block (line 376) and `pci.pNext = &renderingCI` is assigned there (line 382);
the block closes at line 383, before the creation call of line 419, so the call receives the
address of an object whose lifetime has ended. -/
def PipelineBuilder.Build (b : PipelineBuilder) (w : World) : Pipeline × World :=
  let pci := PipelineBuilder.Build.pci b
  let chosen : VkGraphicsPipelineCreateInfo × World :=
    match w.g_renderPassCache with
    | none =>
      let inBlock : VkGraphicsPipelineCreateInfo :=
        { pci with pNext := .live (PipelineBuilder.Build.renderingCI b) }
      ({ inBlock with pNext := inBlock.pNext.leaveScope }, w)
    | some cache =>
      let pass := cache.GetPass b.rpKey w
      ({ pci with renderPass := pass.1 }, pass.2)
  let created := VKCHECK
    (World.call (.vkCreateGraphicsPipelines chosen.2.core.handles.Device chosen.1))
    FILE_VKPipeline 419 chosen.2
  ({ pipeline := created.1 }, created.2)

/-- Building the pipelines of a list of builders, one `Build` call after the other. -/
def buildAll (bs : List PipelineBuilder) (w : World) : World :=
  match bs with
  | [] => w
  | b :: rest => buildAll rest (b.Build w).2

/-- The render pass keys the log records `GetPass` calls for, in call order. -/
def getPassCalls (log : List Event) : List RenderPassKey :=
  log.filterMap (fun e =>
    match e with
    | .GetPass key => some key
    | _ => none)

/-- The render pass keys the log records a pass compilation for, in order. -/
def compiledKeys (log : List Event) : List RenderPassKey :=
  log.filterMap (fun e =>
    match e with
    | .compilePass key => some key
    | _ => none)

/-- The create infos the log records `vkCreateGraphicsPipelines` calls with, in call order. -/
def createdPipelines (log : List Event) : List VkGraphicsPipelineCreateInfo :=
  log.filterMap (fun e =>
    match e with
    | .vkCreateGraphicsPipelines _ pci => some pci
    | _ => none)

/-- The result codes the log records `onFailedVkCheck` calls with, in call order. -/
def failedChecks (log : List Event) : List (Int × String × Nat) :=
  log.filterMap (fun e =>
    match e with
    | .onFailedVkCheck res file line => some (res, file, line)
    | _ => none)

/-! ## `PipelineLayoutBuilder` and `ComputePipelineBuilder` -/

/-- The constructor `PipelineLayoutBuilder(handles)`: both vectors start empty. -/
def PipelineLayoutBuilder.new (handles : Handles) : PipelineLayoutBuilder :=
  { handles := handles, pushConstants := [], descriptorSetLayouts := [] }

/-- The member function `PipelineLayoutBuilder::PushConstants(stages, offset, size)`: one
`push_back`, then `return *this`; the value returned is the builder after the push. -/
def PipelineLayoutBuilder.PushConstants (b : PipelineLayoutBuilder) (stages : ShaderStage)
    (offset size : Nat) : PipelineLayoutBuilder :=
  { b with pushConstants :=
      b.pushConstants ++ [{ stages := stages, offset := offset, size := size }] }

/-- The member function `PipelineLayoutBuilder::DescriptorSet(dsl)`: one `push_back` of the
native handle, then `return *this`. -/
def PipelineLayoutBuilder.DescriptorSet (b : PipelineLayoutBuilder) (dsl : DescriptorSetLayout) :
    PipelineLayoutBuilder :=
  { b with descriptorSetLayouts := b.descriptorSetLayouts ++ [dsl.nativeHandle] }

/-- The create info `plci` of `PipelineLayoutBuilder::Build`; `(uint32_t)v.size()` is the length
modulo `2^32`. -/
def PipelineLayoutBuilder.Build.plci (b : PipelineLayoutBuilder) : VkPipelineLayoutCreateInfo :=
  { pPushConstantRanges := b.pushConstants,
    pushConstantRangeCount := b.pushConstants.length % UINT32_SIZE,
    setLayoutCount := b.descriptorSetLayouts.length % UINT32_SIZE,
    pSetLayouts := b.descriptorSetLayouts }

/-- The function `PipelineLayoutBuilder::Build`: the create info, the checked creation call
(line 77) and the new wrapper. -/
def PipelineLayoutBuilder.Build (b : PipelineLayoutBuilder) (w : World) :
    PipelineLayout × World :=
  let plci := PipelineLayoutBuilder.Build.plci b
  let created := VKCHECK (World.call (.vkCreatePipelineLayout b.handles.Device plci))
    FILE_VKPipeline 77 w
  ({ handles := b.handles, layout := created.1 }, created.2)

/-- One call on a `PipelineLayoutBuilder`, with its arguments. -/
inductive LayoutCall where
  | PushConstants (stages : ShaderStage) (offset size : Nat)
  | DescriptorSet (dsl : DescriptorSetLayout)
deriving DecidableEq, Repr

/-- Making one call on the builder; the result is the builder the call returns. -/
def LayoutCall.apply (b : PipelineLayoutBuilder) (c : LayoutCall) : PipelineLayoutBuilder :=
  match c with
  | .PushConstants stages offset size => b.PushConstants stages offset size
  | .DescriptorSet dsl => b.DescriptorSet dsl

/-- A chain of calls `b.f(..).g(..)...`, each made on the builder the one before returned. -/
def applyCalls (b : PipelineLayoutBuilder) (cs : List LayoutCall) : PipelineLayoutBuilder :=
  cs.foldl LayoutCall.apply b

/-- The range a call pushes, if it is a `PushConstants` call. -/
def LayoutCall.range (c : LayoutCall) : Option PushConstantRange :=
  match c with
  | .PushConstants stages offset size => some { stages := stages, offset := offset, size := size }
  | .DescriptorSet _ => none

/-- The handle a call pushes, if it is a `DescriptorSet` call. -/
def LayoutCall.setLayout (c : LayoutCall) : Option Handle :=
  match c with
  | .PushConstants _ _ _ => none
  | .DescriptorSet dsl => some dsl.nativeHandle

/-- The create infos the log records `vkCreatePipelineLayout` calls with, in call order. -/
def createdLayouts (log : List Event) : List (Handle × VkPipelineLayoutCreateInfo) :=
  log.filterMap (fun e =>
    match e with
    | .vkCreatePipelineLayout device plci => some (device, plci)
    | _ => none)

/-- The member function `ComputePipelineBuilder::SetShader(mod)`. -/
def ComputePipelineBuilder.SetShader (b : ComputePipelineBuilder) (mod : ShaderModule) :
    ComputePipelineBuilder :=
  { b with shaderModule := some mod }

/-- The member function `ComputePipelineBuilder::Layout(pl)`. -/
def ComputePipelineBuilder.Layout (b : ComputePipelineBuilder) (pl : PipelineLayout) :
    ComputePipelineBuilder :=
  { b with pipelineLayout := pl.layout }

/-- The function `ComputePipelineBuilder::Build`: the stage, the create info, the checked
creation call (line 452) and the new wrapper. There is no result when `shaderModule` is null:
the source dereferences it without a test. -/
def ComputePipelineBuilder.Build (b : ComputePipelineBuilder) (w : World) :
    Option (Pipeline × World) :=
  match b.shaderModule with
  | none => none
  | some shaderModule =>
    let sci : VkPipelineShaderStageCreateInfo :=
      { pName := "main", module := shaderModule.mod, stage := .VK_SHADER_STAGE_COMPUTE_BIT }
    let cpci : VkComputePipelineCreateInfo := { stage := sci, layout := b.pipelineLayout }
    let created := VKCHECK (World.call (.vkCreateComputePipelines w.core.handles.Device cpci))
      FILE_VKPipeline 452 w
    some ({ pipeline := created.1 }, created.2)

/-! ## Reading the device creation call -/

/-- The extension that declares a feature structure, by the name of its
`VK_KHR_..._EXTENSION_NAME` macro value; the structures of the core versions have none. -/
def FeatureStruct.extension (s : FeatureStruct) : Option String :=
  match s with
  | .features2 => none
  | .vulkan11 => none
  | .vulkan12 => none
  | .vulkan13 => none
  | .accelerationStructure => some "VK_KHR_acceleration_structure"
  | .rayQuery => some "VK_KHR_ray_query"
  | .rayTracingPipeline => some "VK_KHR_ray_tracing_pipeline"
  | .fragmentShadingRate => some "VK_KHR_fragment_shading_rate"

/-- Following `pNext` from a structure pointer, as the driver does: the structures met, in
order, for at most `fuel` steps; a null pointer ends the walk. -/
def PNextStore.walk (m : PNextStore) (fuel : Nat) (start : Option FeatureStruct) :
    List FeatureStruct :=
  match fuel, start with
  | 0, _ => []
  | _, none => []
  | n + 1, some s => s :: m.walk n (m.get s)

/-- The structures linked in the chain of a `VkDeviceCreateInfo`. Eight steps reach every
structure of a chain without a cycle. -/
def VkDeviceCreateInfo.linked (dci : VkDeviceCreateInfo) : List FeatureStruct :=
  dci.chain.walk 8 dci.pNext

/-- The create infos the log records `vkCreateDevice` calls with, in call order. -/
def createdDevices (log : List Event) : List VkDeviceCreateInfo :=
  log.filterMap (fun e =>
    match e with
    | .vkCreateDevice _ dci => some dci
    | _ => none)

/-- The `vkGetDeviceQueue` calls the log records (device, family, queue index), in order. -/
def deviceQueueCalls (log : List Event) : List (Handle × Nat × Nat) :=
  log.filterMap (fun e =>
    match e with
    | .vkGetDeviceQueue device family index => some (device, family, index)
    | _ => none)

/-- The create infos the log records `vkCreateComputePipelines` calls with, in call order. -/
def createdComputePipelines (log : List Event) : List (Handle × VkComputePipelineCreateInfo) :=
  log.filterMap (fun e =>
    match e with
    | .vkCreateComputePipelines device cpci => some (device, cpci)
    | _ => none)

/-- A family's `queueFlags` contain the graphics bit and contain the compute bit, each bit
tested on its own. -/
def hasGraphicsAndCompute (queueFlags : Nat) : Bool :=
  decide (queueFlags &&& VK_QUEUE_GRAPHICS_BIT = VK_QUEUE_GRAPHICS_BIT) &&
  decide (queueFlags &&& VK_QUEUE_COMPUTE_BIT = VK_QUEUE_COMPUTE_BIT)

/-- A family's `queueFlags` contain the compute bit, but not both bits. -/
def hasComputeOnly (queueFlags : Nat) : Bool :=
  decide (queueFlags &&& VK_QUEUE_COMPUTE_BIT = VK_QUEUE_COMPUTE_BIT) &&
  !hasGraphicsAndCompute queueFlags

/-! ## Destructors of the GPU object wrappers (`VKPipeline.cpp`) -/

/-- The destructor `ShaderModule::~ShaderModule`:
`vkDestroyShaderModule(handles->Device, mod, handles->AllocCallbacks)`. -/
def ShaderModule.destroy (s : ShaderModule) (w : World) : Option World :=
  some (w.emit (.vkDestroyShaderModule s.handles.Device s.mod s.handles.AllocCallbacks))

/-- The destructor `PipelineLayout::~PipelineLayout`:
`vkDestroyPipelineLayout(handles->Device, layout, handles->AllocCallbacks)`. -/
def PipelineLayout.destroy (l : PipelineLayout) (w : World) : Option World :=
  some (w.emit (.vkDestroyPipelineLayout l.handles.Device l.layout l.handles.AllocCallbacks))

/-- The destructor `Pipeline::~Pipeline`:
`dq = core->perFrameResources[core->frameIndex].DeletionQueue;`
`DQ_QueueObjectDeletion(dq, pipeline, VK_OBJECT_TYPE_PIPELINE)`.
No result when `frameIndex` is outside the array. -/
def Pipeline.destroy (p : Pipeline) (w : World) : Option World :=
  match w.core.perFrameResources.get? w.core.frameIndex with
  | none => none
  | some fr =>
    let dq := DQ_QueueObjectDeletion fr.DeletionQueue p.pipeline .VK_OBJECT_TYPE_PIPELINE
    some { w with core := { w.core with
      perFrameResources :=
        w.core.perFrameResources.set w.core.frameIndex { fr with DeletionQueue := dq } } }

/-- The deletion entry the destructor of a pipeline wrapper queues. -/
def Pipeline.entry (p : Pipeline) : DeletionEntry :=
  { handle := p.pipeline, kind := .VK_OBJECT_TYPE_PIPELINE }

/-- The three GPU object wrappers of `VKPipeline.cpp`. -/
inductive Wrapper where
  | shaderModule (s : ShaderModule)
  | pipelineLayout (l : PipelineLayout)
  | pipeline (p : Pipeline)
deriving DecidableEq, Repr

/-- Running the destructor of a wrapper. -/
def Wrapper.destroy (x : Wrapper) (w : World) : Option World :=
  match x with
  | .shaderModule s => s.destroy w
  | .pipelineLayout l => l.destroy w
  | .pipeline p => p.destroy w

/-- An event that releases a GPU object. -/
def Event.isDestroy (e : Event) : Bool :=
  match e with
  | .vkDestroyShaderModule _ _ _ => true
  | .vkDestroyPipelineLayout _ _ _ => true
  | .destroyObject _ _ => true
  | _ => false

/-- The deletion queue of slot `i`. -/
def World.queueOf (w : World) (i : Nat) : Option DeletionQueue :=
  (w.core.perFrameResources.get? i).map (fun fr => fr.DeletionQueue)

/-! ## The frame loop and the upload stager

`Core::BeginFrame`, `Core::EndFrame`, the index getters, `Core::QueueBufferUpload`,
`Core::QueueBufferToTextureCopy` and `Core::writeFrameUploadCommands` are declared in
`VKCore.hpp`; their bodies, and the flush of a deletion queue, are not part of the sources. -/

/-- How a frame-loop call can fail to produce a next state. -/
inductive FrameError where
  | contractViolation
  | outOfRange
  | stagingExhausted
deriving DecidableEq, Repr

/-- Modelled from the spec: the flush of a `DeletionQueue` (absent `R2/VKDeletionQueue.hpp`).
"Iterates queued entries, dispatches destruction by kind, then clears the queue." -/
def DeletionQueue.Flush (dq : DeletionQueue) (w : World) : DeletionQueue × World :=
  ({ entries := [] },
   { w with log := w.log ++ dq.entries.map (fun e => Event.destroyObject e.handle e.kind) })

/-- Modelled from the spec: `Core::writeFrameUploadCommands(index, cb)` (body absent).
"Translates every pending entry for the slot into a recorded copy command in declaration
order, then clears both pending lists": the buffer uploads in list order, copied out of the
slot's staging buffer, then the buffer-to-texture copies in list order. -/
def Core.writeFrameUploadCommands (index : Nat) (cb : Handle) (w : World) : Option World :=
  match w.core.perFrameResources.get? index with
  | none => none
  | some fr =>
    let uploads := fr.BufferUploads.map (fun bu =>
      Event.copyBuffer cb fr.StagingBuffer bu.Buffer bu.StagingOffset bu.DataOffset bu.DataSize)
    let copies := fr.BufferToTextureCopies.map (fun c =>
      Event.copyBufferToTexture cb c.Buffer c.Texture c.BufferOffset c.numMips)
    let cleared := { fr with BufferUploads := [], BufferToTextureCopies := [] }
    some { w with
      log := w.log ++ uploads ++ copies,
      core := { w.core with perFrameResources := w.core.perFrameResources.set index cleared } }

/-- Modelled from the spec: `Core::BeginFrame()` (body absent). "Blocks the calling thread until
the completion signal of the slot about to be reused is satisfied. Then: flushes that slot's
Deletion Queue, resets the slot's staging offset to zero and clears its pending-upload lists,
and begins recording on both the slot's command handles. Must not be called twice without an
intervening EndFrame (contract violation)"; violations are "defended against with
assertions". -/
def Core.BeginFrame (w : World) : Except FrameError World :=
  if w.core.inFrame then .error .contractViolation
  else
    match w.core.perFrameResources.get? w.core.frameIndex with
    | none => .error .outOfRange
    | some fr =>
      let w1 := w.emit (.vkWaitForFences fr.Fence)
      let flushed := fr.DeletionQueue.Flush w1
      let w2 := (flushed.2.emit (.beginCommandBuffer fr.CommandBuffer)).emit
        (.beginCommandBuffer fr.UploadCommandBuffer)
      let reset := { fr with DeletionQueue := flushed.1, StagingOffset := 0,
                             BufferUploads := [], BufferToTextureCopies := [] }
      .ok { w2 with core := { w2.core with
        perFrameResources := w2.core.perFrameResources.set w2.core.frameIndex reset,
        inFrame := true } }

/-- Modelled from the spec: `Core::EndFrame()` (body absent). "If the slot's pending-upload lists
are non-empty, records all accumulated copy commands into the slot's upload handle and submits
it, signaling a dedicated ordering signal; submits the main recording handle with a wait on
that ordering signal if uploads occurred (else no such wait), and arranges for the slot's
completion signal (both the CPU-waitable and GPU-side variants) to be signaled on finish.
Advances the slot index modulo N. Must not be called without a prior unmatched BeginFrame." -/
def Core.EndFrame (w : World) : Except FrameError World :=
  if !w.core.inFrame then .error .contractViolation
  else
    match w.core.perFrameResources.get? w.core.frameIndex with
    | none => .error .outOfRange
    | some fr =>
      let hasUploads := !(fr.BufferUploads.isEmpty && fr.BufferToTextureCopies.isEmpty)
      let uploaded : Option World :=
        if hasUploads then
          (Core.writeFrameUploadCommands w.core.frameIndex fr.UploadCommandBuffer w).map
            (fun w1 => w1.emit (.queueSubmit fr.UploadCommandBuffer none [fr.UploadSemaphore] none))
        else some w
      match uploaded with
      | none => .error .outOfRange
      | some w1 =>
        let w2 := w1.emit (.queueSubmit fr.CommandBuffer
          (if hasUploads then some fr.UploadSemaphore else none) [fr.Completion] (some fr.Fence))
        .ok { w2 with core := { w2.core with
          frameIndex := (w2.core.frameIndex + 1) % UINT32_SIZE % numFramesInFlight,
          inFrame := false } }

/-- Modelled from the spec: `Core::GetFrameIndex() const` (body absent): the current index. -/
def Core.GetFrameIndex (c : Core) : Nat := c.frameIndex

/-- Modelled from the spec: `Core::GetNextFrameIndex() const` (body absent): "(index + 1) mod N",
the sum taken on `uint32_t`. -/
def Core.GetNextFrameIndex (c : Core) : Nat :=
  (c.frameIndex + 1) % UINT32_SIZE % numFramesInFlight

/-- Modelled from the spec: `Core::GetPreviousFrameIndex() const` (body absent):
"(index - 1) mod N", the difference taken on `uint32_t`, where `0 - 1` wraps to `2^32 - 1`. -/
def Core.GetPreviousFrameIndex (c : Core) : Nat :=
  (c.frameIndex + UINT32_SIZE - 1) % UINT32_SIZE % numFramesInFlight

/-- Modelled from the spec: `Core::GetNumFramesInFlight() const` (body absent): "returns the
fixed constant N". -/
def Core.GetNumFramesInFlight (_c : Core) : Nat := numFramesInFlight

/-- Modelled from the spec: `Core::QueueBufferUpload(buffer, data, dataSize, dataOffset)` (body
absent); `data` is the list of the `dataSize` bytes behind the pointer. "Copies size bytes from
data into the current slot's staging region starting at the slot's current offset, appends a
Pending Buffer Upload recording the staging offset used, and advances the offset by size. If
the requested size would exceed the staging region's capacity, the request cannot be
satisfied." -/
def Core.QueueBufferUpload (buffer : Handle) (data : List Nat) (dataOffset : Nat) (w : World) :
    Except FrameError World :=
  match w.core.perFrameResources.get? w.core.frameIndex with
  | none => .error .outOfRange
  | some fr =>
    if fr.StagingOffset + data.length > fr.StagingMapped.length then .error .stagingExhausted
    else
      let mapped := fr.StagingMapped.take fr.StagingOffset ++ data ++
        fr.StagingMapped.drop (fr.StagingOffset + data.length)
      let upload : BufferUpload :=
        { Buffer := buffer, StagingOffset := fr.StagingOffset, DataSize := data.length,
          DataOffset := dataOffset }
      let staged := { fr with StagingMapped := mapped,
                              BufferUploads := fr.BufferUploads ++ [upload],
                              StagingOffset := (fr.StagingOffset + data.length) % UINT64_SIZE }
      .ok { w with core := { w.core with
        perFrameResources := w.core.perFrameResources.set w.core.frameIndex staged } }

/-- Modelled from the spec: `Core::QueueBufferToTextureCopy(buffer, texture, bufferOffset)` (body
absent). "Records a buffer-to-texture pending entry directly (no CPU copy into the staging
region is performed)." The mip count it records is not stated; it is the parameter
`numMips`. -/
def Core.QueueBufferToTextureCopy (buffer texture : Handle) (bufferOffset : Nat) (numMips : Int)
    (w : World) : Except FrameError World :=
  match w.core.perFrameResources.get? w.core.frameIndex with
  | none => .error .outOfRange
  | some fr =>
    let copy : BufferToTextureCopy :=
      { Buffer := buffer, Texture := texture, BufferOffset := bufferOffset, numMips := numMips }
    let queued := { fr with BufferToTextureCopies := fr.BufferToTextureCopies ++ [copy] }
    .ok { w with core := { w.core with
      perFrameResources := w.core.perFrameResources.set w.core.frameIndex queued } }

/-- Modelled from the spec: the state the constructor `Core::Core` leaves (body absent): slot 0
is current, no frame is open, and in both slots the deletion queue and the pending lists are
empty and the staging offset is zero. -/
def World.fresh (w : World) : Prop :=
  w.core.frameIndex = 0 ∧ w.core.inFrame = false ∧
  (∀ i fr, w.core.perFrameResources.get? i = some fr →
    fr.DeletionQueue.entries = [] ∧ fr.BufferUploads = [] ∧ fr.BufferToTextureCopies = [] ∧
    fr.StagingOffset = 0)

/-- The operations a client of the core can perform. -/
inductive Op where
  | BeginFrame
  | EndFrame
  | QueueBufferUpload (buffer : Handle) (data : List Nat) (dataOffset : Nat)
  | QueueBufferToTextureCopy (buffer texture : Handle) (bufferOffset : Nat) (numMips : Int)
  | destroy (x : Wrapper)
deriving DecidableEq, Repr

/-- One operation. -/
def step (w : World) (op : Op) : Except FrameError World :=
  match op with
  | .BeginFrame => Core.BeginFrame w
  | .EndFrame => Core.EndFrame w
  | .QueueBufferUpload b d o => Core.QueueBufferUpload b d o w
  | .QueueBufferToTextureCopy b t o m => Core.QueueBufferToTextureCopy b t o m w
  | .destroy x =>
    match x.destroy w with
    | some w1 => .ok w1
    | none => .error .outOfRange

/-- A sequence of operations, stopping at the first that fails. -/
def run (w : World) (ops : List Op) : Except FrameError World :=
  match ops with
  | [] => .ok w
  | op :: rest =>
    match step w op with
    | .ok w1 => run w1 rest
    | .error e => .error e

/-- The sequence of `k` complete `BeginFrame`/`EndFrame` pairs. -/
def framePairs (k : Nat) : List Op :=
  match k with
  | 0 => []
  | n + 1 => Op.BeginFrame :: Op.EndFrame :: framePairs n

/-- How often the log records the destruction of the object of a deletion entry by a queue
flush. -/
def World.destroyCount (w : World) (x : DeletionEntry) : Nat :=
  w.log.count (Event.destroyObject x.handle x.kind)

/-- How often an entry is queued in slot `i`. -/
def World.pendingCount (w : World) (i : Nat) (x : DeletionEntry) : Nat :=
  match w.queueOf i with
  | some dq => dq.entries.count x
  | none => 0

/-- An operation that queues the entry `x`: the destruction of a pipeline wrapper holding the
handle of `x`. -/
def Op.enqueues (x : DeletionEntry) (op : Op) : Bool :=
  match op with
  | .destroy (.pipeline p) =>
    decide (p.pipeline = x.handle ∧ x.kind = VkObjectType.VK_OBJECT_TYPE_PIPELINE)
  | _ => false

/-- The release events an operation is expected to add to the log in state `w`: the flush of
the current slot's queue for `BeginFrame`, the direct destroy call for the destructor of a
shader module or pipeline layout, nothing otherwise. -/
def Op.releases (w : World) (op : Op) : List Event :=
  match op with
  | .BeginFrame =>
    match w.queueOf w.core.frameIndex with
    | some dq => dq.entries.map (fun e => Event.destroyObject e.handle e.kind)
    | none => []
  | .destroy (.shaderModule s) =>
    [Event.vkDestroyShaderModule s.handles.Device s.mod s.handles.AllocCallbacks]
  | .destroy (.pipelineLayout l) =>
    [Event.vkDestroyPipelineLayout l.handles.Device l.layout l.handles.AllocCallbacks]
  | _ => []

/-- No `BeginFrame` of the run `ops` from `w` is called while slot `i` is current. -/
def noReclaim (i : Nat) (w : World) (ops : List Op) : Bool :=
  match ops with
  | [] => true
  | op :: rest =>
    (!(decide (op = Op.BeginFrame) && decide (w.core.frameIndex = i))) &&
      (match step w op with
       | .ok w1 => noReclaim i w1 rest
       | .error _ => true)

/-- A sequence of frame calls in which `BeginFrame` and `EndFrame` alternate, given whether a
frame is open at its start. -/
def alternating (frameOpen : Bool) (ops : List Op) : Bool :=
  match frameOpen, ops with
  | _, [] => true
  | false, .BeginFrame :: rest => alternating true rest
  | true, .EndFrame :: rest => alternating false rest
  | _, _ => false

/-- There is a `BeginFrame` without a matching `EndFrame`. -/
def unmatchedBegin (ops : List Op) : Bool :=
  decide (ops.count Op.EndFrame < ops.count Op.BeginFrame)

/-! ## Concrete states used to evaluate the model -/

/-- A slot with the given handles numbered from `base`, empty queue and lists, and a staging
region of `cap` zero bytes. -/
def exampleSlot (base cap : Nat) : PerFrameResources :=
  { CommandBuffer := base + 1, UploadCommandBuffer := base + 2, UploadSemaphore := base + 3,
    Completion := base + 4, Fence := base + 5, DeletionQueue := { entries := [] },
    BufferUploads := [], BufferToTextureCopies := [], StagingOffset := 0,
    StagingBuffer := base + 6, StagingMapped := List.replicate cap 0 }

/-- Handles of an initialised device. -/
def exampleHandles : Handles :=
  { Instance := 1, PhysicalDevice := 2, Device := 3,
    Queues := { GraphicsFamilyIndex := 0, PresentFamilyIndex := 0,
                AsyncComputeFamilyIndex := 4294967295,
                Graphics := 4, Present := 0, AsyncCompute := 0 },
    CommandPool := 5, AllocCallbacks := 0, Allocator := 6, DescriptorPool := 7 }

/-- A world right after initialisation: slot 0 current, no frame open, nothing queued, staging
regions of `cap` bytes, the given cache and driver script, empty log. -/
def exampleWorld (cap : Nat) (cache : Option RenderPassCache) (script : List (Int × Handle)) :
    World :=
  { core := { handles := exampleHandles,
              supportedFeatures := { RayTracing := false, VariableRateShading := false,
                                     DynamicRendering := cache.isNone },
              messenger := 0,
              perFrameResources := { elem0 := exampleSlot 10 cap, elem1 := exampleSlot 20 cap },
              frameIndex := 0, inFrame := false },
    g_renderPassCache := cache,
    deviceExtensions := if cache.isNone then ["VK_KHR_swapchain", "VK_KHR_dynamic_rendering"]
                        else ["VK_KHR_swapchain"],
    queueFamilies := [3], driver := script, log := [] }

/-- The arguments of one `QueueBufferUpload` call. -/
structure UploadRequest where
  buffer : Handle
  data : List Nat
  dataOffset : Nat
deriving DecidableEq, Repr

/-- The call made with these arguments. -/
def UploadRequest.op (r : UploadRequest) : Op :=
  Op.QueueBufferUpload r.buffer r.data r.dataOffset

/-- Sum of the sizes of the first `j` requests: `s1 + ... + sj`. -/
def sizesBefore (reqs : List UploadRequest) (j : Nat) : Nat :=
  ((reqs.take j).map (fun r => r.data.length)).sum

/-- The pending uploads a bump allocator starting at `start` records for the requests. -/
def uploadsFrom (start : Nat) (reqs : List UploadRequest) : List BufferUpload :=
  match reqs with
  | [] => []
  | r :: rest =>
    { Buffer := r.buffer, StagingOffset := start, DataSize := r.data.length,
      DataOffset := r.dataOffset } :: uploadsFrom (start + r.data.length) rest

/-- The world after the first `BeginFrame` on `exampleWorld`. -/
def exampleOpenWorld (cap : Nat) : World :=
  match Core.BeginFrame (exampleWorld cap none []) with
  | .ok w => w
  | .error _ => exampleWorld cap none []

/-- The pending buffer upload a recorded buffer copy stands for. -/
def Event.asBufferUpload (e : Event) : Option BufferUpload :=
  match e with
  | .copyBuffer _ _ dst srcOffset dstOffset size =>
    some { Buffer := dst, StagingOffset := srcOffset, DataSize := size, DataOffset := dstOffset }
  | _ => none

/-- The pending buffer-to-texture copy a recorded texture copy stands for. -/
def Event.asBufferToTextureCopy (e : Event) : Option BufferToTextureCopy :=
  match e with
  | .copyBufferToTexture _ buffer texture bufferOffset numMips =>
    some { Buffer := buffer, Texture := texture, BufferOffset := bufferOffset,
           numMips := numMips }
  | _ => none

/-- The world after a pipeline wrapper holding handle 77 is destroyed inside the first frame. -/
def examplePendingWorld : World :=
  match (Pipeline.mk 77).destroy (exampleOpenWorld 4) with
  | some w => w
  | none => exampleOpenWorld 4

/-- A slot with two pending buffer uploads and one pending buffer-to-texture copy. -/
def exampleUploadSlot : PerFrameResources :=
  { exampleSlot 10 4 with
    BufferUploads := [{ Buffer := 9, StagingOffset := 0, DataSize := 3, DataOffset := 0 },
                      { Buffer := 8, StagingOffset := 3, DataSize := 1, DataOffset := 7 }],
    BufferToTextureCopies := [{ Buffer := 9, Texture := 30, BufferOffset := 0, numMips := 1 }],
    StagingOffset := 4, StagingMapped := [1, 2, 3, 5] }

/-- A world whose slot 0 is `exampleUploadSlot`, inside the first frame. -/
def exampleUploadWorld : World :=
  { exampleOpenWorld 4 with core := { (exampleOpenWorld 4).core with
      perFrameResources := { elem0 := exampleUploadSlot, elem1 := exampleSlot 20 4 } } }

/-- A builder with one colour attachment, a depth attachment and one shader stage. -/
def exampleBuilder : PipelineBuilder :=
  { shaderStages := [{ module := { handles := exampleHandles, mod := 50 }, stage := .Vertex }],
    attachmentFormats := [44], depthFormat := 126,
    vertexBindings := [{ Binding := 0, Size := 12,
                         Attributes := [{ Index := 0, Format := 106, Offset := 0 }] }],
    topology := 3, cullMode := 2, layout := 60, alphaBlend := false, alphaToCoverage := false,
    additiveBlend := false, depthTest := true, depthWrite := true, depthCompareOp := 4,
    numSamples := 1, viewMask := 0, depthBias := false, constantDepthBias := 0,
    slopeDepthBias := 0 }

/-- A device with five queue families: graphics and compute, compute only, all capabilities,
compute only, transfer only. -/
def exampleQueueWorld : World :=
  { exampleWorld 4 none [] with queueFamilies := [3, 2, 15, 2, 4] }

/-- The world `findQueueFamilies` returns on `exampleQueueWorld`. -/
def exampleQueueResult : World :=
  match Core.findQueueFamilies exampleQueueWorld with
  | .ok w' => w'
  | .error _ => exampleQueueWorld

/-- A builder with two colour formats, both blend flags set, and two vertex bindings of one and
of two attributes. -/
def exampleBlendBuilder : PipelineBuilder :=
  { exampleBuilder with
    attachmentFormats := [44, 37], alphaBlend := true, additiveBlend := true,
    vertexBindings :=
      [{ Binding := 0, Size := 12, Attributes := [{ Index := 0, Format := 106, Offset := 0 }] },
       { Binding := 1, Size := 20,
         Attributes := [{ Index := 1, Format := 106, Offset := 0 },
                        { Index := 2, Format := 103, Offset := 12 }] }] }

/-- A device that enumerates the ray query and the acceleration structure extension. -/
def exampleRayTracingWorld : World :=
  { exampleWorld 4 none [] with
    deviceExtensions := ["VK_KHR_swapchain", "VK_KHR_dynamic_rendering", "VK_KHR_ray_query",
      "VK_KHR_acceleration_structure", "VK_KHR_deferred_host_operations"] }

/-- Two `PushConstants` calls interleaved with two `DescriptorSet` calls. -/
def exampleLayoutCalls : List LayoutCall :=
  [.PushConstants .Vertex 0 64, .DescriptorSet { nativeHandle := 81 },
   .PushConstants .Fragment 64 16, .DescriptorSet { nativeHandle := 82 }]

/-- A compute builder with its shader and layout set. -/
def exampleComputeBuilder : ComputePipelineBuilder :=
  { shaderModule := some { handles := exampleHandles, mod := 51 }, pipelineLayout := 60 }

/-! ## Lemmas on the slot array -/

theorem PerFrameArray.get?_set_self (a : PerFrameArray) (i : Nat) (v : PerFrameResources)
    (h : i < numFramesInFlight) : (a.set i v).get? i = some v := by
  unfold numFramesInFlight at h
  interval_cases i <;> simp [PerFrameArray.get?, PerFrameArray.set]

theorem PerFrameArray.get?_set_other (a : PerFrameArray) (i j : Nat) (v : PerFrameResources)
    (h : j ≠ i) : (a.set i v).get? j = a.get? j := by
  unfold PerFrameArray.get? PerFrameArray.set
  by_cases h0 : i = 0
  · subst h0
    by_cases hj : j = 0
    · exact absurd hj h
    · simp [hj]
  · by_cases h1 : i = 1
    · subst h1
      by_cases hj0 : j = 0
      · simp [hj0]
      · have hj1 : j ≠ 1 := h
        simp [hj0, hj1]
    · simp [h0, h1]

theorem PerFrameArray.get?_isSome (a : PerFrameArray) (i : Nat) (h : i < numFramesInFlight) :
    ∃ fr, a.get? i = some fr := by
  unfold numFramesInFlight at h
  interval_cases i <;> simp [PerFrameArray.get?]

theorem PerFrameArray.get?_eq_some_lt (a : PerFrameArray) (i : Nat) (fr : PerFrameResources)
    (h : a.get? i = some fr) : i < numFramesInFlight := by
  unfold PerFrameArray.get? at h
  unfold numFramesInFlight
  by_cases h0 : i = 0
  · omega
  · by_cases h1 : i = 1
    · omega
    · simp [h0, h1] at h

/-! ## The destructor of `Pipeline` -/

/-- C1: for every state whose frame index `i` is a slot index and every pipeline wrapper `p`,
the destructor of `p` succeeds, appends exactly the entry (native handle of `p`,
`VK_OBJECT_TYPE_PIPELINE`) at the end of the deletion queue of slot `i`, leaves every other
slot as it was, and changes neither the frame index nor the in-frame flag nor the log. -/
theorem Pipeline_destroy_enqueues_in_current_slot (w : World) (p : Pipeline)
    (h : w.core.frameIndex < numFramesInFlight) :
    ∃ w' dq, p.destroy w = some w' ∧
      w.queueOf w.core.frameIndex = some dq ∧
      w'.queueOf w.core.frameIndex = some { entries := dq.entries ++
        [{ handle := p.pipeline, kind := VkObjectType.VK_OBJECT_TYPE_PIPELINE }] } ∧
      (∀ j, j ≠ w.core.frameIndex →
        w'.core.perFrameResources.get? j = w.core.perFrameResources.get? j) ∧
      w'.core.frameIndex = w.core.frameIndex ∧
      w'.core.inFrame = w.core.inFrame ∧
      w'.log = w.log := by
  obtain ⟨fr, hfr⟩ := w.core.perFrameResources.get?_isSome w.core.frameIndex h
  have hd : ∃ w', p.destroy w = some w' := by
    simp only [Pipeline.destroy, hfr]
    exact ⟨_, rfl⟩
  obtain ⟨w', hw'⟩ := hd
  have hw := hw'
  simp only [Pipeline.destroy, hfr, Option.some.injEq] at hw
  subst hw
  refine ⟨_, fr.DeletionQueue, hw', ?_, ?_, ?_, rfl, rfl, rfl⟩
  · simp [World.queueOf, hfr]
  · simp [World.queueOf, PerFrameArray.get?_set_self _ _ _ h, DQ_QueueObjectDeletion]
  · intro j hj
    exact PerFrameArray.get?_set_other _ _ _ _ hj

/-- Witness of C1: slot 1 current, one entry already queued there. -/
theorem Pipeline_destroy_enqueues_in_current_slot_witness :
    ∃ w' dq, (Pipeline.mk 77).destroy
        { exampleWorld 4 none [] with core := { (exampleWorld 4 none []).core with
            frameIndex := 1 } } = some w' ∧
      World.queueOf { exampleWorld 4 none [] with core := { (exampleWorld 4 none []).core with
            frameIndex := 1 } } 1 = some dq ∧
      w'.queueOf 1 = some { entries := dq.entries ++
        [{ handle := 77, kind := VkObjectType.VK_OBJECT_TYPE_PIPELINE }] } ∧
      (∀ j, j ≠ 1 → w'.core.perFrameResources.get? j =
        (exampleWorld 4 none []).core.perFrameResources.get? j) ∧
      w'.core.frameIndex = 1 ∧
      w'.core.inFrame = false ∧
      w'.log = [] :=
  Pipeline_destroy_enqueues_in_current_slot
    { exampleWorld 4 none [] with core := { (exampleWorld 4 none []).core with
        frameIndex := 1 } } (Pipeline.mk 77) (by decide)

/-! ## The frame loop: what a successful call did -/

theorem PerFrameArray.set_eq_self (a : PerFrameArray) (i : Nat) (fr : PerFrameResources)
    (h : a.get? i = some fr) : a.set i fr = a := by
  unfold PerFrameArray.get? at h
  unfold PerFrameArray.set
  by_cases h0 : i = 0
  · simp [h0] at h ⊢
    rw [← h]
  · by_cases h1 : i = 1
    · simp [h1] at h ⊢
      rw [← h]
    · simp [h0, h1]

theorem EndFrame_inv (w w' : World) (h : Core.EndFrame w = .ok w') :
    w.core.inFrame = true ∧ ∃ fr, w.core.perFrameResources.get? w.core.frameIndex = some fr ∧
      ∃ (evs : List Event) (fr' : PerFrameResources),
        (∀ e ∈ evs, e.isDestroy = false) ∧
        fr'.DeletionQueue = fr.DeletionQueue ∧
      w' = { w with
        log := w.log ++ evs,
        core := { w.core with
          perFrameResources := w.core.perFrameResources.set w.core.frameIndex fr',
          frameIndex := (w.core.frameIndex + 1) % numFramesInFlight,
          inFrame := false } } := by
  unfold Core.EndFrame at h
  by_cases hin : w.core.inFrame = true
  swap
  · simp [hin] at h
  · cases hfr : w.core.perFrameResources.get? w.core.frameIndex with
    | none => simp [hin, hfr] at h
    | some fr =>
      have hi := PerFrameArray.get?_eq_some_lt _ _ _ hfr
      have hmod : (w.core.frameIndex + 1) % UINT32_SIZE % numFramesInFlight =
          (w.core.frameIndex + 1) % numFramesInFlight := by
        unfold UINT32_SIZE numFramesInFlight at *
        omega
      refine ⟨hin, fr, rfl, ?_⟩
      by_cases hu : (fr.BufferUploads.isEmpty && fr.BufferToTextureCopies.isEmpty) = true
      · simp [hin, hfr, hu, World.emit, hmod] at h
        refine ⟨[Event.queueSubmit fr.CommandBuffer none [fr.Completion] (some fr.Fence)], fr,
          ?_, rfl, ?_⟩
        · simp [Event.isDestroy]
        · rw [← h, PerFrameArray.set_eq_self _ _ _ hfr]
      · simp [hin, hfr, hu, World.emit, hmod, Core.writeFrameUploadCommands] at h
        refine ⟨fr.BufferUploads.map (fun bu => Event.copyBuffer fr.UploadCommandBuffer
              fr.StagingBuffer bu.Buffer bu.StagingOffset bu.DataOffset bu.DataSize) ++
            (fr.BufferToTextureCopies.map (fun c => Event.copyBufferToTexture
              fr.UploadCommandBuffer c.Buffer c.Texture c.BufferOffset c.numMips) ++
            [Event.queueSubmit fr.UploadCommandBuffer none [fr.UploadSemaphore] none,
             Event.queueSubmit fr.CommandBuffer (some fr.UploadSemaphore) [fr.Completion]
               (some fr.Fence)]),
          { fr with BufferUploads := [], BufferToTextureCopies := [] }, ?_, rfl, ?_⟩
        · intro e he
          simp at he
          rcases he with ⟨a, _, rfl⟩ | ⟨a, _, rfl⟩ | rfl | rfl <;> rfl
        · rw [← h]

/-- Replacing a slot by one with the same deletion queue changes no deletion queue. -/
theorem PerFrameArray.dq_set_same (a : PerFrameArray) (i j : Nat) (fr fr' : PerFrameResources)
    (h : a.get? i = some fr) (hq : fr'.DeletionQueue = fr.DeletionQueue) :
    ((a.set i fr').get? j).map (fun s => s.DeletionQueue) =
      (a.get? j).map (fun s => s.DeletionQueue) := by
  by_cases hj : j = i
  · subst hj
    rw [PerFrameArray.get?_set_self _ _ _ (PerFrameArray.get?_eq_some_lt _ _ _ h), h]
    simp [hq]
  · rw [PerFrameArray.get?_set_other _ _ _ _ hj]

/-- The destruction event of an entry determines the entry. -/
theorem destroyObject_injective :
    Function.Injective (fun e : DeletionEntry => Event.destroyObject e.handle e.kind) := by
  intro a b h
  cases a
  cases b
  simp at h
  simp [h]

theorem count_destroyObject_of_not_isDestroy (evs : List Event) (x : DeletionEntry)
    (h : ∀ e ∈ evs, e.isDestroy = false) :
    evs.count (Event.destroyObject x.handle x.kind) = 0 := by
  rw [List.count_eq_zero]
  intro hmem
  have := h _ hmem
  simp [Event.isDestroy] at this

theorem count_destroyObject_map (l : List DeletionEntry) (x : DeletionEntry) :
    (l.map (fun e => Event.destroyObject e.handle e.kind)).count
      (Event.destroyObject x.handle x.kind) = l.count x :=
  List.count_map_of_injective l _ destroyObject_injective x

theorem BeginFrame_inv (w w' : World) (h : Core.BeginFrame w = .ok w') :
    w.core.inFrame = false ∧ ∃ fr, w.core.perFrameResources.get? w.core.frameIndex = some fr ∧
      w' = { w with
        log := w.log ++ [Event.vkWaitForFences fr.Fence] ++
          fr.DeletionQueue.entries.map (fun e => Event.destroyObject e.handle e.kind) ++
          [Event.beginCommandBuffer fr.CommandBuffer,
           Event.beginCommandBuffer fr.UploadCommandBuffer],
        core := { w.core with
          perFrameResources := w.core.perFrameResources.set w.core.frameIndex
            { fr with DeletionQueue := { entries := [] }, StagingOffset := 0,
                      BufferUploads := [], BufferToTextureCopies := [] },
          inFrame := true } } := by
  unfold Core.BeginFrame at h
  by_cases hin : w.core.inFrame = true
  · simp [hin] at h
  · cases hfr : w.core.perFrameResources.get? w.core.frameIndex with
    | none => simp [hin, hfr] at h
    | some fr =>
      simp only [hin, hfr] at h
      simp only [Bool.not_eq_true] at hin
      refine ⟨hin, fr, rfl, ?_⟩
      simp [World.emit, DeletionQueue.Flush] at h
      rw [← h]
      simp

theorem QueueBufferUpload_inv (b : Handle) (d : List Nat) (o : Nat) (w w' : World)
    (h : Core.QueueBufferUpload b d o w = .ok w') :
    ∃ fr, w.core.perFrameResources.get? w.core.frameIndex = some fr ∧
      fr.StagingOffset + d.length ≤ fr.StagingMapped.length ∧
      w' = { w with core := { w.core with
        perFrameResources := w.core.perFrameResources.set w.core.frameIndex
          { fr with
            StagingMapped := fr.StagingMapped.take fr.StagingOffset ++ d ++
              fr.StagingMapped.drop (fr.StagingOffset + d.length),
            BufferUploads := fr.BufferUploads ++
              [{ Buffer := b, StagingOffset := fr.StagingOffset, DataSize := d.length,
                 DataOffset := o }],
            StagingOffset := (fr.StagingOffset + d.length) % UINT64_SIZE } } } := by
  unfold Core.QueueBufferUpload at h
  cases hfr : w.core.perFrameResources.get? w.core.frameIndex with
  | none => simp [hfr] at h
  | some fr =>
    simp only [hfr] at h
    by_cases hc : fr.StagingOffset + d.length > fr.StagingMapped.length
    · simp [hc] at h
    · simp only [hc, if_false, Except.ok.injEq] at h
      exact ⟨fr, rfl, by omega, h.symm⟩

theorem QueueBufferToTextureCopy_inv (b t : Handle) (o : Nat) (m : Int) (w w' : World)
    (h : Core.QueueBufferToTextureCopy b t o m w = .ok w') :
    ∃ fr, w.core.perFrameResources.get? w.core.frameIndex = some fr ∧
      w' = { w with core := { w.core with
        perFrameResources := w.core.perFrameResources.set w.core.frameIndex
          { fr with BufferToTextureCopies := fr.BufferToTextureCopies ++
              [{ Buffer := b, Texture := t, BufferOffset := o, numMips := m }] } } } := by
  unfold Core.QueueBufferToTextureCopy at h
  cases hfr : w.core.perFrameResources.get? w.core.frameIndex with
  | none => simp [hfr] at h
  | some fr =>
    simp only [hfr, Except.ok.injEq] at h
    exact ⟨fr, rfl, h.symm⟩

theorem Pipeline_destroy_inv (p : Pipeline) (w w' : World) (h : p.destroy w = some w') :
    ∃ fr, w.core.perFrameResources.get? w.core.frameIndex = some fr ∧
      w' = { w with core := { w.core with
        perFrameResources := w.core.perFrameResources.set w.core.frameIndex
          { fr with DeletionQueue := { entries := fr.DeletionQueue.entries ++
              [{ handle := p.pipeline, kind := VkObjectType.VK_OBJECT_TYPE_PIPELINE }] } } } } := by
  unfold Pipeline.destroy at h
  cases hfr : w.core.perFrameResources.get? w.core.frameIndex with
  | none => simp [hfr] at h
  | some fr =>
    simp only [hfr, Option.some.injEq] at h
    exact ⟨fr, rfl, h.symm⟩

/-- Effect of one operation that does not queue `x` on the number of destructions of `x` and on
the number of times `x` is queued in each slot. -/
theorem step_counts (x : DeletionEntry) (w w' : World) (op : Op) (h : step w op = .ok w')
    (hne : op.enqueues x = false) :
    (op ≠ Op.BeginFrame → w'.destroyCount x = w.destroyCount x ∧
      ∀ j, w'.pendingCount j x = w.pendingCount j x) ∧
    (op = Op.BeginFrame →
      w'.destroyCount x = w.destroyCount x + w.pendingCount w.core.frameIndex x ∧
      w'.pendingCount w.core.frameIndex x = 0 ∧
      ∀ j, j ≠ w.core.frameIndex → w'.pendingCount j x = w.pendingCount j x) := by
  cases op with
  | BeginFrame =>
    refine ⟨fun hc => absurd rfl hc, fun _ => ?_⟩
    obtain ⟨_, fr, hfr, rfl⟩ := BeginFrame_inv w w' h
    have hi := PerFrameArray.get?_eq_some_lt _ _ _ hfr
    refine ⟨?_, ?_, ?_⟩
    · simp [World.destroyCount, World.pendingCount, World.queueOf, hfr,
        count_destroyObject_map]
    · simp [World.pendingCount, World.queueOf, PerFrameArray.get?_set_self _ _ _ hi]
    · intro j hj
      simp [World.pendingCount, World.queueOf, PerFrameArray.get?_set_other _ _ _ _ hj]
  | EndFrame =>
    refine ⟨fun _ => ?_, fun hc => by cases hc⟩
    obtain ⟨_, fr, hfr, evs, fr', hevs, hq, rfl⟩ := EndFrame_inv w w' h
    refine ⟨?_, ?_⟩
    · simp [World.destroyCount, count_destroyObject_of_not_isDestroy evs x hevs]
    · intro j
      simp only [World.pendingCount, World.queueOf]
      rw [PerFrameArray.dq_set_same _ _ _ _ _ hfr hq]
  | QueueBufferUpload b d o =>
    refine ⟨fun _ => ?_, fun hc => by cases hc⟩
    obtain ⟨fr, hfr, _, rfl⟩ := QueueBufferUpload_inv b d o w w' h
    refine ⟨rfl, ?_⟩
    intro j
    simp only [World.pendingCount, World.queueOf]
    rw [PerFrameArray.dq_set_same _ _ _ fr _ hfr (by rfl)]
  | QueueBufferToTextureCopy b t o m =>
    refine ⟨fun _ => ?_, fun hc => by cases hc⟩
    obtain ⟨fr, hfr, rfl⟩ := QueueBufferToTextureCopy_inv b t o m w w' h
    refine ⟨rfl, ?_⟩
    intro j
    simp only [World.pendingCount, World.queueOf]
    rw [PerFrameArray.dq_set_same _ _ _ fr _ hfr (by rfl)]
  | destroy wr =>
    refine ⟨fun _ => ?_, fun hc => by cases hc⟩
    cases wr with
    | shaderModule s =>
      simp [step, Wrapper.destroy, ShaderModule.destroy] at h
      subst h
      refine ⟨?_, fun j => rfl⟩
      simp [World.destroyCount, World.emit]
    | pipelineLayout l =>
      simp [step, Wrapper.destroy, PipelineLayout.destroy] at h
      subst h
      refine ⟨?_, fun j => rfl⟩
      simp [World.destroyCount, World.emit]
    | pipeline p =>
      have hd : p.destroy w = some w' := by
        simp only [step, Wrapper.destroy] at h
        cases hp : p.destroy w with
        | none => simp [hp] at h
        | some w1 =>
          simp only [hp, Except.ok.injEq] at h
          rw [h]
      obtain ⟨fr, hfr, rfl⟩ := Pipeline_destroy_inv p w w' hd
      have hi := PerFrameArray.get?_eq_some_lt _ _ _ hfr
      refine ⟨rfl, ?_⟩
      intro j
      have hx : ({ handle := p.pipeline, kind := VkObjectType.VK_OBJECT_TYPE_PIPELINE } :
          DeletionEntry) ≠ x := by
        intro hc
        subst hc
        simp [Op.enqueues] at hne
      by_cases hj : j = w.core.frameIndex
      · subst hj
        simp [World.pendingCount, World.queueOf, PerFrameArray.get?_set_self _ _ _ hi, hfr,
          List.count_singleton, hx]
      · simp [World.pendingCount, World.queueOf, PerFrameArray.get?_set_other _ _ _ _ hj]

/-! ## Which operations release GPU objects -/

theorem filter_isDestroy_map_destroyObject (l : List DeletionEntry) :
    (l.map (fun e => Event.destroyObject e.handle e.kind)).filter Event.isDestroy =
      l.map (fun e => Event.destroyObject e.handle e.kind) := by
  rw [List.filter_eq_self]
  intro e he
  obtain ⟨x, _, rfl⟩ := List.mem_map.1 he
  rfl

theorem filter_isDestroy_of_none (evs : List Event) (h : ∀ e ∈ evs, e.isDestroy = false) :
    evs.filter Event.isDestroy = [] := by
  rw [List.filter_eq_nil_iff]
  intro e he
  simp [h e he]

/-- The release events each operation adds to the log. -/
theorem step_releases (w w' : World) (op : Op) (h : step w op = .ok w') :
    ∃ evs, w'.log = w.log ++ evs ∧ evs.filter Event.isDestroy = op.releases w := by
  cases op with
  | BeginFrame =>
    obtain ⟨_, fr, hfr, rfl⟩ := BeginFrame_inv w w' h
    refine ⟨[Event.vkWaitForFences fr.Fence] ++
      fr.DeletionQueue.entries.map (fun e => Event.destroyObject e.handle e.kind) ++
      [Event.beginCommandBuffer fr.CommandBuffer,
       Event.beginCommandBuffer fr.UploadCommandBuffer], by simp, ?_⟩
    simp only [Op.releases, World.queueOf, hfr, Option.map_some', List.filter_append,
      filter_isDestroy_map_destroyObject]
    simp [Event.isDestroy]
  | EndFrame =>
    obtain ⟨_, fr, hfr, evs, fr', hevs, _, rfl⟩ := EndFrame_inv w w' h
    exact ⟨evs, rfl, filter_isDestroy_of_none evs hevs⟩
  | QueueBufferUpload b d o =>
    obtain ⟨fr, _, _, rfl⟩ := QueueBufferUpload_inv b d o w w' h
    exact ⟨[], by simp, rfl⟩
  | QueueBufferToTextureCopy b t o m =>
    obtain ⟨fr, _, rfl⟩ := QueueBufferToTextureCopy_inv b t o m w w' h
    exact ⟨[], by simp, rfl⟩
  | destroy wr =>
    cases wr with
    | shaderModule s =>
      simp [step, Wrapper.destroy, ShaderModule.destroy] at h
      subst h
      exact ⟨_, rfl, rfl⟩
    | pipelineLayout l =>
      simp [step, Wrapper.destroy, PipelineLayout.destroy] at h
      subst h
      exact ⟨_, rfl, rfl⟩
    | pipeline p =>
      have hd : p.destroy w = some w' := by
        simp only [step, Wrapper.destroy] at h
        cases hp : p.destroy w with
        | none => simp [hp] at h
        | some w1 =>
          simp only [hp, Except.ok.injEq] at h
          rw [h]
      obtain ⟨fr, _, rfl⟩ := Pipeline_destroy_inv p w w' hd
      exact ⟨[], by simp, rfl⟩

/-- C2, as stated, fails: the destructor of a shader module issues `vkDestroyShaderModule`
itself, and the destructor of a pipeline layout issues `vkDestroyPipelineLayout` itself; the
deletion queues stay empty. -/
theorem wrapper_destructors_destroy_directly :
    ((Wrapper.shaderModule { handles := exampleHandles, mod := 42 }).destroy
        (exampleWorld 4 none [])).map (fun w => (w.log.filter Event.isDestroy, w.core)) =
      some ([Event.vkDestroyShaderModule 3 42 0], (exampleWorld 4 none []).core) ∧
    ((Wrapper.pipelineLayout { handles := exampleHandles, layout := 43 }).destroy
        (exampleWorld 4 none [])).map (fun w => (w.log.filter Event.isDestroy, w.core)) =
      some ([Event.vkDestroyPipelineLayout 3 43 0], (exampleWorld 4 none []).core) := by
  constructor <;> rfl

/-- C2, amended: the destructor of a `Pipeline` issues no call at all (it only changes the
`Core`, by queueing its handle); the destructor of a `ShaderModule` always runs, releases its
module through exactly one direct `vkDestroyShaderModule` call and leaves the `Core`, hence
every deletion queue, untouched; the destructor of a `PipelineLayout` does the same through
exactly one `vkDestroyPipelineLayout` call. Over all operations, the release events are: the
flushed entries of the current slot's queue for `BeginFrame`, the one direct call for those
two destructors, and none for anything else; so a queued object is released by the flush
only. -/
theorem wrapper_destructors_gpu_calls (w : World) :
    (∀ (p : Pipeline) (w' : World), (Wrapper.pipeline p).destroy w = some w' →
        w'.log = w.log) ∧
    (∀ s : ShaderModule, ∃ w', (Wrapper.shaderModule s).destroy w = some w' ∧
        w'.log = w.log ++
          [Event.vkDestroyShaderModule s.handles.Device s.mod s.handles.AllocCallbacks] ∧
        w'.core = w.core) ∧
    (∀ l : PipelineLayout, ∃ w', (Wrapper.pipelineLayout l).destroy w = some w' ∧
        w'.log = w.log ++
          [Event.vkDestroyPipelineLayout l.handles.Device l.layout l.handles.AllocCallbacks] ∧
        w'.core = w.core) ∧
    (∀ (op : Op) (w' : World), step w op = .ok w' →
        ∃ evs, w'.log = w.log ++ evs ∧ evs.filter Event.isDestroy = op.releases w) := by
  refine ⟨?_, ?_, ?_, fun op w' h => step_releases w w' op h⟩
  · intro p w' hw
    simp only [Wrapper.destroy, Pipeline.destroy] at hw
    cases hfr : w.core.perFrameResources.get? w.core.frameIndex with
    | none => simp [hfr] at hw
    | some fr =>
      simp only [hfr, Option.some.injEq] at hw
      rw [← hw]
  · intro s
    exact ⟨_, rfl, rfl, rfl⟩
  · intro l
    exact ⟨_, rfl, rfl, rfl⟩

/-- Witness of amended C2: a pipeline destroyed in the initial world leaves the log empty. -/
theorem wrapper_destructors_gpu_calls_witness :
    (Wrapper.pipeline (Pipeline.mk 77)).destroy (exampleWorld 4 none []) =
      some { exampleWorld 4 none [] with core := { (exampleWorld 4 none []).core with
        perFrameResources := { (exampleWorld 4 none []).core.perFrameResources with
          elem0 := { exampleSlot 10 4 with DeletionQueue := { entries :=
            [{ handle := 77, kind := VkObjectType.VK_OBJECT_TYPE_PIPELINE }] } } } } } ∧
    ({ exampleWorld 4 none [] with core := { (exampleWorld 4 none []).core with
        perFrameResources := { (exampleWorld 4 none []).core.perFrameResources with
          elem0 := { exampleSlot 10 4 with DeletionQueue := { entries :=
            [{ handle := 77, kind := VkObjectType.VK_OBJECT_TYPE_PIPELINE }] } } } } } :
      World).log = (exampleWorld 4 none []).log :=
  ⟨rfl, (wrapper_destructors_gpu_calls (exampleWorld 4 none [])).1 (Pipeline.mk 77) _ rfl⟩

/-! ## Deferred deletion across frames -/

theorem run_cons_ok (w w1 w2 : World) (op : Op) (ops : List Op)
    (h1 : step w op = .ok w1) (h2 : run w1 ops = .ok w2) : run w (op :: ops) = .ok w2 := by
  simp [run, h1, h2]

theorem run_cons_inv (w w2 : World) (op : Op) (ops : List Op)
    (h : run w (op :: ops) = .ok w2) : ∃ w1, step w op = .ok w1 ∧ run w1 ops = .ok w2 := by
  simp only [run] at h
  cases hs : step w op with
  | error e => simp [hs] at h
  | ok w1 =>
    simp only [hs] at h
    exact ⟨w1, rfl, h⟩

/-- While no `BeginFrame` reclaims slot `i` and `x` is queued nowhere else, a run that does not
queue `x` neither destroys `x` nor changes how often it is queued. -/
theorem run_before_reclaim (x : DeletionEntry) (i : Nat) (ops : List Op) :
    ∀ (w w2 : World), run w ops = .ok w2 → noReclaim i w ops = true →
      (∀ op ∈ ops, op.enqueues x = false) →
      (∀ j, j ≠ i → w.pendingCount j x = 0) →
      w2.destroyCount x = w.destroyCount x ∧ w2.pendingCount i x = w.pendingCount i x ∧
        ∀ j, j ≠ i → w2.pendingCount j x = 0 := by
  induction ops with
  | nil =>
    intro w w2 h _ _ h0
    simp only [run, Except.ok.injEq] at h
    subst h
    exact ⟨rfl, rfl, h0⟩
  | cons op rest ih =>
    intro w w2 h hnr hne h0
    obtain ⟨w1, hs, hr⟩ := run_cons_inv w w2 op rest h
    simp only [noReclaim, hs, Bool.and_eq_true, Bool.not_eq_true', Bool.and_eq_false_iff,
      decide_eq_false_iff_not] at hnr
    obtain ⟨hguard, hnr'⟩ := hnr
    have hc := step_counts x w w1 op hs (hne op (List.mem_cons_self _ _))
    have hne' : ∀ op' ∈ rest, op'.enqueues x = false :=
      fun op' hm => hne op' (List.mem_cons_of_mem _ hm)
    by_cases hb : op = Op.BeginFrame
    · obtain ⟨hd, hp0, hpo⟩ := hc.2 hb
      have hfi : w.core.frameIndex ≠ i := by
        rcases hguard with hg | hg
        · exact absurd hb hg
        · exact hg
      have h1 := ih w1 w2 hr hnr' hne' (by
        intro j hj
        by_cases hjf : j = w.core.frameIndex
        · rw [hjf]; exact hp0
        · rw [hpo j hjf]; exact h0 j hj)
      rw [h0 _ hfi] at hd
      rw [h1.1, h1.2.1, hd, hpo i (Ne.symm hfi)]
      exact ⟨rfl, rfl, h1.2.2⟩
    · obtain ⟨hd, hp⟩ := hc.1 hb
      have h1 := ih w1 w2 hr hnr' hne' (by
        intro j hj
        rw [hp j]; exact h0 j hj)
      rw [h1.1, h1.2.1, hd, hp i]
      exact ⟨rfl, rfl, h1.2.2⟩

/-- Once `x` is queued nowhere, a run that does not queue `x` never destroys it. -/
theorem run_after_reclaim (x : DeletionEntry) (ops : List Op) :
    ∀ (w w2 : World), run w ops = .ok w2 →
      (∀ op ∈ ops, op.enqueues x = false) →
      (∀ j, w.pendingCount j x = 0) →
      w2.destroyCount x = w.destroyCount x ∧ ∀ j, w2.pendingCount j x = 0 := by
  induction ops with
  | nil =>
    intro w w2 h _ h0
    simp only [run, Except.ok.injEq] at h
    subst h
    exact ⟨rfl, h0⟩
  | cons op rest ih =>
    intro w w2 h hne h0
    obtain ⟨w1, hs, hr⟩ := run_cons_inv w w2 op rest h
    have hc := step_counts x w w1 op hs (hne op (List.mem_cons_self _ _))
    have hne' : ∀ op' ∈ rest, op'.enqueues x = false :=
      fun op' hm => hne op' (List.mem_cons_of_mem _ hm)
    by_cases hb : op = Op.BeginFrame
    · obtain ⟨hd, hp0, hpo⟩ := hc.2 hb
      have h1 := ih w1 w2 hr hne' (by
        intro j
        by_cases hjf : j = w.core.frameIndex
        · rw [hjf]; exact hp0
        · rw [hpo j hjf]; exact h0 j)
      rw [h0] at hd
      rw [h1.1, hd]
      exact ⟨rfl, h1.2⟩
    · obtain ⟨hd, hp⟩ := hc.1 hb
      have h1 := ih w1 w2 hr hne' (by
        intro j
        rw [hp j]; exact h0 j)
      rw [h1.1, hd]
      exact ⟨rfl, h1.2⟩

theorem BeginFrame_ok (w : World) (h : w.core.inFrame = false)
    (hi : w.core.frameIndex < numFramesInFlight) :
    ∃ w', Core.BeginFrame w = .ok w' ∧ w'.core.frameIndex = w.core.frameIndex ∧
      w'.core.inFrame = true := by
  obtain ⟨fr, hfr⟩ := w.core.perFrameResources.get?_isSome _ hi
  simp [Core.BeginFrame, h, hfr, World.emit, DeletionQueue.Flush]

theorem writeFrameUploadCommands_ok (w : World) (i cb : Nat) (hi : i < numFramesInFlight) :
    ∃ w', Core.writeFrameUploadCommands i cb w = some w' ∧
      w'.core.frameIndex = w.core.frameIndex ∧ w'.core.inFrame = w.core.inFrame := by
  obtain ⟨fr, hfr⟩ := w.core.perFrameResources.get?_isSome _ hi
  simp [Core.writeFrameUploadCommands, hfr]

theorem EndFrame_ok (w : World) (h : w.core.inFrame = true)
    (hi : w.core.frameIndex < numFramesInFlight) :
    ∃ w', Core.EndFrame w = .ok w' ∧
      w'.core.frameIndex = (w.core.frameIndex + 1) % numFramesInFlight ∧
      w'.core.inFrame = false := by
  obtain ⟨fr, hfr⟩ := w.core.perFrameResources.get?_isSome _ hi
  obtain ⟨wu, hwu, hwi, hwf⟩ := writeFrameUploadCommands_ok w _ fr.UploadCommandBuffer hi
  have hmod : (w.core.frameIndex + 1) % UINT32_SIZE % numFramesInFlight =
      (w.core.frameIndex + 1) % numFramesInFlight := by
    unfold UINT32_SIZE numFramesInFlight at *
    omega
  by_cases hu : (fr.BufferUploads.isEmpty && fr.BufferToTextureCopies.isEmpty) = true
  · simp [Core.EndFrame, h, hfr, hu, World.emit, hmod]
  · simp [Core.EndFrame, h, hfr, hu, World.emit, hwu, hwi, hmod]

/-- C3: let `w1` be the state right after the destructor of the pipeline wrapper `p` ran in a
state `w` where the handle of `p` was queued nowhere; the entry sits in the queue of the slot
current in `w`. (1) No run of operations from `w1` (frame calls, uploads, copies, destructors
of other objects) that contains no `BeginFrame` called while that slot is current destroys the
object. (2) The first `BeginFrame` called while that slot is current destroys it exactly once,
and no later run destroys it again. (3) Scenario with two slots: when the entry is queued in
slot 0 during an open frame, `EndFrame` and one full `BeginFrame`/`EndFrame` cycle leave it
undestroyed, the `BeginFrame` of the second cycle destroys it, and after the second cycle it
has been destroyed exactly once. -/
theorem deletion_deferred_until_slot_reclaimed (w w1 : World) (p : Pipeline)
    (hfresh : ∀ j, w.pendingCount j p.entry = 0)
    (hd : p.destroy w = some w1) :
    (∀ ops w2, run w1 ops = .ok w2 → noReclaim w.core.frameIndex w1 ops = true →
      (∀ op ∈ ops, op.enqueues p.entry = false) →
      w2.destroyCount p.entry = w.destroyCount p.entry) ∧
    (∀ ops w2 w3 ops' w4, run w1 ops = .ok w2 → noReclaim w.core.frameIndex w1 ops = true →
      (∀ op ∈ ops, op.enqueues p.entry = false) →
      w2.core.frameIndex = w.core.frameIndex → Core.BeginFrame w2 = .ok w3 →
      run w3 ops' = .ok w4 →
      (∀ op ∈ ops', op.enqueues p.entry = false) →
      w3.destroyCount p.entry = w.destroyCount p.entry + 1 ∧
      w4.destroyCount p.entry = w.destroyCount p.entry + 1) ∧
    (w.core.frameIndex = 0 → w.core.inFrame = true →
      ∃ w4 w5 w6, run w1 [Op.EndFrame, Op.BeginFrame, Op.EndFrame] = .ok w4 ∧
        w4.destroyCount p.entry = w.destroyCount p.entry ∧
        Core.BeginFrame w4 = .ok w5 ∧
        w5.destroyCount p.entry = w.destroyCount p.entry + 1 ∧
        Core.EndFrame w5 = .ok w6 ∧
        w6.destroyCount p.entry = w.destroyCount p.entry + 1) := by
  unfold Pipeline.entry at hfresh ⊢
  set x : DeletionEntry :=
    { handle := p.pipeline, kind := VkObjectType.VK_OBJECT_TYPE_PIPELINE } with hx
  obtain ⟨fr, hfr, hw1⟩ := Pipeline_destroy_inv p w w1 hd
  have hi := PerFrameArray.get?_eq_some_lt _ _ _ hfr
  -- the state right after the destructor
  have hq0 : w.pendingCount w.core.frameIndex x = 0 := hfresh _
  have hfrx : fr.DeletionQueue.entries.count x = 0 := by
    simpa [World.pendingCount, World.queueOf, hfr] using hq0
  have hdc1 : w1.destroyCount x = w.destroyCount x := by rw [hw1]; rfl
  have hidx1 : w1.core.frameIndex = w.core.frameIndex := by rw [hw1]
  have hin1 : w1.core.inFrame = w.core.inFrame := by rw [hw1]
  have hp1 : w1.pendingCount w.core.frameIndex x = 1 := by
    rw [hw1]
    simp [World.pendingCount, World.queueOf, PerFrameArray.get?_set_self _ _ _ hi, hfrx, hx]
  have hp1o : ∀ j, j ≠ w.core.frameIndex → w1.pendingCount j x = 0 := by
    intro j hj
    rw [← hfresh j, hw1]
    simp [World.pendingCount, World.queueOf, PerFrameArray.get?_set_other _ _ _ _ hj]
  have part1 : ∀ ops w2, run w1 ops = .ok w2 → noReclaim w.core.frameIndex w1 ops = true →
      (∀ op ∈ ops, op.enqueues x = false) →
      w2.destroyCount x = w.destroyCount x ∧ w2.pendingCount w.core.frameIndex x = 1 ∧
        ∀ j, j ≠ w.core.frameIndex → w2.pendingCount j x = 0 := by
    intro ops w2 hr hnr hne
    have := run_before_reclaim x w.core.frameIndex ops w1 w2 hr hnr hne hp1o
    rw [hdc1, hp1] at this
    exact this
  have part2 : ∀ ops w2 w3 ops' w4, run w1 ops = .ok w2 →
      noReclaim w.core.frameIndex w1 ops = true →
      (∀ op ∈ ops, op.enqueues x = false) →
      w2.core.frameIndex = w.core.frameIndex → Core.BeginFrame w2 = .ok w3 →
      run w3 ops' = .ok w4 → (∀ op ∈ ops', op.enqueues x = false) →
      w3.destroyCount x = w.destroyCount x + 1 ∧ w4.destroyCount x = w.destroyCount x + 1 := by
    intro ops w2 w3 ops' w4 hr hnr hne hidx hb hr' hne'
    obtain ⟨h2d, h2p, h2o⟩ := part1 ops w2 hr hnr hne
    have hs : step w2 Op.BeginFrame = .ok w3 := hb
    obtain ⟨h3d, h3p, h3o⟩ := (step_counts x w2 w3 Op.BeginFrame hs rfl).2 rfl
    rw [hidx] at h3d h3p h3o
    rw [h2d, h2p] at h3d
    have h30 : ∀ j, w3.pendingCount j x = 0 := by
      intro j
      by_cases hj : j = w.core.frameIndex
      · rw [hj]; exact h3p
      · rw [h3o j hj]; exact h2o j hj
    have h4 := run_after_reclaim x ops' w3 w4 hr' hne' h30
    exact ⟨h3d, by rw [h4.1, h3d]⟩
  refine ⟨fun ops w2 hr hnr hne => (part1 ops w2 hr hnr hne).1, part2, ?_⟩
  intro h0 hin
  rw [h0] at hidx1 part1 part2
  rw [hin] at hin1
  have hN : (0 : Nat) < numFramesInFlight := by decide
  have hN1 : (1 : Nat) < numFramesInFlight := by decide
  obtain ⟨w2, he1, hi2, hf2⟩ := EndFrame_ok w1 hin1 (by rw [hidx1]; exact hN)
  rw [hidx1] at hi2
  have hi2' : w2.core.frameIndex = 1 := by rw [hi2]; rfl
  obtain ⟨w3, hb2, hi3, hf3⟩ := BeginFrame_ok w2 hf2 (by rw [hi2']; exact hN1)
  rw [hi2'] at hi3
  obtain ⟨w4, he3, hi4, hf4⟩ := EndFrame_ok w3 hf3 (by rw [hi3]; exact hN1)
  rw [hi3] at hi4
  have hi4' : w4.core.frameIndex = 0 := by rw [hi4]; rfl
  obtain ⟨w5, hb4, hi5, hf5⟩ := BeginFrame_ok w4 hf4 (by rw [hi4']; exact hN)
  obtain ⟨w6, he5, _, _⟩ := EndFrame_ok w5 hf5 (by rw [hi5, hi4']; exact hN)
  have hrun : run w1 [Op.EndFrame, Op.BeginFrame, Op.EndFrame] = .ok w4 := by
    simp [run, step, he1, hb2, he3]
  have hnr : noReclaim 0 w1 [Op.EndFrame, Op.BeginFrame, Op.EndFrame] = true := by
    simp [noReclaim, step, he1, hb2, he3, hi2']
  have hne : ∀ op ∈ [Op.EndFrame, Op.BeginFrame, Op.EndFrame], op.enqueues x = false := by
    intro op hop
    simp at hop
    rcases hop with rfl | rfl | rfl <;> rfl
  have hrun' : run w5 [Op.EndFrame] = .ok w6 := by
    simp [run, step, he5]
  have hne' : ∀ op ∈ [Op.EndFrame], op.enqueues x = false := by
    intro op hop
    simp at hop
    subst hop
    rfl
  have h2 := part2 _ w4 w5 _ w6 hrun hnr hne hi4' hb4 hrun' hne'
  exact ⟨w4, w5, w6, hrun, (part1 _ w4 hrun hnr hne).1, hb4, h2.1, he5, h2.2⟩

/-! ## Frame index and frame contract -/

theorem BeginFrame_inFrame (w : World) (h : w.core.inFrame = true) :
    Core.BeginFrame w = .error .contractViolation := by
  simp [Core.BeginFrame, h]

theorem EndFrame_not_inFrame (w : World) (h : w.core.inFrame = false) :
    Core.EndFrame w = .error .contractViolation := by
  simp [Core.EndFrame, h]

theorem run_framePairs (k : Nat) : ∀ w : World, w.core.inFrame = false →
    w.core.frameIndex < numFramesInFlight →
    ∃ w', run w (framePairs k) = .ok w' ∧
      w'.core.frameIndex = (w.core.frameIndex + k) % numFramesInFlight ∧
      w'.core.inFrame = false := by
  induction k with
  | zero =>
    intro w hin hi
    refine ⟨w, rfl, ?_, hin⟩
    simp only [Nat.add_zero]
    exact (Nat.mod_eq_of_lt hi).symm
  | succ n ih =>
    intro w hin hi
    obtain ⟨w1, hb, hi1, hf1⟩ := BeginFrame_ok w hin hi
    obtain ⟨w2, he, hi2, hf2⟩ := EndFrame_ok w1 hf1 (by rw [hi1]; exact hi)
    have hlt : w2.core.frameIndex < numFramesInFlight := by
      rw [hi2]
      exact Nat.mod_lt _ (by decide)
    obtain ⟨w3, hr, hi3, hf3⟩ := ih w2 hf2 hlt
    refine ⟨w3, ?_, ?_, hf3⟩
    · simp [framePairs, run, step, hb, he, hr]
    · rw [hi3, hi2, hi1]
      unfold numFramesInFlight
      omega

/-- C4: from a freshly constructed core, `k` complete `BeginFrame`/`EndFrame` pairs succeed and
leave `GetFrameIndex() = k mod 2`, below `GetNumFramesInFlight() = 2`;
`GetNextFrameIndex() = (GetFrameIndex() + 1) mod 2` and
`GetPreviousFrameIndex() = (GetFrameIndex() + 2 - 1) mod 2`, where the getters compute on
`uint32_t`. The getters are functions of the `Core` alone and return no state, as their `const`
declarations say. -/
theorem frame_index_cycles (w : World) (hf : w.fresh) (k : Nat) :
    ∃ w', run w (framePairs k) = .ok w' ∧
      w'.core.GetFrameIndex = k % numFramesInFlight ∧
      w'.core.GetFrameIndex < w'.core.GetNumFramesInFlight ∧
      w'.core.GetNumFramesInFlight = 2 ∧
      w'.core.GetNextFrameIndex = (w'.core.GetFrameIndex + 1) % numFramesInFlight ∧
      w'.core.GetPreviousFrameIndex =
        (w'.core.GetFrameIndex + numFramesInFlight - 1) % numFramesInFlight := by
  obtain ⟨h0, hin, _⟩ := hf
  obtain ⟨w', hr, hi, _⟩ := run_framePairs k w hin (by rw [h0]; decide)
  rw [h0, Nat.zero_add] at hi
  have hlt : w'.core.frameIndex < 2 := by
    rw [hi]
    exact Nat.mod_lt _ (by decide)
  refine ⟨w', hr, hi, hlt, rfl, ?_, ?_⟩
  · simp only [Core.GetNextFrameIndex, Core.GetFrameIndex, UINT32_SIZE, numFramesInFlight]
    omega
  · simp only [Core.GetPreviousFrameIndex, Core.GetFrameIndex, UINT32_SIZE, numFramesInFlight]
    omega

theorem run_frame_calls (ops : List Op) : ∀ w : World,
    w.core.frameIndex < numFramesInFlight →
    (∀ op ∈ ops, op = Op.BeginFrame ∨ op = Op.EndFrame) →
    (alternating w.core.inFrame ops = false → run w ops = .error .contractViolation) ∧
    (alternating w.core.inFrame ops = true → ∃ w', run w ops = .ok w' ∧
      w'.core.frameIndex < numFramesInFlight ∧
      w'.core.inFrame.toNat + ops.count Op.EndFrame =
        w.core.inFrame.toNat + ops.count Op.BeginFrame) := by
  induction ops with
  | nil =>
    intro w hi _
    refine ⟨fun h => ?_, fun _ => ⟨w, rfl, hi, rfl⟩⟩
    cases hb : w.core.inFrame <;> simp [hb, alternating] at h
  | cons op rest ih =>
    intro w hi hops
    have hrest : ∀ op' ∈ rest, op' = Op.BeginFrame ∨ op' = Op.EndFrame :=
      fun op' hm => hops op' (List.mem_cons_of_mem _ hm)
    rcases hops op (List.mem_cons_self _ _) with rfl | rfl
    · cases hb : w.core.inFrame with
      | true =>
        refine ⟨fun _ => ?_, fun h => ?_⟩
        · simp [run, step, BeginFrame_inFrame w hb]
        · simp [alternating] at h
      | false =>
        obtain ⟨w1, hb1, hi1, hf1⟩ := BeginFrame_ok w hb hi
        have := ih w1 (by rw [hi1]; exact hi) hrest
        rw [hf1] at this
        refine ⟨fun h => ?_, fun h => ?_⟩
        · simp only [alternating] at h
          simp only [run, step, hb1]
          exact this.1 h
        · simp only [alternating] at h
          obtain ⟨w', hr, hlt, hc⟩ := this.2 h
          refine ⟨w', ?_, hlt, ?_⟩
          · simp only [run, step, hb1]
            exact hr
          · simp [List.count_cons] at hc ⊢
            omega
    · cases hb : w.core.inFrame with
      | false =>
        refine ⟨fun _ => ?_, fun h => ?_⟩
        · simp [run, step, EndFrame_not_inFrame w hb]
        · simp [alternating] at h
      | true =>
        obtain ⟨w1, he1, hi1, hf1⟩ := EndFrame_ok w hb hi
        have := ih w1 (by rw [hi1]; exact Nat.mod_lt _ (by decide)) hrest
        rw [hf1] at this
        refine ⟨fun h => ?_, fun h => ?_⟩
        · simp only [alternating] at h
          simp only [run, step, he1]
          exact this.1 h
        · simp only [alternating] at h
          obtain ⟨w', hr, hlt, hc⟩ := this.2 h
          refine ⟨w', ?_, hlt, ?_⟩
          · simp only [run, step, he1]
            exact hr
          · simp [List.count_cons] at hc ⊢
            omega

/-- C7: for every sequence of `BeginFrame` and `EndFrame` calls on a freshly constructed core: if
the calls do not alternate (an `EndFrame` with no frame open, or a `BeginFrame` with a frame
open), the run stops with a contract violation; if they alternate, the run succeeds, the
in-frame flag is set exactly when a `BeginFrame` is still unmatched, and in the resulting state
the call that would break the alternation is again answered by a contract violation. -/
theorem frame_contract_violations_detected (w : World) (ops : List Op) (hf : w.fresh)
    (hops : ∀ op ∈ ops, op = Op.BeginFrame ∨ op = Op.EndFrame) :
    (alternating false ops = false → run w ops = .error .contractViolation) ∧
    (alternating false ops = true → ∃ w', run w ops = .ok w' ∧
      w'.core.inFrame = unmatchedBegin ops ∧
      (w'.core.inFrame = true → Core.BeginFrame w' = .error .contractViolation) ∧
      (w'.core.inFrame = false → Core.EndFrame w' = .error .contractViolation)) := by
  obtain ⟨h0, hin, _⟩ := hf
  have := run_frame_calls ops w (by rw [h0]; decide) hops
  rw [hin] at this
  refine ⟨this.1, fun h => ?_⟩
  obtain ⟨w', hr, _, hc⟩ := this.2 h
  refine ⟨w', hr, ?_, BeginFrame_inFrame w', EndFrame_not_inFrame w'⟩
  unfold unmatchedBegin
  cases hb : w'.core.inFrame <;> simp [hb] at hc ⊢ <;> omega

/-! ## Upload staging -/

theorem sizesBefore_zero (reqs : List UploadRequest) : sizesBefore reqs 0 = 0 := by
  simp [sizesBefore]

theorem sizesBefore_cons_succ (r : UploadRequest) (rest : List UploadRequest) (j : Nat) :
    sizesBefore (r :: rest) (j + 1) = r.data.length + sizesBefore rest j := by
  simp [sizesBefore]

theorem sizesBefore_mono (reqs : List UploadRequest) : ∀ (j k : Nat), j < k → k < reqs.length →
    sizesBefore reqs j + (reqs.map (fun r => r.data.length)).getD j 0 ≤ sizesBefore reqs k := by
  induction reqs with
  | nil => intro j k _ hk; simp at hk
  | cons r rest ih =>
    intro j k hjk hk
    cases k with
    | zero => omega
    | succ k' =>
      cases j with
      | zero =>
        simp [sizesBefore]
      | succ j' =>
        rw [sizesBefore_cons_succ, sizesBefore_cons_succ]
        have := ih j' k' (by omega) (by simpa using hk)
        simp only [List.map_cons, List.getD_cons_succ]
        omega

theorem uploadsFrom_length (reqs : List UploadRequest) : ∀ start,
    (uploadsFrom start reqs).length = reqs.length := by
  induction reqs with
  | nil => intro; rfl
  | cons r rest ih => intro start; simp [uploadsFrom, ih]

theorem uploadsFrom_get (reqs : List UploadRequest) : ∀ (start j : Nat) (r : UploadRequest),
    reqs[j]? = some r →
    (uploadsFrom start reqs)[j]? = some
      { Buffer := r.buffer, StagingOffset := start + sizesBefore reqs j,
        DataSize := r.data.length, DataOffset := r.dataOffset } := by
  induction reqs with
  | nil => intro start j r h; simp at h
  | cons r0 rest ih =>
    intro start j r h
    cases j with
    | zero =>
      simp at h
      subst h
      simp [uploadsFrom, sizesBefore_zero]
    | succ j' =>
      simp at h
      have := ih (start + r0.data.length) j' r h
      simp [uploadsFrom, this, sizesBefore_cons_succ, Nat.add_assoc]

theorem staged_bytes (reqs : List UploadRequest) : ∀ (pre post : List Nat) (j : Nat)
    (r : UploadRequest), reqs[j]? = some r →
    ((pre ++ (reqs.map (fun q => q.data)).flatten ++ post).drop
      (pre.length + sizesBefore reqs j)).take r.data.length = r.data := by
  induction reqs with
  | nil => intro pre post j r h; simp at h
  | cons r0 rest ih =>
    intro pre post j r h
    cases j with
    | zero =>
      simp at h
      subst h
      simp [sizesBefore_zero, List.append_assoc]
    | succ j' =>
      simp at h
      have := ih (pre ++ r0.data) post j' r h
      rw [sizesBefore_cons_succ]
      simp only [List.map_cons, List.flatten_cons]
      simp only [List.length_append, List.append_assoc] at this ⊢
      rw [← Nat.add_assoc]
      exact this

theorem QueueBufferUpload_ok (b : Handle) (d : List Nat) (o : Nat) (w : World)
    (fr : PerFrameResources)
    (hfr : w.core.perFrameResources.get? w.core.frameIndex = some fr)
    (hcap : fr.StagingOffset + d.length ≤ fr.StagingMapped.length)
    (h64 : fr.StagingMapped.length < UINT64_SIZE) :
    ∃ w' fr', Core.QueueBufferUpload b d o w = .ok w' ∧
      w'.core.frameIndex = w.core.frameIndex ∧
      w'.core.perFrameResources.get? w.core.frameIndex = some fr' ∧
      fr'.BufferUploads = fr.BufferUploads ++
        [{ Buffer := b, StagingOffset := fr.StagingOffset, DataSize := d.length,
           DataOffset := o }] ∧
      fr'.StagingOffset = fr.StagingOffset + d.length ∧
      fr'.StagingMapped = fr.StagingMapped.take fr.StagingOffset ++ d ++
        fr.StagingMapped.drop (fr.StagingOffset + d.length) := by
  have hi := PerFrameArray.get?_eq_some_lt _ _ _ hfr
  have hnot : ¬ (fr.StagingOffset + d.length > fr.StagingMapped.length) := by omega
  have hmod : (fr.StagingOffset + d.length) % UINT64_SIZE = fr.StagingOffset + d.length :=
    Nat.mod_eq_of_lt (by omega)
  have hex : ∃ w', Core.QueueBufferUpload b d o w = .ok w' := by
    simp only [Core.QueueBufferUpload, hfr, hnot, if_false]
    exact ⟨_, rfl⟩
  obtain ⟨w', hw'⟩ := hex
  obtain ⟨fr0, hfr0, _, heq⟩ := QueueBufferUpload_inv b d o w w' hw'
  rw [hfr] at hfr0
  cases hfr0
  subst heq
  exact ⟨_, _, hw', rfl, PerFrameArray.get?_set_self _ _ _ hi, rfl, hmod, rfl⟩

theorem run_uploads (reqs : List UploadRequest) : ∀ (w : World) (fr : PerFrameResources),
    w.core.perFrameResources.get? w.core.frameIndex = some fr →
    fr.StagingOffset + sizesBefore reqs reqs.length ≤ fr.StagingMapped.length →
    fr.StagingMapped.length < UINT64_SIZE →
    ∃ w' fr', run w (reqs.map UploadRequest.op) = .ok w' ∧
      w'.core.frameIndex = w.core.frameIndex ∧
      w'.core.perFrameResources.get? w.core.frameIndex = some fr' ∧
      fr'.BufferUploads = fr.BufferUploads ++ uploadsFrom fr.StagingOffset reqs ∧
      fr'.StagingOffset = fr.StagingOffset + sizesBefore reqs reqs.length ∧
      fr'.StagingMapped = fr.StagingMapped.take fr.StagingOffset ++
        (reqs.map (fun q => q.data)).flatten ++
        fr.StagingMapped.drop (fr.StagingOffset + sizesBefore reqs reqs.length) := by
  induction reqs with
  | nil =>
    intro w fr hfr _ _
    refine ⟨w, fr, rfl, rfl, hfr, ?_, ?_, ?_⟩
    · simp [uploadsFrom]
    · simp [sizesBefore]
    · simp [sizesBefore]
  | cons r rest ih =>
    intro w fr hfr hcap h64
    rw [List.length_cons, sizesBefore_cons_succ] at hcap ⊢
    obtain ⟨w1, fr1, hq, hi1, hfr1, hbu1, ho1, hm1⟩ :=
      QueueBufferUpload_ok r.buffer r.data r.dataOffset w fr hfr (by omega) h64
    have hlen1 : fr1.StagingMapped.length = fr.StagingMapped.length := by
      rw [hm1]
      simp only [List.length_append, List.length_take, List.length_drop]
      omega
    rw [← hi1] at hfr1
    obtain ⟨w', fr', hr, hi', hfr', hbu', ho', hm'⟩ := ih w1 fr1 hfr1
      (by rw [ho1, hlen1]; omega) (by rw [hlen1]; exact h64)
    refine ⟨w', fr', ?_, ?_, ?_, ?_, ?_, ?_⟩
    · simp only [List.map_cons, run, UploadRequest.op, step]
      rw [hq]
      exact hr
    · rw [hi', hi1]
    · rw [← hi1]; exact hfr'
    · rw [hbu', hbu1, ho1]
      simp [uploadsFrom]
    · rw [ho', ho1]
      omega
    · rw [hm', ho1, hm1]
      have hpre : (fr.StagingMapped.take fr.StagingOffset ++ r.data).length =
          fr.StagingOffset + r.data.length := by
        simp only [List.length_append, List.length_take]
        omega
      rw [List.take_left' hpre]
      have hdrop : List.drop (fr.StagingOffset + r.data.length + sizesBefore rest rest.length)
          (fr.StagingMapped.take fr.StagingOffset ++ r.data ++
            fr.StagingMapped.drop (fr.StagingOffset + r.data.length)) =
          List.drop (fr.StagingOffset + (r.data.length + sizesBefore rest rest.length))
            fr.StagingMapped := by
        rw [← hpre, List.drop_append, List.drop_drop, hpre, Nat.add_assoc]
      rw [hdrop]
      simp [List.append_assoc]

/-- C5, as stated, fails: with a staging region of 4 bytes, an upload of 3 bytes followed by an
upload of 2 bytes is not satisfied, so there is no second pending upload and no staging offset
`3 + 2`. -/
theorem upload_beyond_capacity_not_staged :
    run (exampleWorld 4 none [])
      [Op.BeginFrame, Op.QueueBufferUpload 9 [1, 2, 3] 0, Op.QueueBufferUpload 8 [5, 6] 7] =
      .error .stagingExhausted := by
  rfl

/-- C5, amended: for uploads queued right after a `BeginFrame` whose sizes add up to at most the
capacity of the slot's staging region (itself below `2^64`): all calls succeed; the slot has
one pending upload per call; upload `j` records staging offset `s1 + ... + s(j-1)`, its data
size and the destination buffer and offset passed in; the staging offset ends at
`s1 + ... + sk`; the staged bytes of upload `j` are the bytes passed in; and the staged ranges
of two uploads do not overlap (an earlier one ends where or before a later one starts). -/
theorem uploads_are_bump_allocated (w0 w : World) (reqs : List UploadRequest)
    (fr : PerFrameResources)
    (hb : Core.BeginFrame w0 = .ok w)
    (hfr : w.core.perFrameResources.get? w.core.frameIndex = some fr)
    (hcap : sizesBefore reqs reqs.length ≤ fr.StagingMapped.length)
    (h64 : fr.StagingMapped.length < UINT64_SIZE) :
    ∃ w' fr', run w (reqs.map UploadRequest.op) = .ok w' ∧
      w'.core.perFrameResources.get? w'.core.frameIndex = some fr' ∧
      fr'.BufferUploads.length = reqs.length ∧
      fr'.StagingOffset = sizesBefore reqs reqs.length ∧
      (∀ j r, reqs[j]? = some r →
        fr'.BufferUploads[j]? = some
          { Buffer := r.buffer, StagingOffset := sizesBefore reqs j,
            DataSize := r.data.length, DataOffset := r.dataOffset } ∧
        (fr'.StagingMapped.drop (sizesBefore reqs j)).take r.data.length = r.data) ∧
      (∀ j k rj, j < k → k < reqs.length → reqs[j]? = some rj →
        sizesBefore reqs j + rj.data.length ≤ sizesBefore reqs k) := by
  obtain ⟨_, fr0, hfr0, hw⟩ := BeginFrame_inv w0 w hb
  have hi0 := PerFrameArray.get?_eq_some_lt _ _ _ hfr0
  have hidx : w.core.frameIndex = w0.core.frameIndex := by rw [hw]
  have hfr' : w.core.perFrameResources.get? w.core.frameIndex = some
      { fr0 with DeletionQueue := { entries := [] }, StagingOffset := 0,
                 BufferUploads := [], BufferToTextureCopies := [] } := by
    rw [hidx, hw]
    exact PerFrameArray.get?_set_self _ _ _ hi0
  rw [hfr] at hfr'
  have hfreq := Option.some.inj hfr'
  have hoff : fr.StagingOffset = 0 := by rw [hfreq]
  have hbu : fr.BufferUploads = [] := by rw [hfreq]
  obtain ⟨w', fr', hr, hi', hg', hbu', ho', hm'⟩ := run_uploads reqs w fr hfr
    (by rw [hoff]; omega) h64
  rw [hoff] at hbu' ho' hm'
  rw [hbu] at hbu'
  simp only [List.nil_append, Nat.zero_add, List.take_zero] at hbu' ho' hm'
  refine ⟨w', fr', hr, by rw [hi']; exact hg', ?_, ho', ?_, ?_⟩
  · rw [hbu', uploadsFrom_length]
  · intro j r hj
    refine ⟨?_, ?_⟩
    · rw [hbu']
      have := uploadsFrom_get reqs 0 j r hj
      simpa using this
    · rw [hm']
      have := staged_bytes reqs [] (fr.StagingMapped.drop (sizesBefore reqs reqs.length)) j r hj
      simpa using this
  · intro j k rj hjk hk hj
    have := sizesBefore_mono reqs j k hjk hk
    have hget : (reqs.map (fun r => r.data.length)).getD j 0 = rj.data.length := by
      simp [List.getD, hj]
    rw [hget] at this
    exact this

/-- Witness of amended C5: 3 bytes then 1 byte into a staging region of 4 bytes. -/
theorem uploads_are_bump_allocated_witness :
    ∃ w' fr', run (exampleOpenWorld 4)
        ([{ buffer := 9, data := [1, 2, 3], dataOffset := 0 },
          { buffer := 8, data := [5], dataOffset := 7 }].map UploadRequest.op) = .ok w' ∧
      w'.core.perFrameResources.get? w'.core.frameIndex = some fr' ∧
      fr'.BufferUploads.length = 2 ∧
      fr'.StagingOffset = 4 ∧
      fr'.StagingMapped = [1, 2, 3, 5] := by
  obtain ⟨w', fr', hr, hg, hl, ho, hj, _⟩ := uploads_are_bump_allocated
    (exampleWorld 4 none []) (exampleOpenWorld 4)
    [{ buffer := 9, data := [1, 2, 3], dataOffset := 0 },
     { buffer := 8, data := [5], dataOffset := 7 }]
    { exampleSlot 10 4 with } rfl rfl (by decide) (by decide)
  refine ⟨w', fr', hr, hg, hl, ho, ?_⟩
  have hr' : run (exampleOpenWorld 4)
      ([{ buffer := 9, data := [1, 2, 3], dataOffset := 0 },
        { buffer := 8, data := [5], dataOffset := 7 }].map UploadRequest.op) = .ok w' := hr
  have : w' = { exampleOpenWorld 4 with core := { (exampleOpenWorld 4).core with
      perFrameResources := { (exampleOpenWorld 4).core.perFrameResources with
        elem0 := { exampleSlot 10 4 with
          BufferUploads := [⟨9, 0, 3, 0⟩, ⟨8, 3, 1, 7⟩], StagingOffset := 4,
          StagingMapped := [1, 2, 3, 5] } } } } := by
    have h2 : run (exampleOpenWorld 4)
      ([{ buffer := 9, data := [1, 2, 3], dataOffset := 0 },
        { buffer := 8, data := [5], dataOffset := 7 }].map UploadRequest.op) = .ok
        { exampleOpenWorld 4 with core := { (exampleOpenWorld 4).core with
      perFrameResources := { (exampleOpenWorld 4).core.perFrameResources with
        elem0 := { exampleSlot 10 4 with
          BufferUploads := [⟨9, 0, 3, 0⟩, ⟨8, 3, 1, 7⟩], StagingOffset := 4,
          StagingMapped := [1, 2, 3, 5] } } } } := by rfl
    rw [h2] at hr'
    exact (Except.ok.inj hr').symm
  subst this
  have hg' := Option.some.inj hg
  rw [← hg']

/-! ## Recording the pending uploads -/

theorem filterMap_all_some {α β : Type} (l : List α) (f : α → Option β) (g : α → β)
    (h : ∀ x, f x = some (g x)) : l.filterMap f = l.map g := by
  induction l with
  | nil => rfl
  | cons a t ih => simp [List.filterMap_cons, h a, ih]

theorem filterMap_all_none {α β : Type} (l : List α) (f : α → Option β)
    (h : ∀ x, f x = none) : l.filterMap f = [] := by
  induction l with
  | nil => rfl
  | cons a t ih => simp [List.filterMap_cons, h a, ih]

/-- C6: for every slot `index` with contents `fr`, `writeFrameUploadCommands(index, cb)` appends
to the log exactly the copy commands of the pending buffer uploads, in list order, followed by
those of the pending buffer-to-texture copies, in list order: as many commands as pending
entries, and reading the commands back gives the two pending lists again (nothing dropped,
merged, duplicated or reordered). Afterwards both pending lists of the slot are empty and the
other slot is unchanged. -/
theorem writeFrameUploadCommands_records_pending (w : World) (index cb : Nat)
    (fr : PerFrameResources) (hfr : w.core.perFrameResources.get? index = some fr) :
    ∃ w' cmds fr', Core.writeFrameUploadCommands index cb w = some w' ∧
      w'.log = w.log ++ cmds ∧
      cmds = fr.BufferUploads.map (fun bu => Event.copyBuffer cb fr.StagingBuffer bu.Buffer
          bu.StagingOffset bu.DataOffset bu.DataSize) ++
        fr.BufferToTextureCopies.map (fun c => Event.copyBufferToTexture cb c.Buffer c.Texture
          c.BufferOffset c.numMips) ∧
      cmds.length = fr.BufferUploads.length + fr.BufferToTextureCopies.length ∧
      cmds.filterMap Event.asBufferUpload = fr.BufferUploads ∧
      cmds.filterMap Event.asBufferToTextureCopy = fr.BufferToTextureCopies ∧
      w'.core.perFrameResources.get? index = some fr' ∧
      fr'.BufferUploads = [] ∧ fr'.BufferToTextureCopies = [] ∧
      (∀ j, j ≠ index →
        w'.core.perFrameResources.get? j = w.core.perFrameResources.get? j) := by
  have hi := PerFrameArray.get?_eq_some_lt _ _ _ hfr
  cases hres : Core.writeFrameUploadCommands index cb w with
  | none => simp [Core.writeFrameUploadCommands, hfr] at hres
  | some w' =>
  simp only [Core.writeFrameUploadCommands, hfr, Option.some.injEq] at hres
  subst hres
  refine ⟨_, _, { fr with BufferUploads := [], BufferToTextureCopies := [] }, rfl, ?_, rfl,
    ?_, ?_, ?_, ?_, rfl, rfl, ?_⟩
  · simp [List.append_assoc]
  · simp
  · rw [List.filterMap_append, List.filterMap_map, List.filterMap_map,
      filterMap_all_some fr.BufferUploads _ id, filterMap_all_none fr.BufferToTextureCopies]
    · simp
    · intro x; rfl
    · intro x; rfl
  · rw [List.filterMap_append, List.filterMap_map, List.filterMap_map,
      filterMap_all_none fr.BufferUploads, filterMap_all_some fr.BufferToTextureCopies _ id]
    · simp
    · intro x; rfl
    · intro x; rfl
  · exact PerFrameArray.get?_set_self _ _ _ hi
  · intro j hj
    exact PerFrameArray.get?_set_other _ _ _ _ hj

/-! ## `VKCHECK`, device creation and the render pass cache -/

theorem World.call_eq (e : Event) (w : World) :
    World.call e w = (w.driver.headD (0, VK_NULL_HANDLE),
      { w with log := w.log ++ [e], driver := w.driver.tail }) := by
  unfold World.call World.answer World.emit
  cases hd : w.driver with
  | nil => simp [hd]
  | cons a rest => simp [hd]

/-- What `VKCHECK` around a driver call does: one call when the driver answers 0; otherwise the
call is made twice and `onFailedVkCheck` receives the code of the second call. -/
theorem VKCHECK_call_eq (e : Event) (file : String) (line : Nat) (w : World) :
    VKCHECK (World.call e) file line w =
      if (w.driver.headD (0, VK_NULL_HANDLE)).1 = 0 then
        ((w.driver.headD (0, VK_NULL_HANDLE)).2,
          { w with log := w.log ++ [e], driver := w.driver.tail })
      else
        ((w.driver.tail.headD (0, VK_NULL_HANDLE)).2,
          { w with
            log := w.log ++ [e, e,
              Event.onFailedVkCheck (w.driver.tail.headD (0, VK_NULL_HANDLE)).1 file line],
            driver := w.driver.tail.tail }) := by
  unfold VKCHECK
  simp only [World.call_eq, onFailedVkCheck, World.emit]
  by_cases h : (w.driver.headD (0, VK_NULL_HANDLE)).1 = 0
  · simp [h]
  · simp [h]

theorem VKCHECK_enumerate_eq (device : Handle) (withArray : Bool) (file : String) (line : Nat)
    (w : World) :
    ∃ evs drv, VKCHECK (vkEnumerateDeviceExtensionProperties device withArray) file line w =
      (w.deviceExtensions, { w with log := w.log ++ evs, driver := drv }) ∧
      getPassCalls evs = [] := by
  unfold VKCHECK vkEnumerateDeviceExtensionProperties
  simp only [World.call_eq, onFailedVkCheck, World.emit]
  by_cases h : (w.driver.headD (0, VK_NULL_HANDLE)).1 = 0
  · refine ⟨[Event.vkEnumerateDeviceExtensionProperties device withArray], w.driver.tail,
      ?_, rfl⟩
    simp
    simpa using h
  · refine ⟨[Event.vkEnumerateDeviceExtensionProperties device withArray,
      Event.vkEnumerateDeviceExtensionProperties device withArray,
      Event.onFailedVkCheck (w.driver.tail.headD (0, VK_NULL_HANDLE)).1 file line],
      w.driver.tail.tail, ?_, rfl⟩
    simp
    simpa using h

theorem foldr_strcmp (l : List String) (x : String) :
    l.foldr (fun name found => if name = x then true else found) false = decide (x ∈ l) := by
  induction l with
  | nil => simp
  | cons a t ih =>
    simp only [List.foldr_cons, ih, List.mem_cons]
    by_cases h : a = x
    · simp [h]
    · have h' : ¬ x = a := fun hc => h hc.symm
      simp [h, h']

theorem checkExtensionSupport_eq (device : Handle) (extension : String) (w : World) :
    ∃ evs drv, Core.checkExtensionSupport device extension w =
      (decide (extension ∈ w.deviceExtensions),
        { w with log := w.log ++ evs, driver := drv }) ∧ getPassCalls evs = [] := by
  obtain ⟨e1, d1, h1, g1⟩ := VKCHECK_enumerate_eq device false FILE_VKCoreInitialization 195 w
  obtain ⟨e2, d2, h2, g2⟩ := VKCHECK_enumerate_eq device (w.deviceExtensions.length != 0)
    FILE_VKCoreInitialization 198 { w with log := w.log ++ e1, driver := d1 }
  refine ⟨e1 ++ e2, d2, ?_, ?_⟩
  · unfold Core.checkExtensionSupport
    simp only [h1, h2, List.take_length, foldr_strcmp, List.append_assoc]
  · simp [getPassCalls, List.filterMap_append] at g1 g2 ⊢
    exact ⟨g1, g2⟩

theorem checkRaytracingSupport_eq (device : Handle) (w : World) :
    ∃ b evs drv, Core.checkRaytracingSupport device w =
      (b, { w with log := w.log ++ evs, driver := drv }) ∧ getPassCalls evs = [] := by
  obtain ⟨e1, d1, h1, g1⟩ := checkExtensionSupport_eq device "VK_KHR_ray_query" w
  obtain ⟨e2, d2, h2, g2⟩ := checkExtensionSupport_eq device "VK_KHR_acceleration_structure"
    { w with log := w.log ++ e1, driver := d1 }
  dsimp only at h2
  unfold Core.checkRaytracingSupport
  by_cases hrq : "VK_KHR_ray_query" ∈ w.deviceExtensions
  · refine ⟨decide ("VK_KHR_acceleration_structure" ∈ w.deviceExtensions), e1 ++ e2, d2, ?_, ?_⟩
    · simp only [h1, hrq, decide_True, if_true, h2, List.append_assoc]
    · simp [getPassCalls, List.filterMap_append] at g1 g2 ⊢
      exact ⟨g1, g2⟩
  · refine ⟨false, e1, d1, ?_, g1⟩
    simp [h1, hrq]

theorem selectCache_eq (w : World) :
    ∃ sf evs drv, sf.DynamicRendering = decide ("VK_KHR_dynamic_rendering" ∈ w.deviceExtensions) ∧
      getPassCalls evs = [] ∧
      Core.createDevice.selectCache w =
        { w with
          core := { w.core with supportedFeatures := sf },
          g_renderPassCache :=
            if "VK_KHR_dynamic_rendering" ∈ w.deviceExtensions then none
            else some { passes := [] },
          log := w.log ++ evs, driver := drv } := by
  obtain ⟨brt, e1, d1, h1, g1⟩ := checkRaytracingSupport_eq w.core.handles.PhysicalDevice w
  obtain ⟨e2, d2, h2, g2⟩ := checkExtensionSupport_eq w.core.handles.PhysicalDevice
    "VK_KHR_fragment_shading_rate" { w with log := w.log ++ e1, driver := d1 }
  obtain ⟨e3, d3, h3, g3⟩ := checkExtensionSupport_eq w.core.handles.PhysicalDevice
    "VK_KHR_dynamic_rendering" { w with log := w.log ++ e1 ++ e2, driver := d2 }
  dsimp only at h2 h3
  unfold Core.createDevice.selectCache
  simp only [h1, h2, h3]
  simp only [getPassCalls] at g1 g2 g3
  by_cases hdr : "VK_KHR_dynamic_rendering" ∈ w.deviceExtensions
  · refine ⟨⟨brt, decide ("VK_KHR_fragment_shading_rate" ∈ w.deviceExtensions), true⟩,
      e1 ++ e2 ++ e3, d3, by simp [hdr], ?_, ?_⟩
    · simp [getPassCalls, List.filterMap_append, g1, g2, g3]
    · simp [hdr, List.append_assoc]
  · refine ⟨⟨brt, decide ("VK_KHR_fragment_shading_rate" ∈ w.deviceExtensions), false⟩,
      e1 ++ e2 ++ e3 ++ [Event.newRenderPassCache], d3, by simp [hdr], ?_, ?_⟩
    · simp [getPassCalls, List.filterMap_append, g1, g2, g3]
    · simp [hdr, List.append_assoc, World.emit]

theorem create_frame (dci : VkDeviceCreateInfo) (w : World) :
    (Core.createDevice.create dci w).g_renderPassCache = w.g_renderPassCache ∧
    (Core.createDevice.create dci w).core.supportedFeatures = w.core.supportedFeatures ∧
    ∃ evs, (Core.createDevice.create dci w).log = w.log ++ evs ∧ getPassCalls evs = [] := by
  unfold Core.createDevice.create
  simp only [VKCHECK_call_eq, World.call_eq, World.emit]
  split_ifs
  all_goals
    refine ⟨rfl, rfl, ?_⟩
    simp only [List.append_assoc, List.cons_append, List.nil_append]
    exact ⟨_, rfl, rfl⟩

/-- The render pass cache `createDevice` leaves, and the feature flag it is chosen by. -/
theorem createDevice_cache (target : TargetOS) (deviceExts : Option (List String)) (w : World) :
    (Core.createDevice target deviceExts w).g_renderPassCache =
        (if "VK_KHR_dynamic_rendering" ∈ w.deviceExtensions then none
         else some { passes := [] }) ∧
      (Core.createDevice target deviceExts w).core.supportedFeatures.DynamicRendering =
        decide ("VK_KHR_dynamic_rendering" ∈ w.deviceExtensions) ∧
      ∃ evs, (Core.createDevice target deviceExts w).log = w.log ++ evs ∧
        getPassCalls evs = [] := by
  obtain ⟨sf, evs, drv, hsf, hg, hsel⟩ := selectCache_eq w
  unfold Core.createDevice
  obtain ⟨hc, hf, evs2, hl, hg2⟩ := create_frame
    (Core.createDevice.dci target (Core.createDevice.selectCache w).core.supportedFeatures
      deviceExts (Core.createDevice.selectCache w).core.handles.Queues)
    (Core.createDevice.selectCache w)
  refine ⟨?_, ?_, evs ++ evs2, ?_, ?_⟩
  · rw [hc, hsel]
  · rw [hf, hsel]
    exact hsf
  · rw [hl, hsel]
    simp [List.append_assoc]
  · simp [getPassCalls, List.filterMap_append] at hg hg2 ⊢
    exact ⟨hg, hg2⟩

/-! ## `Build` and the render pass cache -/

theorem find?_key_none (passes : List (RenderPassKey × Handle)) (key : RenderPassKey) :
    passes.find? (fun entry => decide (entry.1 = key)) = none ↔
      key ∉ passes.map Prod.fst := by
  simp only [List.find?_eq_none, decide_eq_true_eq, List.mem_map, not_exists, not_and]

theorem GetPass_hit (c : RenderPassCache) (key : RenderPassKey) (w : World)
    (h : key ∈ c.passes.map Prod.fst) :
    ∃ handle, c.GetPass key w = (handle, { w with log := w.log ++ [Event.GetPass key] }) := by
  unfold RenderPassCache.GetPass
  cases hf : c.passes.find? (fun entry => decide (entry.1 = key)) with
  | none => exact absurd h ((find?_key_none _ _).1 hf)
  | some entry => exact ⟨entry.2, rfl⟩

theorem GetPass_miss (c : RenderPassCache) (key : RenderPassKey) (w : World)
    (h : key ∉ c.passes.map Prod.fst) :
    ∃ handle, c.GetPass key w = (handle, { w with
      log := w.log ++ [Event.GetPass key, Event.compilePass key],
      driver := w.driver.tail,
      g_renderPassCache := some { passes := c.passes ++ [(key, handle)] } }) := by
  unfold RenderPassCache.GetPass
  rw [(find?_key_none _ _).2 h]
  simp only [World.call_eq, World.emit]
  exact ⟨(w.driver.headD (0, VK_NULL_HANDLE)).2, by simp⟩

theorem createdPipelines_replicate (device : Handle) (pci : VkGraphicsPipelineCreateInfo)
    (n : Nat) :
    createdPipelines (List.replicate n (Event.vkCreateGraphicsPipelines device pci)) =
      List.replicate n pci := by
  induction n with
  | zero => rfl
  | succ k ih =>
    simp only [List.replicate_succ, createdPipelines, List.filterMap_cons] at ih ⊢
    rw [ih]

/-- The checked creation call of `Build`: one or two `vkCreateGraphicsPipelines` calls with the
same create info, and nothing that concerns the render pass cache. -/
theorem VKCHECK_create_log (device : Handle) (pci : VkGraphicsPipelineCreateInfo) (w : World) :
    ∃ n evs, 0 < n ∧
      (VKCHECK (World.call (Event.vkCreateGraphicsPipelines device pci)) FILE_VKPipeline 419
        w).2.log = w.log ++ evs ∧
      getPassCalls evs = [] ∧ compiledKeys evs = [] ∧
      createdPipelines evs = List.replicate n pci ∧
      (VKCHECK (World.call (Event.vkCreateGraphicsPipelines device pci)) FILE_VKPipeline 419
        w).2.g_renderPassCache = w.g_renderPassCache := by
  rw [VKCHECK_call_eq]
  split_ifs
  · exact ⟨1, _, by decide, rfl, rfl, rfl, rfl, rfl⟩
  · exact ⟨2, _, by decide, rfl, rfl, rfl, rfl, rfl⟩

theorem Build_none (b : PipelineBuilder) (w : World) (h : w.g_renderPassCache = none) :
    ∃ n evs, 0 < n ∧ (b.Build w).2.log = w.log ++ evs ∧
      getPassCalls evs = [] ∧ compiledKeys evs = [] ∧
      createdPipelines evs = List.replicate n
        { PipelineBuilder.Build.pci b with pNext := PNextPointer.ended } ∧
      (b.Build w).2.g_renderPassCache = none := by
  unfold PipelineBuilder.Build
  simp only [h, PNextPointer.leaveScope]
  obtain ⟨n, evs, hn, hl, hg, hk, hc, hcache⟩ := VKCHECK_create_log w.core.handles.Device
    { PipelineBuilder.Build.pci b with pNext := PNextPointer.ended } w
  exact ⟨n, evs, hn, hl, hg, hk, hc, by rw [hcache, h]⟩

theorem Build_some (b : PipelineBuilder) (w : World) (c : RenderPassCache)
    (h : w.g_renderPassCache = some c) :
    ∃ n evs c', 0 < n ∧ (b.Build w).2.log = w.log ++ evs ∧
      getPassCalls evs = [b.rpKey] ∧
      compiledKeys evs = (if b.rpKey ∈ c.passes.map Prod.fst then [] else [b.rpKey]) ∧
      createdPipelines evs = List.replicate n
        { PipelineBuilder.Build.pci b with renderPass := (c.GetPass b.rpKey w).1 } ∧
      (b.Build w).2.g_renderPassCache = some c' ∧
      c'.passes.map Prod.fst = c.passes.map Prod.fst ++
        (if b.rpKey ∈ c.passes.map Prod.fst then [] else [b.rpKey]) := by
  unfold PipelineBuilder.Build
  simp only [h]
  by_cases hk : b.rpKey ∈ c.passes.map Prod.fst
  · obtain ⟨handle, hg⟩ := GetPass_hit c b.rpKey w hk
    rw [hg]
    obtain ⟨n, evs, hn, hl, hgp, hck, hc, hcache⟩ := VKCHECK_create_log w.core.handles.Device
      { PipelineBuilder.Build.pci b with renderPass := handle }
      { w with log := w.log ++ [Event.GetPass b.rpKey] }
    refine ⟨n, Event.GetPass b.rpKey :: evs, c, hn, ?_, ?_, ?_, ?_, ?_, ?_⟩
    · rw [hl]; simp
    · simp only [getPassCalls, List.filterMap_cons] at hgp ⊢
      rw [hgp]
    · simp only [compiledKeys, List.filterMap_cons] at hck ⊢
      rw [hck, if_pos hk]
    · simp only [createdPipelines, List.filterMap_cons] at hc ⊢
      exact hc
    · rw [hcache]; exact h
    · rw [if_pos hk]; simp
  · obtain ⟨handle, hg⟩ := GetPass_miss c b.rpKey w hk
    rw [hg]
    obtain ⟨n, evs, hn, hl, hgp, hck, hc, hcache⟩ := VKCHECK_create_log w.core.handles.Device
      { PipelineBuilder.Build.pci b with renderPass := handle }
      { w with log := w.log ++ [Event.GetPass b.rpKey, Event.compilePass b.rpKey],
               driver := w.driver.tail,
               g_renderPassCache := some { passes := c.passes ++ [(b.rpKey, handle)] } }
    refine ⟨n, Event.GetPass b.rpKey :: Event.compilePass b.rpKey :: evs,
      { passes := c.passes ++ [(b.rpKey, handle)] }, hn, ?_, ?_, ?_, ?_, ?_, ?_⟩
    · rw [hl]; simp
    · simp only [getPassCalls, List.filterMap_cons] at hgp ⊢
      rw [hgp]
    · simp only [compiledKeys, List.filterMap_cons] at hck ⊢
      rw [hck, if_neg hk]
    · simp only [createdPipelines, List.filterMap_cons] at hc ⊢
      exact hc
    · rw [hcache]
    · rw [if_neg hk]; simp

theorem buildAll_none (bs : List PipelineBuilder) : ∀ w : World, w.g_renderPassCache = none →
    (buildAll bs w).g_renderPassCache = none ∧
    getPassCalls (buildAll bs w).log = getPassCalls w.log := by
  induction bs with
  | nil => intro w h; exact ⟨h, rfl⟩
  | cons b rest ih =>
    intro w h
    obtain ⟨n, evs, _, hl, hg, _, _, hc⟩ := Build_none b w h
    obtain ⟨h1, h2⟩ := ih (b.Build w).2 hc
    refine ⟨h1, ?_⟩
    simp only [buildAll]
    rw [h2, hl]
    simp only [getPassCalls, List.filterMap_append] at hg ⊢
    rw [hg, List.append_nil]

theorem buildAll_some (bs : List PipelineBuilder) : ∀ (w : World) (c : RenderPassCache),
    w.g_renderPassCache = some c →
    getPassCalls (buildAll bs w).log = getPassCalls w.log ++ bs.map PipelineBuilder.rpKey ∧
    ∃ compiled c', compiledKeys (buildAll bs w).log = compiledKeys w.log ++ compiled ∧
      (buildAll bs w).g_renderPassCache = some c' ∧
      c'.passes.map Prod.fst = c.passes.map Prod.fst ++ compiled ∧
      compiled.Nodup ∧
      ∀ k, k ∈ compiled ↔ (k ∈ bs.map PipelineBuilder.rpKey ∧ k ∉ c.passes.map Prod.fst) := by
  induction bs with
  | nil =>
    intro w c h
    exact ⟨by simp [buildAll], [], c, by simp [buildAll], h, by simp, List.nodup_nil, by simp⟩
  | cons b rest ih =>
    intro w c h
    obtain ⟨n, evs, c1, _, hl, hg, hk, _, hc, hkeys⟩ := Build_some b w c h
    obtain ⟨h1, compiled, c', h2, h3, h4, h5, h6⟩ := ih (b.Build w).2 c1 hc
    refine ⟨?_, (if b.rpKey ∈ c.passes.map Prod.fst then [] else [b.rpKey]) ++ compiled, c',
      ?_, ?_, ?_, ?_, ?_⟩
    · simp only [buildAll]
      rw [h1, hl]
      simp only [getPassCalls, List.filterMap_append] at hg ⊢
      rw [hg]
      simp
    · simp only [buildAll]
      rw [h2, hl]
      simp only [compiledKeys, List.filterMap_append] at hk ⊢
      rw [hk]
      simp
    · simpa [buildAll] using h3
    · rw [h4, hkeys, List.append_assoc]
    · by_cases hin : b.rpKey ∈ c.passes.map Prod.fst
      · simpa [hin] using h5
      · simp only [hin, if_false, List.singleton_append, List.nodup_cons]
        refine ⟨?_, h5⟩
        intro hmem
        have := ((h6 b.rpKey).1 hmem).2
        rw [hkeys] at this
        simp [hin] at this
    · intro k
      rw [List.mem_append, h6 k, hkeys]
      by_cases hin : b.rpKey ∈ c.passes.map Prod.fst
      · simp only [hin, if_true, List.not_mem_nil, false_or, List.append_nil, List.map_cons,
          List.mem_cons]
        constructor
        · rintro ⟨hr, hn⟩
          exact ⟨Or.inr hr, hn⟩
        · rintro ⟨hr | hr, hn⟩
          · subst hr
            exact absurd hin hn
          · exact ⟨hr, hn⟩
      · simp only [hin, if_false, List.mem_singleton, List.map_cons, List.mem_cons,
          List.mem_append, not_or, List.not_mem_nil, or_false]
        constructor
        · rintro (hr | ⟨hr, hn, _⟩)
          · subst hr
            exact ⟨Or.inl rfl, hin⟩
          · exact ⟨Or.inr hr, hn⟩
        · rintro ⟨hr | hr, hn⟩
          · exact Or.inl hr
          · by_cases hkb : k = b.rpKey
            · exact Or.inl hkb
            · exact Or.inr ⟨hr, hn, hkb⟩

/-- C8, the code at a failing input: in `selectPhysicalDevice`, when the driver answers the first
`vkEnumeratePhysicalDevices` call with -3 and the next with 0 and device 7, the call is made
twice and `onFailedVkCheck` receives 0, the code of the second execution, not the -3 that
made the check fail. -/
theorem VKCHECK_failed_call_is_evaluated_twice :
    (Core.selectPhysicalDevice (exampleWorld 4 none [(-3, 0), (0, 7)])).log =
      [Event.vkEnumeratePhysicalDevices 1, Event.vkEnumeratePhysicalDevices 1,
       Event.onFailedVkCheck 0 FILE_VKCoreInitialization 113] ∧
    (Core.selectPhysicalDevice (exampleWorld 4 none [(-3, 0), (0, 7)])).core.handles.PhysicalDevice
      = 7 := by
  constructor <;> rfl

/-- The render pass cache and `Build`: after `createDevice` the cache exists exactly when the
device does not list `VK_KHR_dynamic_rendering` (the `DynamicRendering` flag is set exactly when
it does). Every `Build` makes at least one creation call; it calls `GetPass`, once and with the
builder's key, exactly when the cache exists; without a cache every creation call carries a
null render pass and, as `pNext`, the address of the `renderingCI` whose block has been left;
with a cache it carries the handle `GetPass` returned and a null `pNext`. Hence after
`createDevice` on a device with dynamic rendering no sequence of `Build` calls ever calls
`GetPass`, and otherwise each `Build` calls it. -/
theorem render_pass_cache_only_without_dynamic_rendering (target : TargetOS)
    (deviceExts : Option (List String)) (w : World) :
    ((Core.createDevice target deviceExts w).g_renderPassCache.isSome = true ↔
      "VK_KHR_dynamic_rendering" ∉ w.deviceExtensions) ∧
    ((Core.createDevice target deviceExts w).core.supportedFeatures.DynamicRendering = true ↔
      "VK_KHR_dynamic_rendering" ∈ w.deviceExtensions) ∧
    (∀ (b : PipelineBuilder) (v : World), ∃ evs, (b.Build v).2.log = v.log ++ evs ∧
      getPassCalls evs = (if v.g_renderPassCache.isSome then [b.rpKey] else []) ∧
      createdPipelines evs ≠ [] ∧
      (v.g_renderPassCache = none → ∀ pci ∈ createdPipelines evs,
        pci.renderPass = VK_NULL_HANDLE ∧ pci.pNext = PNextPointer.ended) ∧
      (∀ c, v.g_renderPassCache = some c → ∀ pci ∈ createdPipelines evs,
        pci.renderPass = (c.GetPass b.rpKey v).1 ∧ pci.pNext = PNextPointer.null)) ∧
    (∀ bs : List PipelineBuilder,
      getPassCalls (buildAll bs (Core.createDevice target deviceExts w)).log =
        getPassCalls w.log ++
          (if "VK_KHR_dynamic_rendering" ∈ w.deviceExtensions then []
           else bs.map PipelineBuilder.rpKey)) := by
  obtain ⟨hcache, hflag, evs0, hlog0, hg0⟩ := createDevice_cache target deviceExts w
  refine ⟨?_, ?_, ?_, ?_⟩
  · rw [hcache]
    by_cases h : "VK_KHR_dynamic_rendering" ∈ w.deviceExtensions <;> simp [h]
  · rw [hflag]
    simp
  · intro b v
    cases hv : v.g_renderPassCache with
    | none =>
      obtain ⟨n, evs, hn, hl, hg, _, hc, _⟩ := Build_none b v hv
      refine ⟨evs, hl, by simpa using hg, ?_, ?_, ?_⟩
      · rw [hc]
        intro hnil
        have := congrArg List.length hnil
        simp at this
        omega
      · intro _ pci hp
        rw [hc] at hp
        rw [List.eq_of_mem_replicate hp]
        exact ⟨rfl, rfl⟩
      · intro c hcontra
        cases hcontra
    | some c =>
      obtain ⟨n, evs, _, hn, hl, hg, _, hc, _, _⟩ := Build_some b v c hv
      refine ⟨evs, hl, by simpa using hg, ?_, ?_, ?_⟩
      · rw [hc]
        intro hnil
        have := congrArg List.length hnil
        simp at this
        omega
      · intro hcontra
        cases hcontra
      · intro c' hc' pci hp
        cases hc'
        rw [hc] at hp
        rw [List.eq_of_mem_replicate hp]
        exact ⟨rfl, rfl⟩
  · intro bs
    have hgd : getPassCalls (Core.createDevice target deviceExts w).log = getPassCalls w.log := by
      rw [hlog0]
      simp only [getPassCalls, List.filterMap_append] at hg0 ⊢
      rw [hg0, List.append_nil]
    by_cases h : "VK_KHR_dynamic_rendering" ∈ w.deviceExtensions
    · rw [if_pos h] at hcache
      rw [(buildAll_none bs _ hcache).2, hgd]
      simp [h]
    · rw [if_neg h] at hcache
      rw [(buildAll_some bs _ _ hcache).1, hgd]
      simp [h]

/-- C9, the defect: on a device that lists `VK_KHR_dynamic_rendering`, `createDevice` leaves no
render pass cache, and `Build` then calls the driver, without a `GetPass` call and with a null
render pass, with a `pNext` that is the address of `renderingCI`, a local of the `if` block that
has been left before the creation call: the pointer is neither null nor the address of a live
rendering info holding the builder's values, so no rendering-info structure is chained. -/
theorem rendering_info_out_of_scope_at_creation :
    (Core.createDevice .other none (exampleWorld 4 none [])).g_renderPassCache = none ∧
    getPassCalls (exampleBuilder.Build
      (Core.createDevice .other none (exampleWorld 4 none []))).2.log = [] ∧
    (createdPipelines (exampleBuilder.Build
      (Core.createDevice .other none (exampleWorld 4 none []))).2.log).map
        (fun p => (p.renderPass, p.pNext)) = [(VK_NULL_HANDLE, PNextPointer.ended)] ∧
    (createdPipelines (exampleBuilder.Build
      (Core.createDevice .other none (exampleWorld 4 none []))).2.log).map
        (fun p => p.pNext) ≠
      [PNextPointer.live (PipelineBuilder.Build.renderingCI exampleBuilder)] := by
  decide

/-- C10, as stated, fails: building the same builder twice with a render pass cache calls
`GetPass` twice with the same key, not once. -/
theorem getPass_called_again_for_equal_key :
    getPassCalls (buildAll [exampleBuilder, exampleBuilder]
      (exampleWorld 4 (some { passes := [] }) [])).log =
      [exampleBuilder.rpKey, exampleBuilder.rpKey] := by
  rfl

/-- C10, amended: with a render pass cache, a sequence of `Build` calls calls `GetPass` exactly
once per `Build`, in order, with that build's key (equal keys included); what happens once per
distinct key is the compilation: the passes compiled during the sequence have pairwise
distinct keys, and a key is compiled exactly when it occurs in the sequence and was not in the
cache before. -/
theorem getPass_once_per_build (w : World) (c : RenderPassCache) (bs : List PipelineBuilder)
    (h : w.g_renderPassCache = some c) :
    getPassCalls (buildAll bs w).log = getPassCalls w.log ++ bs.map PipelineBuilder.rpKey ∧
    ∃ compiled, compiledKeys (buildAll bs w).log = compiledKeys w.log ++ compiled ∧
      compiled.Nodup ∧
      ∀ k, k ∈ compiled ↔ (k ∈ bs.map PipelineBuilder.rpKey ∧ k ∉ c.passes.map Prod.fst) := by
  obtain ⟨h1, compiled, _, h2, _, _, h5, h6⟩ := buildAll_some bs w c h
  exact ⟨h1, compiled, h2, h5, h6⟩

/-- Witness of amended C10: the same builder built twice on an empty cache. -/
theorem getPass_once_per_build_witness :
    getPassCalls (buildAll [exampleBuilder, exampleBuilder]
        (exampleWorld 4 (some { passes := [] }) [])).log =
      getPassCalls (exampleWorld 4 (some { passes := [] }) []).log ++
        [exampleBuilder, exampleBuilder].map PipelineBuilder.rpKey ∧
    ∃ compiled, compiledKeys (buildAll [exampleBuilder, exampleBuilder]
        (exampleWorld 4 (some { passes := [] }) [])).log =
        compiledKeys (exampleWorld 4 (some { passes := [] }) []).log ++ compiled ∧
      compiled.Nodup ∧
      ∀ k, k ∈ compiled ↔ (k ∈ [exampleBuilder, exampleBuilder].map PipelineBuilder.rpKey ∧
        k ∉ (RenderPassCache.mk []).passes.map Prod.fst) :=
  getPass_once_per_build (exampleWorld 4 (some { passes := [] }) []) { passes := [] }
    [exampleBuilder, exampleBuilder] rfl

/-! ## Evaluations on concrete states -/

theorem exampleWorld_fresh (cap : Nat) (cache : Option RenderPassCache)
    (script : List (Int × Handle)) : (exampleWorld cap cache script).fresh := by
  refine ⟨rfl, rfl, ?_⟩
  intro i fr h
  unfold PerFrameArray.get? at h
  by_cases h0 : i = 0
  · simp only [h0, if_true, Option.some.injEq] at h
    subst h
    exact ⟨rfl, rfl, rfl, rfl⟩
  · by_cases h1 : i = 1
    · simp only [h1, if_true, Nat.succ_ne_zero, if_false] at h
      have h' := Option.some.inj h
      subst h'
      exact ⟨rfl, rfl, rfl, rfl⟩
    · simp [h0, h1] at h

theorem exampleOpenWorld_nothing_pending (cap j : Nat) (x : DeletionEntry) :
    (exampleOpenWorld cap).pendingCount j x = 0 := by
  unfold World.pendingCount World.queueOf PerFrameArray.get?
  by_cases h0 : j = 0
  · subst h0
    rfl
  · by_cases h1 : j = 1
    · subst h1
      rfl
    · simp [h0, h1]

/-- Witness of C3: the scenario on the example world, handle 77 queued in slot 0. -/
theorem deletion_deferred_until_slot_reclaimed_witness :
    ∃ w4 w5 w6, run examplePendingWorld [Op.EndFrame, Op.BeginFrame, Op.EndFrame] = .ok w4 ∧
      w4.destroyCount (Pipeline.mk 77).entry = 0 ∧
      Core.BeginFrame w4 = .ok w5 ∧
      w5.destroyCount (Pipeline.mk 77).entry = 1 ∧
      Core.EndFrame w5 = .ok w6 ∧
      w6.destroyCount (Pipeline.mk 77).entry = 1 :=
  (deletion_deferred_until_slot_reclaimed (exampleOpenWorld 4) examplePendingWorld
    (Pipeline.mk 77) (fun j => exampleOpenWorld_nothing_pending 4 j _) rfl).2.2 rfl rfl

/-- Witness of C4: three frames on the example world. -/
theorem frame_index_cycles_witness :
    ∃ w', run (exampleWorld 4 none []) (framePairs 3) = .ok w' ∧
      w'.core.GetFrameIndex = 3 % numFramesInFlight ∧
      w'.core.GetFrameIndex < w'.core.GetNumFramesInFlight ∧
      w'.core.GetNumFramesInFlight = 2 ∧
      w'.core.GetNextFrameIndex = (w'.core.GetFrameIndex + 1) % numFramesInFlight ∧
      w'.core.GetPreviousFrameIndex =
        (w'.core.GetFrameIndex + numFramesInFlight - 1) % numFramesInFlight :=
  frame_index_cycles (exampleWorld 4 none []) (exampleWorld_fresh 4 none []) 3

/-- Witness of C6: the example slot with two pending uploads and one pending copy. -/
theorem writeFrameUploadCommands_records_pending_witness :
    ∃ w' cmds fr', Core.writeFrameUploadCommands 0 12 exampleUploadWorld = some w' ∧
      w'.log = exampleUploadWorld.log ++ cmds ∧
      cmds = exampleUploadSlot.BufferUploads.map (fun bu => Event.copyBuffer 12
          exampleUploadSlot.StagingBuffer bu.Buffer bu.StagingOffset bu.DataOffset bu.DataSize) ++
        exampleUploadSlot.BufferToTextureCopies.map (fun c => Event.copyBufferToTexture 12
          c.Buffer c.Texture c.BufferOffset c.numMips) ∧
      cmds.length = exampleUploadSlot.BufferUploads.length +
        exampleUploadSlot.BufferToTextureCopies.length ∧
      cmds.filterMap Event.asBufferUpload = exampleUploadSlot.BufferUploads ∧
      cmds.filterMap Event.asBufferToTextureCopy = exampleUploadSlot.BufferToTextureCopies ∧
      w'.core.perFrameResources.get? 0 = some fr' ∧
      fr'.BufferUploads = [] ∧ fr'.BufferToTextureCopies = [] ∧
      (∀ j, j ≠ 0 → w'.core.perFrameResources.get? j =
        exampleUploadWorld.core.perFrameResources.get? j) :=
  writeFrameUploadCommands_records_pending exampleUploadWorld 0 12 exampleUploadSlot rfl

/-- Witness of C7: a second `BeginFrame` without `EndFrame` is a contract violation, and a
`BeginFrame`, `EndFrame`, `BeginFrame` run leaves the frame open. -/
theorem frame_contract_violations_detected_witness :
    run (exampleWorld 4 none []) [Op.BeginFrame, Op.BeginFrame] =
      .error FrameError.contractViolation ∧
    ∃ w', run (exampleWorld 4 none []) [Op.BeginFrame, Op.EndFrame, Op.BeginFrame] = .ok w' ∧
      w'.core.inFrame = unmatchedBegin [Op.BeginFrame, Op.EndFrame, Op.BeginFrame] ∧
      (w'.core.inFrame = true → Core.BeginFrame w' = .error FrameError.contractViolation) ∧
      (w'.core.inFrame = false → Core.EndFrame w' = .error FrameError.contractViolation) :=
  ⟨(frame_contract_violations_detected (exampleWorld 4 none []) [Op.BeginFrame, Op.BeginFrame]
      (exampleWorld_fresh 4 none []) (by decide)).1 rfl,
   (frame_contract_violations_detected (exampleWorld 4 none [])
      [Op.BeginFrame, Op.EndFrame, Op.BeginFrame]
      (exampleWorld_fresh 4 none []) (by decide)).2 rfl⟩

/-! ## Queue family selection -/

theorem and_eq_iff_testBit (q m : Nat) :
    q &&& m = m ↔ ∀ i, m.testBit i = true → q.testBit i = true := by
  constructor
  · intro h i hi
    have h2 : (q &&& m).testBit i = true := by rw [h]; exact hi
    rw [Nat.testBit_and] at h2
    simp only [Bool.and_eq_true] at h2
    exact h2.1
  · intro h
    apply Nat.eq_of_testBit_eq
    intro i
    rw [Nat.testBit_and]
    cases hm : m.testBit i with
    | false => simp
    | true => simp [h i hm]

theorem and_or_eq_iff (q a b : Nat) :
    q &&& (a ||| b) = (a ||| b) ↔ (q &&& a = a ∧ q &&& b = b) := by
  simp only [and_eq_iff_testBit, Nat.testBit_or, Bool.or_eq_true]
  constructor
  · intro h
    exact ⟨fun i hi => h i (Or.inl hi), fun i hi => h i (Or.inr hi)⟩
  · rintro ⟨h1, h2⟩ i (hi | hi)
    · exact h1 i hi
    · exact h2 i hi

theorem graphicsFlags_test (q : Nat) :
    (q &&& (VK_QUEUE_GRAPHICS_BIT ||| VK_QUEUE_COMPUTE_BIT) =
      (VK_QUEUE_GRAPHICS_BIT ||| VK_QUEUE_COMPUTE_BIT)) ↔ hasGraphicsAndCompute q = true := by
  rw [and_or_eq_iff]
  simp [hasGraphicsAndCompute]

theorem computeFlags_test (q : Nat)
    (h : ¬ q &&& (VK_QUEUE_GRAPHICS_BIT ||| VK_QUEUE_COMPUTE_BIT) =
      (VK_QUEUE_GRAPHICS_BIT ||| VK_QUEUE_COMPUTE_BIT)) :
    (q &&& VK_QUEUE_COMPUTE_BIT = VK_QUEUE_COMPUTE_BIT) ↔ hasComputeOnly q = true := by
  rw [graphicsFlags_test] at h
  simp [hasComputeOnly, h]

theorem hasComputeOnly_not_both (q : Nat) (h : hasGraphicsAndCompute q = true) :
    hasComputeOnly q = false := by
  simp [hasComputeOnly, h]

/-- The loop of `findQueueFamilies` after `n` iterations: each index is `~0` when no family
below `n` is of its kind, and the greatest such family otherwise. -/
theorem findQueueFamilies_loop (l : List Nat) (start : Queues)
    (hG : start.GraphicsFamilyIndex = UINT32_MAX) (hP : start.PresentFamilyIndex = UINT32_MAX)
    (hA : start.AsyncComputeFamilyIndex = UINT32_MAX) (n : Nat) (hn : n ≤ 8) :
    ∃ q : Queues, (List.range n).foldl (fun (q : Queues) i =>
        let queueFlags := l.getD i 0
        if queueFlags &&& (VK_QUEUE_GRAPHICS_BIT ||| VK_QUEUE_COMPUTE_BIT) =
            (VK_QUEUE_GRAPHICS_BIT ||| VK_QUEUE_COMPUTE_BIT) then
          { q with GraphicsFamilyIndex := i, PresentFamilyIndex := i }
        else if queueFlags &&& VK_QUEUE_COMPUTE_BIT = VK_QUEUE_COMPUTE_BIT then
          { q with AsyncComputeFamilyIndex := i }
        else q) start = q ∧
      q.PresentFamilyIndex = q.GraphicsFamilyIndex ∧
      ((q.GraphicsFamilyIndex = UINT32_MAX ∧
          ∀ i, i < n → hasGraphicsAndCompute (l.getD i 0) = false) ∨
        (q.GraphicsFamilyIndex < n ∧ hasGraphicsAndCompute (l.getD q.GraphicsFamilyIndex 0) = true ∧
          ∀ i, i < n → hasGraphicsAndCompute (l.getD i 0) = true → i ≤ q.GraphicsFamilyIndex)) ∧
      ((q.AsyncComputeFamilyIndex = UINT32_MAX ∧
          ∀ i, i < n → hasComputeOnly (l.getD i 0) = false) ∨
        (q.AsyncComputeFamilyIndex < n ∧
          hasComputeOnly (l.getD q.AsyncComputeFamilyIndex 0) = true ∧
          ∀ i, i < n → hasComputeOnly (l.getD i 0) = true → i ≤ q.AsyncComputeFamilyIndex)) := by
  induction n with
  | zero =>
    refine ⟨start, by simp, by rw [hP, hG], Or.inl ⟨hG, ?_⟩, Or.inl ⟨hA, ?_⟩⟩
    · intro i hi; omega
    · intro i hi; omega
  | succ n ih =>
    obtain ⟨q, hq, hPG, hGr, hAs⟩ := ih (by omega)
    rw [List.range_succ, List.foldl_append, hq]
    simp only [List.foldl_cons, List.foldl_nil]
    by_cases hb : l.getD n 0 &&& (VK_QUEUE_GRAPHICS_BIT ||| VK_QUEUE_COMPUTE_BIT) =
        (VK_QUEUE_GRAPHICS_BIT ||| VK_QUEUE_COMPUTE_BIT)
    · have hb' := (graphicsFlags_test _).1 hb
      refine ⟨{ q with GraphicsFamilyIndex := n, PresentFamilyIndex := n }, by rw [if_pos hb], rfl, Or.inr ⟨Nat.lt_succ_self n, hb', ?_⟩, ?_⟩
      · intro i hi _; exact Nat.lt_succ_iff.1 hi
      · have hno := hasComputeOnly_not_both _ hb'
        rcases hAs with ⟨h1, h2⟩ | ⟨h1, h2, h3⟩
        · refine Or.inl ⟨h1, ?_⟩
          intro i hi
          rcases Nat.lt_succ_iff_lt_or_eq.1 hi with h | h
          · exact h2 i h
          · rw [h]; exact hno
        · refine Or.inr ⟨Nat.lt_succ_of_lt h1, h2, ?_⟩
          intro i hi hc
          rcases Nat.lt_succ_iff_lt_or_eq.1 hi with h | h
          · exact h3 i h hc
          · rw [h, hno] at hc; cases hc
    · have hb' : hasGraphicsAndCompute (l.getD n 0) = false := by
        cases hx : hasGraphicsAndCompute (l.getD n 0) with
        | false => rfl
        | true => exact absurd ((graphicsFlags_test _).2 hx) hb
      have hGr' : (q.GraphicsFamilyIndex = UINT32_MAX ∧
          ∀ i, i < n + 1 → hasGraphicsAndCompute (l.getD i 0) = false) ∨
        (q.GraphicsFamilyIndex < n + 1 ∧
          hasGraphicsAndCompute (l.getD q.GraphicsFamilyIndex 0) = true ∧
          ∀ i, i < n + 1 → hasGraphicsAndCompute (l.getD i 0) = true →
            i ≤ q.GraphicsFamilyIndex) := by
        rcases hGr with ⟨h1, h2⟩ | ⟨h1, h2, h3⟩
        · refine Or.inl ⟨h1, ?_⟩
          intro i hi
          rcases Nat.lt_succ_iff_lt_or_eq.1 hi with h | h
          · exact h2 i h
          · rw [h]; exact hb'
        · refine Or.inr ⟨Nat.lt_succ_of_lt h1, h2, ?_⟩
          intro i hi hc
          rcases Nat.lt_succ_iff_lt_or_eq.1 hi with h | h
          · exact h3 i h hc
          · rw [h, hb'] at hc; cases hc
      by_cases hc : l.getD n 0 &&& VK_QUEUE_COMPUTE_BIT = VK_QUEUE_COMPUTE_BIT
      · have hc' := (computeFlags_test _ hb).1 hc
        refine ⟨{ q with AsyncComputeFamilyIndex := n }, by rw [if_neg hb, if_pos hc], hPG, hGr', Or.inr ⟨Nat.lt_succ_self n, hc', ?_⟩⟩
        intro i hi _; exact Nat.lt_succ_iff.1 hi
      · have hc' : hasComputeOnly (l.getD n 0) = false := by
          cases hx : hasComputeOnly (l.getD n 0) with
          | false => rfl
          | true => exact absurd ((computeFlags_test _ hb).2 hx) hc
        refine ⟨q, by rw [if_neg hb, if_neg hc], hPG, hGr', ?_⟩
        rcases hAs with ⟨h1, h2⟩ | ⟨h1, h2, h3⟩
        · refine Or.inl ⟨h1, ?_⟩
          intro i hi
          rcases Nat.lt_succ_iff_lt_or_eq.1 hi with h | h
          · exact h2 i h
          · rw [h]; exact hc'
        · refine Or.inr ⟨Nat.lt_succ_of_lt h1, h2, ?_⟩
          intro i hi hx
          rcases Nat.lt_succ_iff_lt_or_eq.1 hi with h | h
          · exact h3 i h hx
          · rw [h, hc'] at hx; cases hx

theorem getD_of_getElem? (l : List Nat) (i f : Nat) (h : l[i]? = some f) : l.getD i 0 = f := by
  simp [List.getD, h]

theorem getElem?_of_lt (l : List Nat) (i : Nat) (h : i < l.length) :
    l[i]? = some (l.getD i 0) := by
  simp [List.getD, List.getElem?_eq_getElem h]

/-- What `findQueueFamilies` returns for at most eight families, by the loop invariant. -/
theorem findQueueFamilies_eq (w : World) (h8 : w.queueFamilies.length ≤ 8) :
    ∃ q : Queues,
      Core.findQueueFamilies w =
        (if q.GraphicsFamilyIndex = UINT32_MAX then .error "Couldn't find graphics queue!"
         else .ok { w with
           core := { w.core with handles := { w.core.handles with Queues := q } },
           log := w.log ++
             [Event.vkGetPhysicalDeviceQueueFamilyProperties w.core.handles.PhysicalDevice] }) ∧
      q.PresentFamilyIndex = q.GraphicsFamilyIndex ∧
      ((q.GraphicsFamilyIndex = UINT32_MAX ∧
          ∀ f ∈ w.queueFamilies, hasGraphicsAndCompute f = false) ∨
        (q.GraphicsFamilyIndex < w.queueFamilies.length ∧
          hasGraphicsAndCompute (w.queueFamilies.getD q.GraphicsFamilyIndex 0) = true ∧
          ∀ i f, w.queueFamilies[i]? = some f → hasGraphicsAndCompute f = true →
            i ≤ q.GraphicsFamilyIndex)) ∧
      ((q.AsyncComputeFamilyIndex = UINT32_MAX ∧
          ∀ f ∈ w.queueFamilies, hasComputeOnly f = false) ∨
        (q.AsyncComputeFamilyIndex < w.queueFamilies.length ∧
          hasComputeOnly (w.queueFamilies.getD q.AsyncComputeFamilyIndex 0) = true ∧
          ∀ i f, w.queueFamilies[i]? = some f → hasComputeOnly f = true →
            i ≤ q.AsyncComputeFamilyIndex)) := by
  have htake : w.queueFamilies.take 8 = w.queueFamilies := List.take_of_length_le h8
  obtain ⟨q, hq, hPG, hGr, hAs⟩ := findQueueFamilies_loop w.queueFamilies
    ⟨UINT32_MAX, UINT32_MAX, UINT32_MAX, w.core.handles.Queues.Graphics,
      w.core.handles.Queues.Present, w.core.handles.Queues.AsyncCompute⟩ rfl rfl rfl
    w.queueFamilies.length h8
  refine ⟨q, ?_, hPG, ?_, ?_⟩
  · unfold Core.findQueueFamilies
    simp only [World.emit, htake]
    rw [hq]
  · rcases hGr with ⟨h1, h2⟩ | ⟨h1, h2, h3⟩
    · refine Or.inl ⟨h1, ?_⟩
      intro f hf
      obtain ⟨i, hi, hget⟩ := List.getElem_of_mem hf
      have := h2 i hi
      rw [getD_of_getElem? _ i f (by rw [List.getElem?_eq_getElem hi, hget])] at this
      exact this
    · refine Or.inr ⟨h1, h2, ?_⟩
      intro i f hif hb
      have hi : i < w.queueFamilies.length := by
        rcases List.getElem?_eq_some_iff.1 hif with ⟨hlt, _⟩
        exact hlt
      exact h3 i hi (by rw [getD_of_getElem? _ i f hif]; exact hb)
  · rcases hAs with ⟨h1, h2⟩ | ⟨h1, h2, h3⟩
    · refine Or.inl ⟨h1, ?_⟩
      intro f hf
      obtain ⟨i, hi, hget⟩ := List.getElem_of_mem hf
      have := h2 i hi
      rw [getD_of_getElem? _ i f (by rw [List.getElem?_eq_getElem hi, hget])] at this
      exact this
    · refine Or.inr ⟨h1, h2, ?_⟩
      intro i f hif hb
      have hi : i < w.queueFamilies.length := by
        rcases List.getElem?_eq_some_iff.1 hif with ⟨hlt, _⟩
        exact hlt
      exact h3 i hi (by rw [getD_of_getElem? _ i f hif]; exact hb)

/-- C11: for at most eight queue families, `findQueueFamilies` fails (the thrown
`RenderInitException`, the error of the result) exactly when no family has both the graphics
and the compute bit; when some family has both it returns, with `GraphicsFamilyIndex` the index
of a family that has both bits, after the one driver query and without a call of
`onFailedVkCheck`. -/
theorem findQueueFamilies_fails_iff_no_graphics_family (w : World)
    (h8 : w.queueFamilies.length ≤ 8) :
    (Core.findQueueFamilies w = .error "Couldn't find graphics queue!" ↔
      ∀ f ∈ w.queueFamilies, hasGraphicsAndCompute f = false) ∧
    ((∃ f ∈ w.queueFamilies, hasGraphicsAndCompute f = true) ↔
      ∃ w', Core.findQueueFamilies w = .ok w') ∧
    ∀ w', Core.findQueueFamilies w = .ok w' →
      (∃ f, w.queueFamilies[w'.core.handles.Queues.GraphicsFamilyIndex]? = some f ∧
        hasGraphicsAndCompute f = true) ∧
      w'.log = w.log ++
        [Event.vkGetPhysicalDeviceQueueFamilyProperties w.core.handles.PhysicalDevice] ∧
      failedChecks w'.log = failedChecks w.log := by
  obtain ⟨q, hq, _, hGr, _⟩ := findQueueFamilies_eq w h8
  rcases hGr with ⟨h1, h2⟩ | ⟨h1, h2, _⟩
  · rw [if_pos h1] at hq
    refine ⟨⟨fun _ => h2, fun _ => hq⟩, ⟨?_, ?_⟩, ?_⟩
    · rintro ⟨f, hf, hb⟩
      rw [h2 f hf] at hb
      cases hb
    · rintro ⟨w', hw'⟩
      rw [hq] at hw'
      cases hw'
    · intro w' hw'
      rw [hq] at hw'
      cases hw'
  · have hne : q.GraphicsFamilyIndex ≠ UINT32_MAX := by
      intro hc
      rw [hc] at h1
      unfold UINT32_MAX at h1
      omega
    rw [if_neg hne] at hq
    have hmem : ∃ f ∈ w.queueFamilies, hasGraphicsAndCompute f = true :=
      ⟨_, List.mem_iff_getElem?.2 ⟨_, getElem?_of_lt _ _ h1⟩, h2⟩
    refine ⟨⟨?_, ?_⟩, ⟨fun _ => ⟨_, hq⟩, fun _ => hmem⟩, ?_⟩
    · intro hc
      rw [hq] at hc
      cases hc
    · intro hall
      obtain ⟨f, hf, hb⟩ := hmem
      rw [hall f hf] at hb
      cases hb
    · intro w' hw'
      rw [hq] at hw'
      cases hw'
      refine ⟨⟨_, getElem?_of_lt _ _ h1, h2⟩, rfl, ?_⟩
      simp [failedChecks, List.filterMap_append]

/-- Witness of C11: five families, the first and the third with both bits. -/
theorem findQueueFamilies_fails_iff_no_graphics_family_witness :
    exampleQueueWorld.queueFamilies.length ≤ 8 ∧
    (∃ f ∈ exampleQueueWorld.queueFamilies, hasGraphicsAndCompute f = true) ∧
    ∃ w', Core.findQueueFamilies exampleQueueWorld = .ok w' :=
  ⟨by decide, ⟨3, by decide, by decide⟩,
    (findQueueFamilies_fails_iff_no_graphics_family exampleQueueWorld (by decide)).2.1.1
      ⟨3, by decide, by decide⟩⟩

/-- C16: when `findQueueFamilies` returns for at most eight families, `PresentFamilyIndex`
equals `GraphicsFamilyIndex` and both are the greatest index of a family with both bits;
`AsyncComputeFamilyIndex` is `~0` when no family has the compute bit without having both bits,
and the greatest index of such a family otherwise; an `AsyncComputeFamilyIndex` other than `~0`
differs from `GraphicsFamilyIndex`, and the two queue create infos of `createDevice` then name
different families. -/
theorem findQueueFamilies_greatest_indices (w w' : World) (h8 : w.queueFamilies.length ≤ 8)
    (hok : Core.findQueueFamilies w = .ok w') :
    w'.core.handles.Queues.PresentFamilyIndex = w'.core.handles.Queues.GraphicsFamilyIndex ∧
    (∃ f, w.queueFamilies[w'.core.handles.Queues.GraphicsFamilyIndex]? = some f ∧
      hasGraphicsAndCompute f = true) ∧
    (∀ i f, w.queueFamilies[i]? = some f → hasGraphicsAndCompute f = true →
      i ≤ w'.core.handles.Queues.GraphicsFamilyIndex) ∧
    ((∀ f ∈ w.queueFamilies, hasComputeOnly f = false) →
      w'.core.handles.Queues.AsyncComputeFamilyIndex = UINT32_MAX) ∧
    ((∃ f ∈ w.queueFamilies, hasComputeOnly f = true) →
      (∃ f, w.queueFamilies[w'.core.handles.Queues.AsyncComputeFamilyIndex]? = some f ∧
        hasComputeOnly f = true) ∧
      ∀ i f, w.queueFamilies[i]? = some f → hasComputeOnly f = true →
        i ≤ w'.core.handles.Queues.AsyncComputeFamilyIndex) ∧
    (w'.core.handles.Queues.AsyncComputeFamilyIndex ≠ UINT32_MAX →
      w'.core.handles.Queues.AsyncComputeFamilyIndex ≠
        w'.core.handles.Queues.GraphicsFamilyIndex ∧
      (Core.createDevice.queueCreateInfos w'.core.handles.Queues).map
        VkDeviceQueueCreateInfo.queueFamilyIndex =
        [w'.core.handles.Queues.GraphicsFamilyIndex,
         w'.core.handles.Queues.AsyncComputeFamilyIndex]) := by
  obtain ⟨q, hq, hPG, hGr, hAs⟩ := findQueueFamilies_eq w h8
  rcases hGr with ⟨h1, _⟩ | ⟨h1, h2, h3⟩
  · rw [if_pos h1, hok] at hq
    cases hq
  have hne : q.GraphicsFamilyIndex ≠ UINT32_MAX := by
    intro hc
    rw [hc] at h1
    unfold UINT32_MAX at h1
    omega
  rw [if_neg hne, hok] at hq
  have hw' := Except.ok.inj hq
  subst hw'
  dsimp only
  refine ⟨hPG, ⟨_, getElem?_of_lt _ _ h1, h2⟩, h3, ?_, ?_, ?_⟩
  · intro hall
    rcases hAs with ⟨a1, _⟩ | ⟨a1, a2, _⟩
    · exact a1
    · rw [hall _ (List.mem_iff_getElem?.2 ⟨_, getElem?_of_lt _ _ a1⟩)] at a2
      cases a2
  · rintro ⟨f, hf, hc⟩
    rcases hAs with ⟨_, a2⟩ | ⟨a1, a2, a3⟩
    · rw [a2 f hf] at hc
      cases hc
    · exact ⟨⟨_, getElem?_of_lt _ _ a1, a2⟩, a3⟩
  · intro hA
    rcases hAs with ⟨a1, _⟩ | ⟨a1, a2, _⟩
    · exact absurd a1 hA
    · refine ⟨?_, ?_⟩
      · intro heq
        rw [heq, hasComputeOnly_not_both _ h2] at a2
        cases a2
      · simp [Core.createDevice.queueCreateInfos, hA]

/-- Witness of C16: five families; the greatest with both bits is 2, the greatest with the
compute bit only is 3. -/
theorem findQueueFamilies_greatest_indices_witness :
    Core.findQueueFamilies exampleQueueWorld = .ok exampleQueueResult ∧
    exampleQueueResult.core.handles.Queues.GraphicsFamilyIndex = 2 ∧
    exampleQueueResult.core.handles.Queues.AsyncComputeFamilyIndex = 3 ∧
    exampleQueueResult.core.handles.Queues.PresentFamilyIndex =
      exampleQueueResult.core.handles.Queues.GraphicsFamilyIndex :=
  ⟨rfl, by decide, by decide,
    (findQueueFamilies_greatest_indices exampleQueueWorld exampleQueueResult (by decide)
      rfl).1⟩

/-! ## Extension support checks, the render pass key and the blend and vertex state -/

/-- C18: `checkExtensionSupport` returns true exactly when one of the enumerated extension
names equals the requested name, and false for an empty extension list;
`checkRaytracingSupport` returns true exactly when both the ray query name and the acceleration
structure name are enumerated. -/
theorem checkExtensionSupport_iff_enumerated (device : Handle) (extension : String)
    (w : World) :
    ((Core.checkExtensionSupport device extension w).1 = true ↔
      ∃ name ∈ w.deviceExtensions, name = extension) ∧
    (w.deviceExtensions = [] → (Core.checkExtensionSupport device extension w).1 = false) ∧
    ((Core.checkRaytracingSupport device w).1 = true ↔
      ("VK_KHR_ray_query" ∈ w.deviceExtensions ∧
        "VK_KHR_acceleration_structure" ∈ w.deviceExtensions)) := by
  obtain ⟨e1, d1, h1, _⟩ := checkExtensionSupport_eq device extension w
  obtain ⟨e2, d2, h2, _⟩ := checkExtensionSupport_eq device "VK_KHR_ray_query" w
  obtain ⟨e3, d3, h3, _⟩ := checkExtensionSupport_eq device "VK_KHR_acceleration_structure"
    { w with log := w.log ++ e2, driver := d2 }
  dsimp only at h3
  refine ⟨?_, ?_, ?_⟩
  · rw [h1]
    simp
  · intro hempty
    rw [h1, hempty]
    simp
  · unfold Core.checkRaytracingSupport
    rw [h2]
    by_cases hrq : "VK_KHR_ray_query" ∈ w.deviceExtensions
    · simp only [hrq, decide_True, if_true, h3, true_and]
      simp
    · simp [hrq]

theorem ColorAttachmentFormat_foldl (formats : List Nat) : ∀ b : PipelineBuilder,
    (formats.foldl PipelineBuilder.ColorAttachmentFormat b).attachmentFormats =
      b.attachmentFormats ++ formats := by
  induction formats with
  | nil => intro b; simp
  | cons f rest ih =>
    intro b
    rw [List.foldl_cons, ih]
    simp [PipelineBuilder.ColorAttachmentFormat]

theorem AddVertexBinding_foldl (bindings : List VertexBinding) : ∀ b : PipelineBuilder,
    (bindings.foldl PipelineBuilder.AddVertexBinding b).vertexBindings =
      b.vertexBindings ++ bindings := by
  induction bindings with
  | nil => intro b; simp
  | cons f rest ih =>
    intro b
    rw [List.foldl_cons, ih]
    simp [PipelineBuilder.AddVertexBinding]

/-- The key of `Build`, member by member. -/
theorem rpKey_eq (b : PipelineBuilder) :
    b.rpKey =
      { viewMask := b.viewMask,
        colorAttachment := b.attachmentFormats.head?.map (fun format =>
          { format := format, loadOp := .VK_ATTACHMENT_LOAD_OP_LOAD,
            storeOp := .VK_ATTACHMENT_STORE_OP_STORE, samples := b.numSamples }),
        depthAttachment :=
          if b.depthFormat ≠ TextureFormat.UNDEFINED then
            some { format := b.depthFormat, loadOp := .VK_ATTACHMENT_LOAD_OP_CLEAR,
                   storeOp := .VK_ATTACHMENT_STORE_OP_STORE, samples := b.numSamples }
          else none } := by
  unfold PipelineBuilder.rpKey
  cases hf : b.attachmentFormats with
  | nil => by_cases hd : b.depthFormat = TextureFormat.UNDEFINED <;> simp [hd]
  | cons f rest => by_cases hd : b.depthFormat = TextureFormat.UNDEFINED <;> simp [hd]

/-- C13: on the cache path `Build` calls `GetPass` once, with the key whose `viewMask` is the
builder's, whose depth attachment is present exactly when `depthFormat` is not `UNDEFINED` and
is then (depthFormat, CLEAR, STORE, numSamples), and whose colour attachment is present exactly
when there is a colour format and is then (first colour format, LOAD, STORE, numSamples);
builders that agree on viewMask, depthFormat, first colour format and numSamples pass equal
keys. The colour formats are the ones `ColorAttachmentFormat` added, in order. -/
theorem cache_path_key_from_builder (b : PipelineBuilder) (w : World) (c : RenderPassCache)
    (h : w.g_renderPassCache = some c) :
    (∃ evs, (b.Build w).2.log = w.log ++ evs ∧ getPassCalls evs = [b.rpKey]) ∧
    b.rpKey.viewMask = b.viewMask ∧
    (b.rpKey.depthAttachment.isSome = true ↔ b.depthFormat ≠ TextureFormat.UNDEFINED) ∧
    (∀ a, b.rpKey.depthAttachment = some a →
      a = { format := b.depthFormat, loadOp := .VK_ATTACHMENT_LOAD_OP_CLEAR,
            storeOp := .VK_ATTACHMENT_STORE_OP_STORE, samples := b.numSamples }) ∧
    (b.rpKey.colorAttachment.isSome = true ↔ 1 ≤ b.attachmentFormats.length) ∧
    (∀ a, b.rpKey.colorAttachment = some a →
      ∃ first, b.attachmentFormats.head? = some first ∧
        a = { format := first, loadOp := .VK_ATTACHMENT_LOAD_OP_LOAD,
              storeOp := .VK_ATTACHMENT_STORE_OP_STORE, samples := b.numSamples }) ∧
    (∀ b' : PipelineBuilder, b'.viewMask = b.viewMask → b'.depthFormat = b.depthFormat →
      b'.attachmentFormats.head? = b.attachmentFormats.head? → b'.numSamples = b.numSamples →
      b'.rpKey = b.rpKey) ∧
    (∀ formats : List Nat,
      (formats.foldl PipelineBuilder.ColorAttachmentFormat b).attachmentFormats =
        b.attachmentFormats ++ formats) := by
  obtain ⟨_, evs, _, _, hl, hg, _⟩ := Build_some b w c h
  refine ⟨⟨evs, hl, hg⟩, ?_, ?_, ?_, ?_, ?_, ?_,
    fun formats => ColorAttachmentFormat_foldl formats b⟩
  · rw [rpKey_eq]
  · rw [rpKey_eq]
    by_cases hd : b.depthFormat = TextureFormat.UNDEFINED <;> simp [hd]
  · intro a ha
    rw [rpKey_eq] at ha
    by_cases hd : b.depthFormat = TextureFormat.UNDEFINED
    · simp [hd] at ha
    · simp only [ne_eq, hd, not_false_eq_true, if_true] at ha
      exact (Option.some.inj ha).symm
  · rw [rpKey_eq]
    cases hf : b.attachmentFormats <;> simp
  · intro a ha
    rw [rpKey_eq] at ha
    cases hf : b.attachmentFormats.head? with
    | none => simp [hf] at ha
    | some first =>
      refine ⟨first, rfl, ?_⟩
      simp only [hf, Option.map_some'] at ha
      exact (Option.some.inj ha).symm
  · intro b' h1 h2 h3 h4
    rw [rpKey_eq, rpKey_eq, h1, h2, h3, h4]

/-- Witness of C13: the example builder on an empty cache. -/
theorem cache_path_key_from_builder_witness :
    (exampleWorld 4 (some { passes := [] }) []).g_renderPassCache = some { passes := [] } ∧
    ∃ evs, (exampleBuilder.Build (exampleWorld 4 (some { passes := [] }) [])).2.log =
        (exampleWorld 4 (some { passes := [] }) []).log ++ evs ∧
      getPassCalls evs = [exampleBuilder.rpKey] :=
  ⟨rfl, (cache_path_key_from_builder exampleBuilder (exampleWorld 4 (some { passes := [] }) [])
    { passes := [] } rfl).1⟩

/-- The creation calls of `Build`: at least one, each with the create info of line 371 up to
`pNext` and `renderPass`. -/
theorem Build_created (b : PipelineBuilder) (w : World) :
    ∃ evs, (b.Build w).2.log = w.log ++ evs ∧ createdPipelines evs ≠ [] ∧
      ∀ p ∈ createdPipelines evs, ∃ pNext renderPass,
        p = { PipelineBuilder.Build.pci b with pNext := pNext, renderPass := renderPass } := by
  cases hc : w.g_renderPassCache with
  | none =>
    obtain ⟨n, evs, hn, hl, _, _, hcr, _⟩ := Build_none b w hc
    refine ⟨evs, hl, ?_, ?_⟩
    · rw [hcr]
      intro h0
      have := congrArg List.length h0
      simp at this
      omega
    · intro p hp
      rw [hcr] at hp
      exact ⟨_, _, List.eq_of_mem_replicate hp⟩
  | some c =>
    obtain ⟨n, evs, _, hn, hl, _, _, hcr, _⟩ := Build_some b w c hc
    refine ⟨evs, hl, ?_, ?_⟩
    · rw [hcr]
      intro h0
      have := congrArg List.length h0
      simp at this
      omega
    · intro p hp
      rw [hcr] at hp
      exact ⟨_, _, List.eq_of_mem_replicate hp⟩

theorem foldl_push_const {α β : Type} (x : β) (l : List α) (acc : List β) :
    l.foldl (fun (states : List β) _i => states ++ [x]) acc =
      acc ++ List.replicate l.length x := by
  induction l generalizing acc with
  | nil => simp
  | cons a t ih =>
    simp only [List.foldl_cons, ih, List.length_cons, List.replicate_succ, List.append_assoc,
      List.singleton_append]

theorem attachmentBlendStates_eq (b : PipelineBuilder) :
    PipelineBuilder.Build.attachmentBlendStates b =
      List.replicate b.attachmentFormats.length (PipelineBuilder.Build.blendState b) := by
  unfold PipelineBuilder.Build.attachmentBlendStates
  rw [foldl_push_const, List.length_range, List.nil_append]

/-- C19: every creation call of `Build` carries one colour blend attachment state per colour
format, with `attachmentCount` the number of formats; the states are all the same state, which
writes all four colour components and enables blending exactly when `alphaBlend` or
`additiveBlend` is set; with `alphaBlend` set the state is the alpha blend state whatever
`additiveBlend` is. The formats are the ones `ColorAttachmentFormat` added, in order. -/
theorem blend_state_per_colour_format (b : PipelineBuilder) (w : World)
    (hlen : b.attachmentFormats.length < UINT32_SIZE) :
    (PipelineBuilder.Build.blendState b).blendEnable = (b.alphaBlend || b.additiveBlend) ∧
    (PipelineBuilder.Build.blendState b).colorWriteMask =
      VK_COLOR_COMPONENT_R_BIT ||| VK_COLOR_COMPONENT_G_BIT ||| VK_COLOR_COMPONENT_B_BIT |||
        VK_COLOR_COMPONENT_A_BIT ∧
    (b.alphaBlend = true →
      PipelineBuilder.Build.blendState b =
        { blendEnable := true,
          srcColorBlendFactor := .VK_BLEND_FACTOR_SRC_ALPHA,
          dstColorBlendFactor := .VK_BLEND_FACTOR_ONE_MINUS_SRC_ALPHA,
          colorBlendOp := .VK_BLEND_OP_ADD,
          srcAlphaBlendFactor := .VK_BLEND_FACTOR_ONE,
          dstAlphaBlendFactor := .VK_BLEND_FACTOR_ONE_MINUS_SRC_ALPHA,
          alphaBlendOp := .VK_BLEND_OP_ADD,
          colorWriteMask := 15 }) ∧
    (b.alphaBlend = false → b.additiveBlend = true →
      PipelineBuilder.Build.blendState b =
        { blendEnable := true,
          srcColorBlendFactor := .VK_BLEND_FACTOR_ONE,
          dstColorBlendFactor := .VK_BLEND_FACTOR_ONE,
          colorBlendOp := .VK_BLEND_OP_ADD,
          srcAlphaBlendFactor := .VK_BLEND_FACTOR_ONE,
          dstAlphaBlendFactor := .VK_BLEND_FACTOR_ONE,
          alphaBlendOp := .VK_BLEND_OP_MAX,
          colorWriteMask := 15 }) ∧
    (∀ formats : List Nat,
      (formats.foldl PipelineBuilder.ColorAttachmentFormat b).attachmentFormats =
        b.attachmentFormats ++ formats) ∧
    ∃ evs, (b.Build w).2.log = w.log ++ evs ∧ createdPipelines evs ≠ [] ∧
      ∀ p ∈ createdPipelines evs,
        p.pColorBlendState.attachmentCount = b.attachmentFormats.length ∧
        p.pColorBlendState.pAttachments.length = b.attachmentFormats.length ∧
        ∀ s ∈ p.pColorBlendState.pAttachments, s = PipelineBuilder.Build.blendState b := by
  refine ⟨?_, ?_, ?_, ?_, fun formats => ColorAttachmentFormat_foldl formats b, ?_⟩
  · unfold PipelineBuilder.Build.blendState
    cases b.alphaBlend <;> cases b.additiveBlend <;> rfl
  · unfold PipelineBuilder.Build.blendState
    cases b.alphaBlend <;> cases b.additiveBlend <;> rfl
  · intro ha
    unfold PipelineBuilder.Build.blendState
    rw [ha]
    rfl
  · intro ha hadd
    unfold PipelineBuilder.Build.blendState
    rw [ha, hadd]
    rfl
  · obtain ⟨evs, hl, hne, hall⟩ := Build_created b w
    refine ⟨evs, hl, hne, ?_⟩
    intro p hp
    obtain ⟨pn, rp, rfl⟩ := hall p hp
    have hA : (PipelineBuilder.Build.pci b).pColorBlendState.pAttachments =
        List.replicate b.attachmentFormats.length (PipelineBuilder.Build.blendState b) := by
      rw [← attachmentBlendStates_eq]
      rfl
    have hC : (PipelineBuilder.Build.pci b).pColorBlendState.attachmentCount =
        b.attachmentFormats.length % UINT32_SIZE := rfl
    refine ⟨?_, ?_, ?_⟩
    · show (PipelineBuilder.Build.pci b).pColorBlendState.attachmentCount = _
      rw [hC, Nat.mod_eq_of_lt hlen]
    · show (PipelineBuilder.Build.pci b).pColorBlendState.pAttachments.length = _
      rw [hA, List.length_replicate]
    · intro s hs
      have hs' : s ∈ (PipelineBuilder.Build.pci b).pColorBlendState.pAttachments := hs
      rw [hA] at hs'
      exact List.eq_of_mem_replicate hs'

/-- Witness of C19: a builder with two colour formats and both blend flags set. -/
theorem blend_state_per_colour_format_witness :
    exampleBlendBuilder.attachmentFormats.length < UINT32_SIZE ∧
    (PipelineBuilder.Build.blendState exampleBlendBuilder).blendEnable =
      (exampleBlendBuilder.alphaBlend || exampleBlendBuilder.additiveBlend) :=
  ⟨by decide,
    (blend_state_per_colour_format exampleBlendBuilder (exampleWorld 4 none [])
      (by decide)).1⟩

theorem foldl_push_map {α β : Type} (f : α → β) (l : List α) (acc : List β) :
    l.foldl (fun (descs : List β) a => descs ++ [f a]) acc = acc ++ l.map f := by
  induction l generalizing acc with
  | nil => simp
  | cons a t ih => simp only [List.foldl_cons, ih, List.map_cons, List.append_assoc,
      List.singleton_append]

theorem vertexDescs_foldl (vbs : List VertexBinding)
    (acc : List VkVertexInputBindingDescription × List VkVertexInputAttributeDescription) :
    vbs.foldl
      (fun (acc : List VkVertexInputBindingDescription ×
          List VkVertexInputAttributeDescription) vb =>
        let desc : VkVertexInputBindingDescription :=
          { binding := vb.Binding, stride := vb.Size, inputRate := VK_VERTEX_INPUT_RATE_VERTEX }
        let attributeDescs := vb.Attributes.foldl
          (fun (descs : List VkVertexInputAttributeDescription) va =>
            descs ++ [{ binding := vb.Binding, location := va.Index, offset := va.Offset,
                        format := va.Format }]) acc.2
        (acc.1 ++ [desc], attributeDescs)) acc =
    (acc.1 ++ vbs.map (fun vb =>
        { binding := vb.Binding, stride := vb.Size, inputRate := VK_VERTEX_INPUT_RATE_VERTEX }),
     acc.2 ++ (vbs.map (fun vb => vb.Attributes.map (fun va =>
        ({ binding := vb.Binding, location := va.Index, offset := va.Offset,
           format := va.Format } : VkVertexInputAttributeDescription)))).flatten) := by
  induction vbs generalizing acc with
  | nil => simp
  | cons vb rest ih =>
    rw [List.foldl_cons, ih]
    simp only [foldl_push_map, List.map_cons, List.flatten_cons, List.append_assoc,
      List.singleton_append]

theorem vertexDescs_eq (b : PipelineBuilder) :
    PipelineBuilder.Build.vertexDescs b =
      (b.vertexBindings.map (fun vb =>
        { binding := vb.Binding, stride := vb.Size, inputRate := VK_VERTEX_INPUT_RATE_VERTEX }),
       (b.vertexBindings.map (fun vb => vb.Attributes.map (fun va =>
        ({ binding := vb.Binding, location := va.Index, offset := va.Offset,
           format := va.Format } : VkVertexInputAttributeDescription)))).flatten) := by
  unfold PipelineBuilder.Build.vertexDescs
  rw [vertexDescs_foldl]
  simp

theorem attributeDescs_length (vbs : List VertexBinding) :
    ((vbs.map (fun vb => vb.Attributes.map (fun va =>
      ({ binding := vb.Binding, location := va.Index, offset := va.Offset,
         format := va.Format } : VkVertexInputAttributeDescription)))).flatten).length =
      (vbs.map (fun vb => vb.Attributes.length)).sum := by
  induction vbs with
  | nil => rfl
  | cons a t ih =>
    simp only [List.map_cons, List.flatten_cons, List.length_append, List.length_map,
      List.sum_cons, ih]

/-- C20: every creation call of `Build` carries one binding description per vertex binding, in
order, with `binding` the binding's `Binding`, `stride` its `Size` and the per-vertex input
rate; the attribute descriptions are the attributes of the bindings joined in binding order,
each with the binding's `Binding`, the attribute's `Index` as location, its `Offset` and its
`Format`; the two counts are the number of bindings and the sum of the bindings' attribute
counts. The bindings are the ones `AddVertexBinding` added, in order. -/
theorem vertex_descriptions_in_binding_order (b : PipelineBuilder) (w : World)
    (hb : b.vertexBindings.length < UINT32_SIZE)
    (ha : (b.vertexBindings.map (fun vb => vb.Attributes.length)).sum < UINT32_SIZE) :
    (∀ bindings : List VertexBinding,
      (bindings.foldl PipelineBuilder.AddVertexBinding b).vertexBindings =
        b.vertexBindings ++ bindings) ∧
    ∃ evs, (b.Build w).2.log = w.log ++ evs ∧ createdPipelines evs ≠ [] ∧
      ∀ p ∈ createdPipelines evs,
        p.pVertexInputState.pVertexBindingDescriptions =
          b.vertexBindings.map (fun vb =>
            { binding := vb.Binding, stride := vb.Size,
              inputRate := VK_VERTEX_INPUT_RATE_VERTEX }) ∧
        p.pVertexInputState.vertexBindingDescriptionCount = b.vertexBindings.length ∧
        p.pVertexInputState.pVertexAttributeDescriptions =
          (b.vertexBindings.map (fun vb => vb.Attributes.map (fun va =>
            ({ binding := vb.Binding, location := va.Index, offset := va.Offset,
               format := va.Format } : VkVertexInputAttributeDescription)))).flatten ∧
        p.pVertexInputState.vertexAttributeDescriptionCount =
          (b.vertexBindings.map (fun vb => vb.Attributes.length)).sum := by
  obtain ⟨evs, hl, hne, hall⟩ := Build_created b w
  refine ⟨fun bindings => AddVertexBinding_foldl bindings b, evs, hl, hne, ?_⟩
  intro p hp
  obtain ⟨pn, rp, rfl⟩ := hall p hp
  have h1 : (PipelineBuilder.Build.pci b).pVertexInputState.pVertexBindingDescriptions =
      (PipelineBuilder.Build.vertexDescs b).1 := rfl
  have h2 : (PipelineBuilder.Build.pci b).pVertexInputState.pVertexAttributeDescriptions =
      (PipelineBuilder.Build.vertexDescs b).2 := rfl
  have h3 : (PipelineBuilder.Build.pci b).pVertexInputState.vertexBindingDescriptionCount =
      (PipelineBuilder.Build.vertexDescs b).1.length % UINT32_SIZE := rfl
  have h4 : (PipelineBuilder.Build.pci b).pVertexInputState.vertexAttributeDescriptionCount =
      (PipelineBuilder.Build.vertexDescs b).2.length % UINT32_SIZE := rfl
  refine ⟨?_, ?_, ?_, ?_⟩
  · show (PipelineBuilder.Build.pci b).pVertexInputState.pVertexBindingDescriptions = _
    rw [h1, vertexDescs_eq]
  · show (PipelineBuilder.Build.pci b).pVertexInputState.vertexBindingDescriptionCount = _
    rw [h3, vertexDescs_eq]
    simp only [List.length_map]
    exact Nat.mod_eq_of_lt hb
  · show (PipelineBuilder.Build.pci b).pVertexInputState.pVertexAttributeDescriptions = _
    rw [h2, vertexDescs_eq]
  · show (PipelineBuilder.Build.pci b).pVertexInputState.vertexAttributeDescriptionCount = _
    rw [h4, vertexDescs_eq]
    simp only []
    rw [attributeDescs_length]
    exact Nat.mod_eq_of_lt ha

/-- Witness of C20: a builder with two vertex bindings, of one and of two attributes. -/
theorem vertex_descriptions_in_binding_order_witness :
    exampleBlendBuilder.vertexBindings.length < UINT32_SIZE ∧
    (exampleBlendBuilder.vertexBindings.map (fun vb => vb.Attributes.length)).sum <
      UINT32_SIZE ∧
    ∃ evs, (exampleBlendBuilder.Build (exampleWorld 4 none [])).2.log =
        (exampleWorld 4 none []).log ++ evs ∧ createdPipelines evs ≠ [] ∧
      ∀ p ∈ createdPipelines evs,
        p.pVertexInputState.pVertexBindingDescriptions =
          exampleBlendBuilder.vertexBindings.map (fun vb =>
            { binding := vb.Binding, stride := vb.Size,
              inputRate := VK_VERTEX_INPUT_RATE_VERTEX }) ∧
        p.pVertexInputState.vertexBindingDescriptionCount =
          exampleBlendBuilder.vertexBindings.length ∧
        p.pVertexInputState.pVertexAttributeDescriptions =
          (exampleBlendBuilder.vertexBindings.map (fun vb => vb.Attributes.map (fun va =>
            ({ binding := vb.Binding, location := va.Index, offset := va.Offset,
               format := va.Format } : VkVertexInputAttributeDescription)))).flatten ∧
        p.pVertexInputState.vertexAttributeDescriptionCount =
          (exampleBlendBuilder.vertexBindings.map (fun vb => vb.Attributes.length)).sum :=
  ⟨by decide, by decide,
    (vertex_descriptions_in_binding_order exampleBlendBuilder (exampleWorld 4 none [])
      (by decide) (by decide)).2⟩

/-! ## The driver calls of `createDevice` -/

theorem VKCHECK_enumerate_quiet (device : Handle) (withArray : Bool) (file : String)
    (line : Nat) (w : World) :
    ∃ evs drv, VKCHECK (vkEnumerateDeviceExtensionProperties device withArray) file line w =
      (w.deviceExtensions, { w with log := w.log ++ evs, driver := drv }) ∧
      createdDevices evs = [] ∧ deviceQueueCalls evs = [] := by
  unfold VKCHECK vkEnumerateDeviceExtensionProperties
  simp only [World.call_eq, onFailedVkCheck, World.emit]
  by_cases h : (w.driver.headD (0, VK_NULL_HANDLE)).1 = 0
  · refine ⟨[Event.vkEnumerateDeviceExtensionProperties device withArray], w.driver.tail,
      ?_, rfl, rfl⟩
    simp
    simpa using h
  · refine ⟨[Event.vkEnumerateDeviceExtensionProperties device withArray,
      Event.vkEnumerateDeviceExtensionProperties device withArray,
      Event.onFailedVkCheck (w.driver.tail.headD (0, VK_NULL_HANDLE)).1 file line],
      w.driver.tail.tail, ?_, rfl, rfl⟩
    simp
    simpa using h

theorem checkExtensionSupport_quiet (device : Handle) (extension : String) (w : World) :
    ∃ evs drv, Core.checkExtensionSupport device extension w =
      (decide (extension ∈ w.deviceExtensions),
        { w with log := w.log ++ evs, driver := drv }) ∧
      createdDevices evs = [] ∧ deviceQueueCalls evs = [] := by
  obtain ⟨e1, d1, h1, g1, q1⟩ := VKCHECK_enumerate_quiet device false FILE_VKCoreInitialization
    195 w
  obtain ⟨e2, d2, h2, g2, q2⟩ := VKCHECK_enumerate_quiet device
    (w.deviceExtensions.length != 0) FILE_VKCoreInitialization 198
    { w with log := w.log ++ e1, driver := d1 }
  refine ⟨e1 ++ e2, d2, ?_, ?_, ?_⟩
  · unfold Core.checkExtensionSupport
    simp only [h1, h2, List.take_length, foldr_strcmp, List.append_assoc]
  · simp only [createdDevices, List.filterMap_append] at g1 g2 ⊢
    rw [g1, g2]; rfl
  · simp only [deviceQueueCalls, List.filterMap_append] at q1 q2 ⊢
    rw [q1, q2]; rfl

theorem checkRaytracingSupport_quiet (device : Handle) (w : World) :
    ∃ evs drv, Core.checkRaytracingSupport device w =
      (decide ("VK_KHR_ray_query" ∈ w.deviceExtensions ∧
          "VK_KHR_acceleration_structure" ∈ w.deviceExtensions),
        { w with log := w.log ++ evs, driver := drv }) ∧
      createdDevices evs = [] ∧ deviceQueueCalls evs = [] := by
  obtain ⟨e1, d1, h1, g1, q1⟩ := checkExtensionSupport_quiet device "VK_KHR_ray_query" w
  obtain ⟨e2, d2, h2, g2, q2⟩ := checkExtensionSupport_quiet device
    "VK_KHR_acceleration_structure" { w with log := w.log ++ e1, driver := d1 }
  dsimp only at h2
  unfold Core.checkRaytracingSupport
  by_cases hrq : "VK_KHR_ray_query" ∈ w.deviceExtensions
  · refine ⟨e1 ++ e2, d2, ?_, ?_, ?_⟩
    · simp only [h1, hrq, decide_True, if_true, h2, List.append_assoc, true_and]
    · simp only [createdDevices, List.filterMap_append] at g1 g2 ⊢
      rw [g1, g2]; rfl
    · simp only [deviceQueueCalls, List.filterMap_append] at q1 q2 ⊢
      rw [q1, q2]; rfl
  · refine ⟨e1, d1, ?_, g1, q1⟩
    simp [h1, hrq]

/-- The first statements of `createDevice`: the three feature flags by the extension names the
device enumerates, and no device or queue call. -/
theorem selectCache_quiet (w : World) :
    ∃ cache evs drv,
      Core.createDevice.selectCache w =
        { w with
          core := { w.core with supportedFeatures :=
            { RayTracing := decide ("VK_KHR_ray_query" ∈ w.deviceExtensions ∧
                "VK_KHR_acceleration_structure" ∈ w.deviceExtensions),
              VariableRateShading := decide ("VK_KHR_fragment_shading_rate" ∈ w.deviceExtensions),
              DynamicRendering := decide ("VK_KHR_dynamic_rendering" ∈ w.deviceExtensions) } },
          g_renderPassCache := cache,
          log := w.log ++ evs, driver := drv } ∧
      createdDevices evs = [] ∧ deviceQueueCalls evs = [] := by
  obtain ⟨e1, d1, h1, g1, q1⟩ := checkRaytracingSupport_quiet w.core.handles.PhysicalDevice w
  obtain ⟨e2, d2, h2, g2, q2⟩ := checkExtensionSupport_quiet w.core.handles.PhysicalDevice
    "VK_KHR_fragment_shading_rate" { w with log := w.log ++ e1, driver := d1 }
  obtain ⟨e3, d3, h3, g3, q3⟩ := checkExtensionSupport_quiet w.core.handles.PhysicalDevice
    "VK_KHR_dynamic_rendering" { w with log := w.log ++ e1 ++ e2, driver := d2 }
  dsimp only at h2 h3
  unfold Core.createDevice.selectCache
  simp only [h1, h2, h3]
  simp only [createdDevices] at g1 g2 g3
  simp only [deviceQueueCalls] at q1 q2 q3
  by_cases hdr : "VK_KHR_dynamic_rendering" ∈ w.deviceExtensions
  · refine ⟨none, e1 ++ e2 ++ e3, d3, ?_, ?_, ?_⟩
    · simp [hdr, List.append_assoc]
    · simp [createdDevices, List.filterMap_append, g1, g2, g3]
    · simp [deviceQueueCalls, List.filterMap_append, q1, q2, q3]
  · refine ⟨some { passes := [] }, e1 ++ e2 ++ e3 ++ [Event.newRenderPassCache], d3, ?_, ?_, ?_⟩
    · simp [hdr, List.append_assoc, World.emit]
    · simp [createdDevices, List.filterMap_append, g1, g2, g3]
    · simp [deviceQueueCalls, List.filterMap_append, q1, q2, q3]

/-- The section "Device Creation": the creation call carries the create info given, and the
queue calls follow it. -/
theorem create_calls (dci : VkDeviceCreateInfo) (w : World) :
    ∃ evs, (Core.createDevice.create dci w).log = w.log ++ evs ∧
      createdDevices evs ≠ [] ∧ (∀ d ∈ createdDevices evs, d = dci) ∧
      deviceQueueCalls evs =
        ((Core.createDevice.create dci w).core.handles.Device,
          w.core.handles.Queues.GraphicsFamilyIndex, 0) ::
        (if w.core.handles.Queues.AsyncComputeFamilyIndex = UINT32_MAX then []
         else [((Core.createDevice.create dci w).core.handles.Device,
          w.core.handles.Queues.AsyncComputeFamilyIndex, 0)]) := by
  unfold Core.createDevice.create
  simp only [VKCHECK_call_eq, World.call_eq, World.emit]
  split_ifs
  all_goals
    simp only [List.append_assoc, List.cons_append, List.nil_append]
    refine ⟨_, rfl, ?_, ?_, ?_⟩
    · simp [createdDevices]
    · intro d hd
      simp [createdDevices] at hd
      exact hd
    · first
      | (exfalso; omega)
      | simp [deviceQueueCalls]

/-- The driver calls of `createDevice`: the create info of every `vkCreateDevice` call, and the
queue calls that follow. -/
theorem createDevice_calls (target : TargetOS) (deviceExts : Option (List String))
    (w : World) :
    ∃ evs, (Core.createDevice target deviceExts w).log = w.log ++ evs ∧
      createdDevices evs ≠ [] ∧
      (∀ d ∈ createdDevices evs, d = Core.createDevice.dci target
        { RayTracing := decide ("VK_KHR_ray_query" ∈ w.deviceExtensions ∧
            "VK_KHR_acceleration_structure" ∈ w.deviceExtensions),
          VariableRateShading := decide ("VK_KHR_fragment_shading_rate" ∈ w.deviceExtensions),
          DynamicRendering := decide ("VK_KHR_dynamic_rendering" ∈ w.deviceExtensions) }
        deviceExts w.core.handles.Queues) ∧
      deviceQueueCalls evs =
        ((Core.createDevice target deviceExts w).core.handles.Device,
          w.core.handles.Queues.GraphicsFamilyIndex, 0) ::
        (if w.core.handles.Queues.AsyncComputeFamilyIndex = UINT32_MAX then []
         else [((Core.createDevice target deviceExts w).core.handles.Device,
          w.core.handles.Queues.AsyncComputeFamilyIndex, 0)]) := by
  obtain ⟨cache, evs, drv, hsel, hcd, hdq⟩ := selectCache_quiet w
  unfold Core.createDevice
  obtain ⟨evs2, hl, hne, hall, hq⟩ := create_calls
    (Core.createDevice.dci target (Core.createDevice.selectCache w).core.supportedFeatures
      deviceExts (Core.createDevice.selectCache w).core.handles.Queues)
    (Core.createDevice.selectCache w)
  refine ⟨evs ++ evs2, ?_, ?_, ?_, ?_⟩
  · rw [hl, hsel]
    simp [List.append_assoc]
  · simp only [createdDevices, List.filterMap_append] at hcd hne ⊢
    rw [hcd, List.nil_append]
    exact hne
  · intro d hd
    simp only [createdDevices, List.filterMap_append] at hcd hd
    rw [hcd, List.nil_append] at hd
    have := hall d hd
    rw [this, hsel]
  · simp only [deviceQueueCalls, List.filterMap_append] at hdq hq ⊢
    rw [hdq, List.nil_append, hq, hsel]

/-- C15: every `vkCreateDevice` call of `createDevice` requests one queue create info, for the
graphics family with one queue, when `AsyncComputeFamilyIndex` is `~0`, and two otherwise, the
graphics family first and the async compute family second, one queue each; the graphics queue is
fetched from the graphics family at queue index 0, and the async compute queue is fetched, from
its family at index 0, exactly when the index is not `~0`. -/
theorem createDevice_queue_requests (target : TargetOS) (deviceExts : Option (List String))
    (w : World) :
    ∃ evs, (Core.createDevice target deviceExts w).log = w.log ++ evs ∧
      createdDevices evs ≠ [] ∧
      (∀ d ∈ createdDevices evs,
        d.queueCreateInfoCount =
          (if w.core.handles.Queues.AsyncComputeFamilyIndex = UINT32_MAX then 1 else 2) ∧
        d.pQueueCreateInfos.take d.queueCreateInfoCount =
          { sType := VK_STRUCTURE_TYPE_DEVICE_QUEUE_CREATE_INFO,
            queueFamilyIndex := w.core.handles.Queues.GraphicsFamilyIndex, queueCount := 1,
            pQueuePriorities := [F32_ONE] } ::
          (if w.core.handles.Queues.AsyncComputeFamilyIndex = UINT32_MAX then []
           else [{ sType := VK_STRUCTURE_TYPE_DEVICE_QUEUE_CREATE_INFO,
                   queueFamilyIndex := w.core.handles.Queues.AsyncComputeFamilyIndex,
                   queueCount := 1, pQueuePriorities := [F32_ONE] }])) ∧
      deviceQueueCalls evs =
        ((Core.createDevice target deviceExts w).core.handles.Device,
          w.core.handles.Queues.GraphicsFamilyIndex, 0) ::
        (if w.core.handles.Queues.AsyncComputeFamilyIndex = UINT32_MAX then []
         else [((Core.createDevice target deviceExts w).core.handles.Device,
          w.core.handles.Queues.AsyncComputeFamilyIndex, 0)]) := by
  obtain ⟨evs, hl, hne, hall, hq⟩ := createDevice_calls target deviceExts w
  refine ⟨evs, hl, hne, ?_, hq⟩
  intro d hd
  rw [hall d hd]
  by_cases hA : w.core.handles.Queues.AsyncComputeFamilyIndex = UINT32_MAX
  · simp [Core.createDevice.dci, Core.createDevice.queueCreateInfos, hA]
  · simp [Core.createDevice.dci, Core.createDevice.queueCreateInfos, hA]

/-- The feature chain of `createDevice` for every combination of the support flags: the four
core structures, then the three ray tracing structures when `RayTracing` is set, then the
shading rate structure when `VariableRateShading` is set; a ninth step finds no further
structure, and no structure occurs twice. -/
theorem chain_linked (target : TargetOS) (sf : GraphicsSupportedFeatures)
    (deviceExts : Option (List String)) (queues : Queues) :
    (Core.createDevice.dci target sf deviceExts queues).linked =
      [.features2, .vulkan11, .vulkan12, .vulkan13] ++
      (if sf.RayTracing then [.accelerationStructure, .rayQuery, .rayTracingPipeline] else []) ++
      (if sf.VariableRateShading then [.fragmentShadingRate] else []) ∧
    (Core.createDevice.dci target sf deviceExts queues).chain.walk 9
        (Core.createDevice.dci target sf deviceExts queues).pNext =
      (Core.createDevice.dci target sf deviceExts queues).linked ∧
    (Core.createDevice.dci target sf deviceExts queues).linked.Nodup := by
  obtain ⟨rt, vrs, dr⟩ := sf
  cases rt <;> cases vrs
  · refine ⟨rfl, rfl, ?_⟩
    show List.Nodup [FeatureStruct.features2, .vulkan11, .vulkan12, .vulkan13]
    decide
  · refine ⟨rfl, rfl, ?_⟩
    show List.Nodup [FeatureStruct.features2, .vulkan11, .vulkan12, .vulkan13,
      .fragmentShadingRate]
    decide
  · refine ⟨rfl, rfl, ?_⟩
    show List.Nodup [FeatureStruct.features2, .vulkan11, .vulkan12, .vulkan13,
      .accelerationStructure, .rayQuery, .rayTracingPipeline]
    decide
  · refine ⟨rfl, rfl, ?_⟩
    show List.Nodup [FeatureStruct.features2, .vulkan11, .vulkan12, .vulkan13,
      .accelerationStructure, .rayQuery, .rayTracingPipeline, .fragmentShadingRate]
    decide

/-- C17, the defect: on a device that enumerates the ray query and the acceleration structure
extension, the create info of `createDevice` links the ray tracing pipeline feature structure,
whose extension `VK_KHR_ray_tracing_pipeline` is not among the enabled names; every other
linked structure of an extension has its name enabled. -/
theorem ray_tracing_pipeline_struct_without_extension_name :
    ∃ evs, (Core.createDevice .other none exampleRayTracingWorld).log =
        exampleRayTracingWorld.log ++ evs ∧
      createdDevices evs ≠ [] ∧
      ∀ d ∈ createdDevices evs,
        FeatureStruct.rayTracingPipeline ∈ d.linked ∧
        FeatureStruct.rayTracingPipeline.extension = some "VK_KHR_ray_tracing_pipeline" ∧
        "VK_KHR_ray_tracing_pipeline" ∉ d.ppEnabledExtensionNames ∧
        ∀ s ∈ d.linked, s ≠ FeatureStruct.rayTracingPipeline →
          ∀ name, s.extension = some name → name ∈ d.ppEnabledExtensionNames := by
  obtain ⟨evs, hl, hne, hall, _⟩ := createDevice_calls .other none exampleRayTracingWorld
  refine ⟨evs, hl, hne, ?_⟩
  intro d hd
  rw [hall d hd]
  decide

/-! ## The layout builder and the compute pipeline builder -/

theorem applyCalls_eq (cs : List LayoutCall) : ∀ b : PipelineLayoutBuilder,
    applyCalls b cs =
      { handles := b.handles,
        pushConstants := b.pushConstants ++ cs.filterMap LayoutCall.range,
        descriptorSetLayouts := b.descriptorSetLayouts ++ cs.filterMap LayoutCall.setLayout } := by
  induction cs with
  | nil => intro b; simp [applyCalls]
  | cons c rest ih =>
    intro b
    have hstep : applyCalls b (c :: rest) = applyCalls (LayoutCall.apply b c) rest := rfl
    rw [hstep, ih]
    cases c with
    | PushConstants stages offset size =>
      simp [LayoutCall.apply, PipelineLayoutBuilder.PushConstants, LayoutCall.range,
        LayoutCall.setLayout]
    | DescriptorSet dsl =>
      simp [LayoutCall.apply, PipelineLayoutBuilder.DescriptorSet, LayoutCall.range,
        LayoutCall.setLayout]

theorem layout_Build_created (b : PipelineLayoutBuilder) (w : World) :
    ∃ evs, (b.Build w).2.log = w.log ++ evs ∧ createdLayouts evs ≠ [] ∧
      ∀ p ∈ createdLayouts evs, p = (b.handles.Device, PipelineLayoutBuilder.Build.plci b) := by
  unfold PipelineLayoutBuilder.Build
  simp only [VKCHECK_call_eq]
  split_ifs
  · refine ⟨_, rfl, ?_, ?_⟩
    · simp [createdLayouts]
    · intro p hp
      simp [createdLayouts] at hp
      exact hp
  · refine ⟨_, rfl, ?_, ?_⟩
    · simp [createdLayouts]
    · intro p hp
      simp [createdLayouts] at hp
      exact hp

/-- C14: `PushConstants` and `DescriptorSet` each return the builder with one element appended
to their own list and the other list untouched; after a chain of calls on a new builder every
creation call of `Build` carries the ranges of the `PushConstants` calls and the set layouts of
the `DescriptorSet` calls, each in call order, with `pushConstantRangeCount` and
`setLayoutCount` the numbers of those calls. -/
theorem layout_builder_keeps_call_order (handles : Handles) (b : PipelineLayoutBuilder)
    (stages : ShaderStage) (offset size : Nat) (dsl : DescriptorSetLayout)
    (cs : List LayoutCall) (w : World)
    (hpc : (cs.filterMap LayoutCall.range).length < UINT32_SIZE)
    (hsl : (cs.filterMap LayoutCall.setLayout).length < UINT32_SIZE) :
    b.PushConstants stages offset size =
      { handles := b.handles,
        pushConstants := b.pushConstants ++
          [{ stages := stages, offset := offset, size := size }],
        descriptorSetLayouts := b.descriptorSetLayouts } ∧
    b.DescriptorSet dsl =
      { handles := b.handles, pushConstants := b.pushConstants,
        descriptorSetLayouts := b.descriptorSetLayouts ++ [dsl.nativeHandle] } ∧
    ∃ evs, ((applyCalls (PipelineLayoutBuilder.new handles) cs).Build w).2.log = w.log ++ evs ∧
      createdLayouts evs ≠ [] ∧
      ∀ p ∈ createdLayouts evs,
        p.2.pPushConstantRanges = cs.filterMap LayoutCall.range ∧
        p.2.pushConstantRangeCount = (cs.filterMap LayoutCall.range).length ∧
        p.2.pSetLayouts = cs.filterMap LayoutCall.setLayout ∧
        p.2.setLayoutCount = (cs.filterMap LayoutCall.setLayout).length := by
  refine ⟨rfl, rfl, ?_⟩
  obtain ⟨evs, hl, hne, hall⟩ := layout_Build_created
    (applyCalls (PipelineLayoutBuilder.new handles) cs) w
  refine ⟨evs, hl, hne, ?_⟩
  intro p hp
  rw [hall p hp, applyCalls_eq]
  simp only [PipelineLayoutBuilder.Build.plci, PipelineLayoutBuilder.new, List.nil_append]
  exact ⟨trivial, Nat.mod_eq_of_lt hpc, trivial, Nat.mod_eq_of_lt hsl⟩

/-- Witness of C14: two `PushConstants` calls interleaved with two `DescriptorSet` calls. -/
theorem layout_builder_keeps_call_order_witness :
    (exampleLayoutCalls.filterMap LayoutCall.range).length < UINT32_SIZE ∧
    (exampleLayoutCalls.filterMap LayoutCall.setLayout).length < UINT32_SIZE ∧
    ∃ evs, ((applyCalls (PipelineLayoutBuilder.new exampleHandles) exampleLayoutCalls).Build
        (exampleWorld 4 none [])).2.log = (exampleWorld 4 none []).log ++ evs ∧
      createdLayouts evs ≠ [] ∧
      ∀ p ∈ createdLayouts evs,
        p.2.pPushConstantRanges = exampleLayoutCalls.filterMap LayoutCall.range ∧
        p.2.pushConstantRangeCount = (exampleLayoutCalls.filterMap LayoutCall.range).length ∧
        p.2.pSetLayouts = exampleLayoutCalls.filterMap LayoutCall.setLayout ∧
        p.2.setLayoutCount = (exampleLayoutCalls.filterMap LayoutCall.setLayout).length :=
  ⟨by decide, by decide,
    (layout_builder_keeps_call_order exampleHandles (PipelineLayoutBuilder.new exampleHandles)
      .Vertex 0 64 { nativeHandle := 81 } exampleLayoutCalls (exampleWorld 4 none [])
      (by decide) (by decide)).2.2⟩

theorem headD_ok (driver : List (Int × Handle)) (hok : ∀ a ∈ driver, a.1 = 0) :
    (driver.headD (0, VK_NULL_HANDLE)).1 = 0 := by
  cases driver with
  | nil => rfl
  | cons a rest => exact hok a (List.mem_cons_self a rest)

theorem tail_ok (driver : List (Int × Handle)) (hok : ∀ a ∈ driver, a.1 = 0) :
    ∀ a ∈ driver.tail, a.1 = 0 := by
  intro a ha
  exact hok a (List.mem_of_mem_tail ha)

/-- C12, refuted as stated: the same builder, built in two worlds that differ in
`g_renderPassCache` only, passes different creation parameters: with the empty cache the
render pass is the handle 70 of the pass just compiled, without a cache it is null; and
building on the empty cache changes the cache. -/
theorem graphics_build_reads_and_fills_render_pass_cache :
    (createdPipelines (exampleBuilder.Build
        (exampleWorld 4 (some { passes := [] }) [(0, 70), (0, 71)])).2.log).map
        (fun p => p.renderPass) = [70] ∧
    (createdPipelines (exampleBuilder.Build
        { exampleWorld 4 (some { passes := [] }) [(0, 70), (0, 71)] with
          g_renderPassCache := none }).2.log).map
        (fun p => p.renderPass) = [VK_NULL_HANDLE] ∧
    (exampleBuilder.Build
        (exampleWorld 4 (some { passes := [] }) [(0, 70), (0, 71)])).2.g_renderPassCache =
      some { passes := [(exampleBuilder.rpKey, 70)] } ∧
    (exampleWorld 4 (some { passes := [] }) [(0, 70), (0, 71)]).g_renderPassCache =
      some { passes := [] } := by
  decide

/-- C12, amended: when the driver reports success, `PipelineBuilder::Build` makes one creation
call and changes nothing of the `Core`. Without a render pass cache its create info is, in
every member other than `pNext`, the one made from the builder's fields, and the world is
unchanged beyond the call; with a cache the create info carries the render pass `GetPass`
returned for the builder's key, and the cache is the one `GetPass` left.
`ComputePipelineBuilder::Build` makes one creation call with the compute stage of its shader
module and its layout, and changes nothing else. -/
theorem pipeline_builds_translate_fields_and_cache (b : PipelineBuilder)
    (cb : ComputePipelineBuilder) (m : ShaderModule) (w : World)
    (hm : cb.shaderModule = some m) (hok : ∀ a ∈ w.driver, a.1 = 0) :
    cb.Build w = some
      ({ pipeline := (w.driver.headD (0, VK_NULL_HANDLE)).2 },
       { w with
         log := w.log ++ [Event.vkCreateComputePipelines w.core.handles.Device
           { stage := { stage := .VK_SHADER_STAGE_COMPUTE_BIT, module := m.mod,
                        pName := "main" },
             layout := cb.pipelineLayout }],
         driver := w.driver.tail }) ∧
    (w.g_renderPassCache = none →
      ∃ pNext, (b.Build w).2 =
        { w with
          log := w.log ++ [Event.vkCreateGraphicsPipelines w.core.handles.Device
            { PipelineBuilder.Build.pci b with pNext := pNext }],
          driver := w.driver.tail }) ∧
    (∀ c, w.g_renderPassCache = some c →
      (b.Build w).2.core = w.core ∧
      (b.Build w).2.g_renderPassCache = (c.GetPass b.rpKey w).2.g_renderPassCache ∧
      ∃ evs, (b.Build w).2.log = w.log ++ evs ∧
        createdPipelines evs =
          [{ PipelineBuilder.Build.pci b with renderPass := (c.GetPass b.rpKey w).1 }]) := by
  have h0 := headD_ok w.driver hok
  refine ⟨?_, ?_, ?_⟩
  · unfold ComputePipelineBuilder.Build
    simp only [hm, VKCHECK_call_eq, h0, if_true]
  · intro hc
    refine ⟨PNextPointer.ended, ?_⟩
    unfold PipelineBuilder.Build
    simp only [hc, VKCHECK_call_eq, h0, if_true, PNextPointer.leaveScope]
  · intro c hc
    unfold PipelineBuilder.Build
    simp only [hc]
    by_cases hk : b.rpKey ∈ c.passes.map Prod.fst
    · obtain ⟨handle, hg⟩ := GetPass_hit c b.rpKey w hk
      rw [hg]
      simp only [VKCHECK_call_eq, h0, if_true]
      refine ⟨trivial, trivial, [Event.GetPass b.rpKey, Event.vkCreateGraphicsPipelines
        w.core.handles.Device { PipelineBuilder.Build.pci b with renderPass := handle }], ?_, ?_⟩
      · simp only [List.append_assoc]
        rfl
      · rfl
    · obtain ⟨handle, hg⟩ := GetPass_miss c b.rpKey w hk
      rw [hg]
      have h1 := headD_ok w.driver.tail (tail_ok w.driver hok)
      simp only [VKCHECK_call_eq, h1, if_true]
      refine ⟨trivial, trivial, [Event.GetPass b.rpKey, Event.compilePass b.rpKey,
        Event.vkCreateGraphicsPipelines w.core.handles.Device
          { PipelineBuilder.Build.pci b with renderPass := handle }], ?_, ?_⟩
      · simp only [List.append_assoc]
        rfl
      · rfl

/-- Witness of amended C12: the example builders in a world without a cache whose driver
answers the creation call with success. -/
theorem pipeline_builds_translate_fields_and_cache_witness :
    exampleComputeBuilder.shaderModule = some { handles := exampleHandles, mod := 51 } ∧
    (∀ a ∈ (exampleWorld 4 none [(0, 70)]).driver, a.1 = 0) ∧
    exampleComputeBuilder.Build (exampleWorld 4 none [(0, 70)]) = some
      ({ pipeline := 70 },
       { exampleWorld 4 none [(0, 70)] with
         log := [Event.vkCreateComputePipelines exampleHandles.Device
           { stage := { stage := .VK_SHADER_STAGE_COMPUTE_BIT, module := 51, pName := "main" },
             layout := 60 }],
         driver := [] }) :=
  ⟨rfl, by decide,
    (pipeline_builds_translate_fields_and_cache exampleBuilder exampleComputeBuilder
      { handles := exampleHandles, mod := 51 } (exampleWorld 4 none [(0, 70)]) rfl
      (by decide)).1⟩

end R2.VK
